import Mathlib

/-!
Verification of the mlflow-go-client API client core.

The definitions below are a shallow embedding of the Go sources
(`pkg/mlflow/client.go` and the model/struct declarations).  Go machine
integers (`int`, `int64`) are modelled as `Int`; Go strings as `String`;
Go slices as `Option (List α)` so that the `nil` slice and a non-nil
slice remain distinguishable (Go's `reflect.DeepEqual` distinguishes
them, and `encoding/json` treats both the same only at length 0);
Go `float64` fields are carried as Lean `Float` data (never computed
with).  JSON documents are modelled as a tree type `Json`; marshalling
of the client's typed request values is embedded per type following the
struct tags in the source, and Go map bodies are embedded with their
keys in sorted order, which is how `encoding/json` serialises maps.
`json.Unmarshal` of a response body into the `ErrorResponse` struct is
modelled by a small executable JSON parser composed with a typed
decoder; the parser follows the JSON grammar (objects, arrays, strings
with escapes, integers, and non-integer numbers kept as raw lexemes,
booleans, null) and the decoder follows Go's decoding rules for the
struct fields involved (missing key gives the zero value, `null` leaves
the zero value, a wrong type is an unmarshalling error).
-/

namespace MlflowClient

/-- The open-brace character, kept as a named constant. -/
def lbrace : Char := Char.ofNat 123

/-- The close-brace character, kept as a named constant. -/
def rbrace : Char := Char.ofNat 125

/-- A Go `float64` value as the client carries it: never computed
with, only stored and marshalled. Modelled by its IEEE-754 bit pattern
so that finiteness (the condition under which `encoding/json` accepts
the value) is a decidable test on the exponent bits. -/
structure GoFloat64 where
  bits : Nat
  deriving Repr, DecidableEq

/-- A float64 is finite when its exponent bits are not all ones (all
ones encodes NaN and the infinities, which `json.Marshal` rejects with
an unsupported-value error). -/
def GoFloat64.isFinite (v : GoFloat64) : Bool :=
  (v.bits / 2 ^ 52) % 2 ^ 11 ≠ 2 ^ 11 - 1

/-- The zero value of a Go float64 (bit pattern 0). -/
def GoFloat64.zero : GoFloat64 := ⟨0⟩

/-- JSON document tree. `decimal` holds the raw lexeme of a non-integer
number; the client never decodes such a value into any of the fields
modelled here, so only its presence matters. `fnum` is produced when
marshalling a Go `float64` field and carries the float64 value itself,
modelling the shortest decimal representation that `strconv` guarantees
parses back to exactly that value. -/
inductive Json where
  | null : Json
  | bool : Bool → Json
  | num : Int → Json
  | fnum : GoFloat64 → Json
  | decimal : String → Json
  | str : String → Json
  | arr : List Json → Json
  | obj : List (String × Json) → Json
  deriving Repr

mutual

/-- Whether `json.Marshal` accepts a document: it fails exactly when a
non-finite float64 occurs anywhere in the value. -/
def Json.marshalable : Json → Bool
  | Json.null => true
  | Json.bool _ => true
  | Json.num _ => true
  | Json.fnum v => v.isFinite
  | Json.decimal _ => true
  | Json.str _ => true
  | Json.arr xs => marshalableList xs
  | Json.obj fs => marshalableFields fs

/-- All array elements marshalable. -/
def marshalableList : List Json → Bool
  | [] => true
  | j :: js => j.marshalable && marshalableList js

/-- All object member values marshalable. -/
def marshalableFields : List (String × Json) → Bool
  | [] => true
  | (_, j) :: fs => j.marshalable && marshalableFields fs

end

/-- Whitespace characters recognised by the JSON grammar. -/
def isJsonWs (c : Char) : Bool :=
  c = ' ' || c = '\t' || c = '\n' || c = '\r'

/-- Drop leading JSON whitespace. -/
def skipWs : List Char → List Char
  | [] => []
  | c :: cs => if isJsonWs c then skipWs cs else c :: cs

/-- Value of a hexadecimal digit. -/
def hexVal (c : Char) : Option Nat :=
  if c.isDigit then some (c.toNat - 48)
  else if 'a' ≤ c && c ≤ 'f' then some (c.toNat - 87)
  else if 'A' ≤ c && c ≤ 'F' then some (c.toNat - 55)
  else none

/-- Parse exactly four hexadecimal digits. -/
def parseHex4 : List Char → Option (Nat × List Char)
  | c1 :: c2 :: c3 :: c4 :: rest => do
    let v1 ← hexVal c1
    let v2 ← hexVal c2
    let v3 ← hexVal c3
    let v4 ← hexVal c4
    some (((v1 * 16 + v2) * 16 + v3) * 16 + v4, rest)
  | _ => none

/-- Parse the remainder of a JSON string literal (after the opening
quote), handling the escape sequences of the JSON grammar. -/
def parseStringRest : Nat → List Char → List Char → Option (String × List Char)
  | 0, _, _ => none
  | _ + 1, _, [] => none
  | fuel + 1, acc, c :: cs =>
    if c = '"' then some (String.mk acc.reverse, cs)
    else if c = '\\' then
      match cs with
      | [] => none
      | e :: cs2 =>
        if e = '"' then parseStringRest fuel ('"' :: acc) cs2
        else if e = '\\' then parseStringRest fuel ('\\' :: acc) cs2
        else if e = '/' then parseStringRest fuel ('/' :: acc) cs2
        else if e = 'b' then parseStringRest fuel (Char.ofNat 8 :: acc) cs2
        else if e = 'f' then parseStringRest fuel (Char.ofNat 12 :: acc) cs2
        else if e = 'n' then parseStringRest fuel ('\n' :: acc) cs2
        else if e = 'r' then parseStringRest fuel ('\r' :: acc) cs2
        else if e = 't' then parseStringRest fuel ('\t' :: acc) cs2
        else if e = 'u' then
          match parseHex4 cs2 with
          | some (n, cs3) => parseStringRest fuel (Char.ofNat n :: acc) cs3
          | none => none
        else none
    else parseStringRest fuel (c :: acc) cs

/-- Take a maximal run of decimal digits. -/
def takeDigits : List Char → List Char × List Char
  | [] => ([], [])
  | c :: cs =>
    if c.isDigit then
      let (ds, rest) := takeDigits cs
      (c :: ds, rest)
    else ([], c :: cs)

/-- Numeric value of a digit run. -/
def digitsToNat : List Char → Nat
  | [] => 0
  | c :: cs => digitsToNat cs + (c.toNat - 48) * 10 ^ cs.length

/-- Parse a JSON number. Integers become `Json.num`; a number with a
fraction or an exponent becomes `Json.decimal` carrying its lexeme. -/
def parseNumber (cs : List Char) : Option (Json × List Char) :=
  let (neg, cs1) :=
    match cs with
    | '-' :: rest => (true, rest)
    | _ => (false, cs)
  let (ds, cs2) := takeDigits cs1
  match ds with
  | [] => none
  | d0 :: drest =>
    -- the JSON grammar forbids leading zeros
    if d0 = '0' && drest ≠ [] then none
    else
      match cs2 with
      | c :: _ =>
        if c = '.' || c = 'e' || c = 'E' then
          let (tail, cs3) :=
            (cs2.span fun ch =>
              ch.isDigit || ch = '.' || ch = 'e' || ch = 'E' || ch = '+' || ch = '-')
          some (Json.decimal (String.mk ((if neg then ['-'] else []) ++ ds ++ tail)), cs3)
        else
          some (Json.num (if neg then -(digitsToNat ds : Int) else (digitsToNat ds : Int)), cs2)
      | [] =>
        some (Json.num (if neg then -(digitsToNat ds : Int) else (digitsToNat ds : Int)), cs2)

mutual

/-- Parse one JSON value. Fuel decreases on every recursive call; the
top-level entry point supplies enough fuel for any input. -/
def parseValue : Nat → List Char → Option (Json × List Char)
  | 0, _ => none
  | fuel + 1, cs =>
    match skipWs cs with
    | [] => none
    | c :: rest =>
      if c = '"' then
        match parseStringRest (rest.length + 1) [] rest with
        | some (s, r) => some (Json.str s, r)
        | none => none
      else if c = 't' then
        match rest with
        | 'r' :: 'u' :: 'e' :: r => some (Json.bool true, r)
        | _ => none
      else if c = 'f' then
        match rest with
        | 'a' :: 'l' :: 's' :: 'e' :: r => some (Json.bool false, r)
        | _ => none
      else if c = 'n' then
        match rest with
        | 'u' :: 'l' :: 'l' :: r => some (Json.null, r)
        | _ => none
      else if c = '[' then
        match skipWs rest with
        | ']' :: r => some (Json.arr [], r)
        | other => parseElems fuel other []
      else if c = lbrace then
        match skipWs rest with
        | d :: r =>
          if d = rbrace then some (Json.obj [], r)
          else parseMembers fuel (d :: r) []
        | [] => none
      else if c = '-' || c.isDigit then parseNumber (c :: rest)
      else none

/-- Parse the elements of a non-empty JSON array (after the opening
bracket), accumulating in reverse. -/
def parseElems : Nat → List Char → List Json → Option (Json × List Char)
  | 0, _, _ => none
  | fuel + 1, cs, acc =>
    match parseValue fuel cs with
    | none => none
    | some (v, r) =>
      match skipWs r with
      | ',' :: r2 => parseElems fuel r2 (v :: acc)
      | ']' :: r2 => some (Json.arr (v :: acc).reverse, r2)
      | _ => none

/-- Parse the members of a non-empty JSON object (after the opening
brace), accumulating in reverse. -/
def parseMembers : Nat → List Char → List (String × Json) → Option (Json × List Char)
  | 0, _, _ => none
  | fuel + 1, cs, acc =>
    match skipWs cs with
    | '"' :: r =>
      match parseStringRest (r.length + 1) [] r with
      | none => none
      | some (k, r1) =>
        match skipWs r1 with
        | ':' :: r2 =>
          match parseValue fuel r2 with
          | none => none
          | some (v, r3) =>
            match skipWs r3 with
            | d :: r4 =>
              if d = ',' then parseMembers fuel r4 ((k, v) :: acc)
              else if d = rbrace then some (Json.obj ((k, v) :: acc).reverse, r4)
              else none
            | [] => none
        | _ => none
    | _ => none

end

/-- Parse a whole JSON document: one value followed only by whitespace,
as `json.Unmarshal` requires. -/
def Json.parse (s : String) : Option Json :=
  match parseValue (2 * s.length + 2) s.data with
  | some (v, rest) => if skipWs rest = [] then some v else none
  | none => none

/-- `ErrorResponse` struct: `{error_code, message}` (models.go). -/
structure ErrorResponse where
  errorCode : String
  message : String
  deriving Repr, DecidableEq

/-- Last-wins lookup of an object member, matching how `encoding/json`
fills a struct field when a key occurs more than once. -/
def getField : List (String × Json) → String → Option Json
  | [], _ => none
  | (k, v) :: rest, key =>
    match getField rest key with
    | some r => some r
    | none => if k = key then some v else none

/-- Decode a JSON value into a Go `string` field: `null` leaves the
zero value, any non-string value is an unmarshalling error. -/
def jsonToGoString : Json → Option String
  | Json.str s => some s
  | Json.null => some ""
  | _ => none

/-- Decode an object member into a Go `string` struct field. A missing
key leaves the zero value `""`. -/
def decS (fs : List (String × Json)) (k : String) : Option String :=
  match getField fs k with
  | none => some ""
  | some j => jsonToGoString j

/-- Models `json.Unmarshal(respBody, &errorResp)` for the two-field
`ErrorResponse` struct: any JSON object decodes (unknown keys ignored,
present keys must hold strings or null), `null` decodes to the zero
struct, and any other document is an unmarshalling error. -/
def ErrorResponse.fromJson : Json → Option ErrorResponse
  | Json.obj fs => do
    let ec ← decS fs ("error_code")
    let m ← decS fs ("message")
    some ⟨ec, m⟩
  | Json.null => some ⟨"", ""⟩
  | _ => none

/-- Composition of JSON parsing and struct decoding; `none` exactly when
Go's `json.Unmarshal` into `ErrorResponse` returns a non-nil error. -/
def unmarshalErrorResponse (s : String) : Option ErrorResponse :=
  (Json.parse s).bind ErrorResponse.fromJson

/-- `APIError` struct, fields in source order (models file). -/
structure APIError where
  statusCode : Int
  message : String
  responseBody : String
  errorCode : String
  deriving Repr, DecidableEq

/-- An HTTP response as the client sees it: status code and the bytes
of the fully-read body. -/
structure HTTPResponse where
  statusCode : Int
  body : String
  deriving Repr, DecidableEq

/-- Status/body handling of `doRequest` (client.go lines 101-119): a
non-2xx status yields an `APIError` built from the status code and raw
body, with code/message taken from the body when it unmarshals as an
`ErrorResponse` and the raw body as message otherwise; a 2xx status
yields the raw body bytes. -/
def handleResponse (resp : HTTPResponse) : Except APIError String :=
  if resp.statusCode < 200 ∨ 300 ≤ resp.statusCode then
    let base : APIError :=
      { statusCode := resp.statusCode, message := "", responseBody := resp.body, errorCode := "" }
    match unmarshalErrorResponse resp.body with
    | some errorResp =>
      Except.error { base with errorCode := errorResp.errorCode, message := errorResp.message }
    | none =>
      Except.error { base with message := resp.body }
  else
    Except.ok resp.body

/-- Status/body handling of `doTextRequest` (client.go lines 825-834):
no JSON error parsing; a non-2xx status yields an `APIError` whose
message is the raw body. -/
def handleTextResponse (resp : HTTPResponse) : Except APIError String :=
  if resp.statusCode < 200 ∨ 300 ≤ resp.statusCode then
    Except.error
      { statusCode := resp.statusCode, message := resp.body,
        responseBody := resp.body, errorCode := "" }
  else
    Except.ok resp.body

/-- Client configuration (the `Client` struct): base URL and optional
bearer token. The embedded HTTP transport and its timeout are outside
the model. -/
structure Client where
  baseURL : String
  authToken : String
  deriving Repr, DecidableEq

/-- `NewClient`: trims one trailing slash from the base URL and leaves
the auth token unset. -/
def NewClient (baseURL : String) : Client :=
  let b :=
    if baseURL.length > 0 ∧ baseURL.back = '/' then baseURL.dropRight 1 else baseURL
  ⟨b, ""⟩

/-- The triple each typed operation hands to `doRequest`: HTTP method,
endpoint path (query string already embedded), optional JSON body
(`none` models a Go `nil` body). -/
structure ClientRequest where
  method : String
  endpoint : String
  body : Option Json
  deriving Repr

/-- An outgoing HTTP request as built by `doRequest`. -/
structure HTTPRequest where
  method : String
  url : String
  headers : List (String × String)
  body : Option Json
  deriving Repr

/-- Request construction of `doRequest` (client.go lines 70-88): URL is
base URL plus endpoint; the JSON content-type header is set
unconditionally; the bearer authorization header is added exactly when
a token is configured. -/
def doRequestOutgoing (c : Client) (r : ClientRequest) : HTTPRequest :=
  { method := r.method
    url := c.baseURL ++ r.endpoint
    headers :=
      [("Content-Type", "application/json")] ++
        (if c.authToken ≠ "" then [("Authorization", "Bearer " ++ c.authToken)] else [])
    body := r.body }

/-- Whole `doRequest` round trip against a transport that maps the
outgoing request to the received response. -/
def doRequest (c : Client) (transport : HTTPRequest → HTTPResponse)
    (r : ClientRequest) : Except APIError String :=
  handleResponse (transport (doRequestOutgoing c r))

/-- The issued network calls of an operation whose request construction
may fail locally: a local validation error means `doRequest` is never
invoked; otherwise exactly the one constructed request is executed. -/
def issuedCalls : Except String ClientRequest → List ClientRequest
  | Except.error _ => []
  | Except.ok r => [r]

/-- `http.MethodGet`. -/
def MethodGet : String := "GET"

/-- `http.MethodPost`. -/
def MethodPost : String := "POST"

/-- `http.MethodPatch`. -/
def MethodPatch : String := "PATCH"

/-- `http.MethodDelete`. -/
def MethodDelete : String := "DELETE"

/-! API endpoint constants (client.go lines 132-203). -/

def apiBasePath : String := "/api/2.0/mlflow"
def experimentsBaseURL : String := apiBasePath ++ "/experiments"
def runsBaseURL : String := apiBasePath ++ "/runs"
def registeredModelsBaseURL : String := apiBasePath ++ "/registered-models"
def modelVersionsBaseURL : String := apiBasePath ++ "/model-versions"

def endpointHealth : String := "/health"
def endpointVersion : String := "/version"

def endpointExperimentsCreate : String := experimentsBaseURL ++ "/create"
def endpointExperimentsGetBase : String := experimentsBaseURL ++ "/get"
def endpointExperimentsGetByNameBase : String := experimentsBaseURL ++ "/get-by-name"
def endpointExperimentsDeleteBase : String := experimentsBaseURL ++ "/delete"
def endpointExperimentsRestoreBase : String := experimentsBaseURL ++ "/restore"
def endpointExperimentsUpdate : String := experimentsBaseURL ++ "/update"
def endpointExperimentsSetTag : String := experimentsBaseURL ++ "/set-experiment-tag"
def endpointExperimentsDeleteTag : String := experimentsBaseURL ++ "/delete-experiment-tag"
def endpointExperimentsSearch : String := experimentsBaseURL ++ "/search"

def endpointRunsCreate : String := runsBaseURL ++ "/create"
def endpointRunsGet : String := runsBaseURL ++ "/get"
def endpointRunsSearch : String := runsBaseURL ++ "/search"
def endpointRunsUpdate : String := runsBaseURL ++ "/update"
def endpointRunsDelete : String := runsBaseURL ++ "/delete"
def endpointRunsRestore : String := runsBaseURL ++ "/restore"
def endpointRunsLogMetric : String := runsBaseURL ++ "/log-metric"
def endpointRunsLogParameter : String := runsBaseURL ++ "/log-parameter"
def endpointRunsSetTag : String := runsBaseURL ++ "/set-tag"
def endpointRunsDeleteTag : String := runsBaseURL ++ "/delete-tag"
def endpointRunsLogBatch : String := runsBaseURL ++ "/log-batch"
def endpointRunsLogModel : String := runsBaseURL ++ "/log-model"
def endpointRunsLogInputs : String := runsBaseURL ++ "/log-inputs"

def endpointMetricsGetHistoryBase : String := apiBasePath ++ "/metrics/get-history"
def endpointArtifactsListBase : String := apiBasePath ++ "/artifacts/list"

def endpointRegisteredModelsCreate : String := registeredModelsBaseURL ++ "/create"
def endpointRegisteredModelsGet : String := registeredModelsBaseURL ++ "/get"
def endpointRegisteredModelsList : String := registeredModelsBaseURL ++ "/list"
def endpointRegisteredModelsUpdate : String := registeredModelsBaseURL ++ "/update"
def endpointRegisteredModelsDelete : String := registeredModelsBaseURL ++ "/delete"
def endpointRegisteredModelsRename : String := registeredModelsBaseURL ++ "/rename"
def endpointRegisteredModelsGetLatestVersions : String :=
  registeredModelsBaseURL ++ "/get-latest-versions"
def endpointRegisteredModelsSearch : String := registeredModelsBaseURL ++ "/search"
def endpointRegisteredModelsSetTag : String := registeredModelsBaseURL ++ "/set-tag"
def endpointRegisteredModelsDeleteTagBase : String := registeredModelsBaseURL ++ "/delete-tag"
def endpointRegisteredModelsAliasBase : String := registeredModelsBaseURL ++ "/alias"
def endpointRegisteredModelsGetModelVersionByAliasBase : String :=
  registeredModelsBaseURL ++ "/get-model-version-by-alias"

def endpointModelVersionsCreate : String := modelVersionsBaseURL ++ "/create"
def endpointModelVersionsGetBase : String := modelVersionsBaseURL ++ "/get"
def endpointModelVersionsList : String := modelVersionsBaseURL ++ "/list"
def endpointModelVersionsUpdate : String := modelVersionsBaseURL ++ "/update"
def endpointModelVersionsDeleteBase : String := modelVersionsBaseURL ++ "/delete"
def endpointModelVersionsTransitionStage : String := modelVersionsBaseURL ++ "/transition-stage"
def endpointModelVersionsSearch : String := modelVersionsBaseURL ++ "/search"
def endpointModelVersionsGetDownloadURIs : String := modelVersionsBaseURL ++ "/get-download-uris"
def endpointModelVersionsSetTag : String := modelVersionsBaseURL ++ "/set-tag"
def endpointModelVersionsDeleteTagBase : String := modelVersionsBaseURL ++ "/delete-tag"

/-- Uppercase hexadecimal digit. -/
def hexDigitUpper (n : Nat) : Char :=
  if n < 10 then Char.ofNat (48 + n) else Char.ofNat (55 + n)

/-- Whether `url.QueryEscape` leaves a byte unescaped: ASCII letters,
digits, and `-`, `_`, `.`, `~`. -/
def queryUnreserved (b : UInt8) : Bool :=
  (65 ≤ b && b ≤ 90) || (97 ≤ b && b ≤ 122) || (48 ≤ b && b ≤ 57) ||
    b = 45 || b = 46 || b = 95 || b = 126

/-- `url.QueryEscape`: operates on the UTF-8 bytes; space becomes `+`,
unreserved bytes stay, every other byte becomes `%XX`. -/
def queryEscape (s : String) : String :=
  String.mk <| s.toUTF8.toList.flatMap fun b =>
    if b = 32 then ['+']
    else if queryUnreserved b then [Char.ofNat b.toNat]
    else ['%', hexDigitUpper (b.toNat / 16), hexDigitUpper (b.toNat % 16)]

/-- `url.Values.Encode`: keys sorted, values of one key kept in the
order they were added, each pair escaped and joined with `&`. -/
def valuesEncode (params : List (String × String)) : String :=
  let keys := ((params.map Prod.fst).eraseDups).mergeSort (fun a b => a ≤ b)
  String.intercalate "&"
    (keys.flatMap fun k =>
      (params.filter fun p => p.1 = k).map fun p =>
        queryEscape k ++ "=" ++ queryEscape p.2)

/-- `endpointMetricsGetHistory` (client.go lines 208-222). -/
def endpointMetricsGetHistory (runUUID metricKey : String) (maxResults : Int)
    (pageToken : String) : String :=
  let endpoint := endpointMetricsGetHistoryBase ++ "?run_uuid=" ++ queryEscape runUUID ++
    "&metric_key=" ++ queryEscape metricKey
  if 0 < maxResults ∨ pageToken ≠ "" then
    let params :=
      (if 0 < maxResults then [("max_results", toString maxResults)] else []) ++
        (if pageToken ≠ "" then [("page_token", pageToken)] else [])
    endpoint ++ "&" ++ valuesEncode params
  else endpoint

/-- `endpointArtifactsList` (client.go lines 225-234). -/
def endpointArtifactsList (runID path pageToken : String) : String :=
  let e1 := endpointArtifactsListBase ++ "?run_id=" ++ queryEscape runID
  let e2 := if path ≠ "" then e1 ++ "&path=" ++ queryEscape path else e1
  if pageToken ≠ "" then e2 ++ "&page_token=" ++ queryEscape pageToken else e2

/-- `endpointRegisteredModelsListWithParams` (client.go lines 237-250). -/
def endpointRegisteredModelsListWithParams (maxResults : Int) (pageToken : String) : String :=
  if 0 < maxResults ∨ pageToken ≠ "" then
    let params :=
      (if 0 < maxResults then [("max_results", toString maxResults)] else []) ++
        (if pageToken ≠ "" then [("page_token", pageToken)] else [])
    endpointRegisteredModelsList ++ "?" ++ valuesEncode params
  else endpointRegisteredModelsList

/-- `endpointModelVersionsListWithParams` (client.go lines 253-266). -/
def endpointModelVersionsListWithParams (name : String) (maxResults : Int)
    (pageToken : String) : String :=
  let endpoint := endpointModelVersionsList ++ "?name=" ++ queryEscape name
  if 0 < maxResults ∨ pageToken ≠ "" then
    let params :=
      (if 0 < maxResults then [("max_results", toString maxResults)] else []) ++
        (if pageToken ≠ "" then [("page_token", pageToken)] else [])
    endpoint ++ "&" ++ valuesEncode params
  else endpoint

/-- `endpointRegisteredModelsGetLatestVersionsWithParams`
(client.go lines 269-279). -/
def endpointRegisteredModelsGetLatestVersionsWithParams (name : String)
    (stages : Option (List String)) : String :=
  let endpoint := endpointRegisteredModelsGetLatestVersions ++ "?name=" ++ queryEscape name
  match stages with
  | none => endpoint
  | some [] => endpoint
  | some ss => endpoint ++ "&" ++ valuesEncode (ss.map fun s => ("stages", s))

/-- `endpointModelVersionsSearchWithParams` (client.go lines 282-303). -/
def endpointModelVersionsSearchWithParams (filter : String) (maxResults : Int)
    (orderBy : Option (List String)) (pageToken : String) : String :=
  let params :=
    (if filter ≠ "" then [("filter", filter)] else []) ++
      (if 0 < maxResults then [("max_results", toString maxResults)] else []) ++
      (match orderBy with
       | none => []
       | some obs => obs.map fun o => ("order_by", o)) ++
      (if pageToken ≠ "" then [("page_token", pageToken)] else [])
  if params ≠ [] then endpointModelVersionsSearch ++ "?" ++ valuesEncode params
  else endpointModelVersionsSearch

/-! Marshalling helpers, mirroring `encoding/json` struct-tag semantics.
A required field always appears; an `omitempty` field is dropped at its
type's empty value (empty string, zero number, or a slice of length 0,
which covers both the nil slice and an empty non-nil slice). -/

/-- Required string field. -/
def reqS (k v : String) : List (String × Json) := [(k, Json.str v)]

/-- Required integer field. -/
def reqI (k : String) (v : Int) : List (String × Json) := [(k, Json.num v)]

/-- Required float64 field. -/
def reqF (k : String) (v : GoFloat64) : List (String × Json) := [(k, Json.fnum v)]

/-- Required bool field. -/
def reqB (k : String) (v : Bool) : List (String × Json) := [(k, Json.bool v)]

/-- `omitempty` string field. -/
def omitS (k v : String) : List (String × Json) :=
  if v = "" then [] else [(k, Json.str v)]

/-- `omitempty` integer field. -/
def omitI (k : String) (v : Int) : List (String × Json) :=
  if v = 0 then [] else [(k, Json.num v)]

/-- Marshalling of a required slice field: the nil slice encodes as
`null`, a non-nil slice as an array. -/
def sliceJson (f : α → Json) : Option (List α) → Json
  | none => Json.null
  | some xs => Json.arr (xs.map f)

/-- Required slice field. -/
def reqSlice (k : String) (f : α → Json) (v : Option (List α)) : List (String × Json) :=
  [(k, sliceJson f v)]

/-- `omitempty` slice field: dropped when the length is 0, whether the
slice is nil or non-nil empty, mirroring the len-is-zero test of
`encoding/json`. -/
def omitSlice (k : String) (f : α → Json) : Option (List α) → List (String × Json)
  | none => []
  | some xs => if xs.isEmpty then [] else [(k, Json.arr (xs.map f))]

/-! Typed request/response structs and their marshalling, translated
from the model declarations and their `json` tags. Go slices are
`Option (List α)` (`none` is the nil slice); `int`/`int64` are `Int`. -/

/-- `ExperimentTag`. -/
structure ExperimentTag where
  key : String
  value : String
  deriving Repr, DecidableEq

def ExperimentTag.toJson (x : ExperimentTag) : Json :=
  Json.obj (reqS ("key") x.key ++ reqS ("value") x.value)

/-- `CreateExperimentRequest`: name; artifact_location, tags omitempty. -/
structure CreateExperimentRequest where
  name : String
  artifactLocation : String
  tags : Option (List ExperimentTag)
  deriving Repr, DecidableEq

def CreateExperimentRequest.toJson (x : CreateExperimentRequest) : Json :=
  Json.obj (reqS ("name") x.name ++ omitS ("artifact_location") x.artifactLocation ++
    omitSlice ("tags") ExperimentTag.toJson x.tags)

/-- `CreateExperimentResponse`. -/
structure CreateExperimentResponse where
  experimentID : String
  deriving Repr, DecidableEq

def CreateExperimentResponse.toJson (x : CreateExperimentResponse) : Json :=
  Json.obj (reqS ("experiment_id") x.experimentID)

/-- `GetExperimentRequest`. -/
structure GetExperimentRequest where
  experimentID : String
  deriving Repr, DecidableEq

def GetExperimentRequest.toJson (x : GetExperimentRequest) : Json :=
  Json.obj (reqS ("experiment_id") x.experimentID)

/-- `GetExperimentByNameRequest`. -/
structure GetExperimentByNameRequest where
  experimentName : String
  deriving Repr, DecidableEq

def GetExperimentByNameRequest.toJson (x : GetExperimentByNameRequest) : Json :=
  Json.obj (reqS ("experiment_name") x.experimentName)

/-- `SearchExperimentsRequest`: all fields omitempty. -/
structure SearchExperimentsRequest where
  viewType : String
  maxResults : Int
  pageToken : String
  filter : String
  orderBy : Option (List String)
  deriving Repr, DecidableEq

def SearchExperimentsRequest.toJson (x : SearchExperimentsRequest) : Json :=
  Json.obj (omitS ("view_type") x.viewType ++ omitI ("max_results") x.maxResults ++
    omitS ("page_token") x.pageToken ++ omitS ("filter") x.filter ++
    omitSlice ("order_by") Json.str x.orderBy)

/-- `RunTag`. -/
structure RunTag where
  key : String
  value : String
  deriving Repr, DecidableEq

def RunTag.toJson (x : RunTag) : Json :=
  Json.obj (reqS ("key") x.key ++ reqS ("value") x.value)

/-- `Param`. -/
structure Param where
  key : String
  value : String
  deriving Repr, DecidableEq

def Param.toJson (x : Param) : Json :=
  Json.obj (reqS ("key") x.key ++ reqS ("value") x.value)

/-- `Metric`: key, value (float64), timestamp, step. -/
structure Metric where
  key : String
  value : GoFloat64
  timestamp : Int
  step : Int
  deriving Repr, DecidableEq

def Metric.toJson (x : Metric) : Json :=
  Json.obj (reqS ("key") x.key ++ reqF ("value") x.value ++
    reqI ("timestamp") x.timestamp ++ reqI ("step") x.step)

/-- `CreateRunRequest`: experiment_id; user_id, run_name, start_time,
tags omitempty. -/
structure CreateRunRequest where
  experimentID : String
  userID : String
  runName : String
  startTime : Int
  tags : Option (List RunTag)
  deriving Repr, DecidableEq

def CreateRunRequest.toJson (x : CreateRunRequest) : Json :=
  Json.obj (reqS ("experiment_id") x.experimentID ++ omitS ("user_id") x.userID ++
    omitS ("run_name") x.runName ++ omitI ("start_time") x.startTime ++
    omitSlice ("tags") RunTag.toJson x.tags)

/-- `GetRunRequest`. -/
structure GetRunRequest where
  runID : String
  deriving Repr, DecidableEq

def GetRunRequest.toJson (x : GetRunRequest) : Json :=
  Json.obj (reqS ("run_id") x.runID)

/-- `SearchRunsRequest`: all fields omitempty. -/
structure SearchRunsRequest where
  experimentIDs : Option (List String)
  filter : String
  runViewType : String
  maxResults : Int
  orderBy : Option (List String)
  pageToken : String
  deriving Repr, DecidableEq

def SearchRunsRequest.toJson (x : SearchRunsRequest) : Json :=
  Json.obj (omitSlice ("experiment_ids") Json.str x.experimentIDs ++
    omitS ("filter") x.filter ++ omitS ("run_view_type") x.runViewType ++
    omitI ("max_results") x.maxResults ++ omitSlice ("order_by") Json.str x.orderBy ++
    omitS ("page_token") x.pageToken)

/-- `UpdateRunRequest`: run_id; status, end_time omitempty. -/
structure UpdateRunRequest where
  runID : String
  status : String
  endTime : Int
  deriving Repr, DecidableEq

def UpdateRunRequest.toJson (x : UpdateRunRequest) : Json :=
  Json.obj (reqS ("run_id") x.runID ++ omitS ("status") x.status ++
    omitI ("end_time") x.endTime)

/-- `LogMetricRequest`: run_id, key, value; timestamp, step omitempty. -/
structure LogMetricRequest where
  runID : String
  key : String
  value : GoFloat64
  timestamp : Int
  step : Int
  deriving Repr, DecidableEq

def LogMetricRequest.toJson (x : LogMetricRequest) : Json :=
  Json.obj (reqS ("run_id") x.runID ++ reqS ("key") x.key ++ reqF ("value") x.value ++
    omitI ("timestamp") x.timestamp ++ omitI ("step") x.step)

/-- `LogParamRequest`. -/
structure LogParamRequest where
  runID : String
  key : String
  value : String
  deriving Repr, DecidableEq

def LogParamRequest.toJson (x : LogParamRequest) : Json :=
  Json.obj (reqS ("run_id") x.runID ++ reqS ("key") x.key ++ reqS ("value") x.value)

/-- `SetTagRequest`. -/
structure SetTagRequest where
  runID : String
  key : String
  value : String
  deriving Repr, DecidableEq

def SetTagRequest.toJson (x : SetTagRequest) : Json :=
  Json.obj (reqS ("run_id") x.runID ++ reqS ("key") x.key ++ reqS ("value") x.value)

/-- `LogModelRequest`. -/
structure LogModelRequest where
  runID : String
  modelJSON : String
  deriving Repr, DecidableEq

def LogModelRequest.toJson (x : LogModelRequest) : Json :=
  Json.obj (reqS ("run_id") x.runID ++ reqS ("model_json") x.modelJSON)

/-- `DatasetSchemaColumn`. -/
structure DatasetSchemaColumn where
  name : String
  type : String
  deriving Repr, DecidableEq

def DatasetSchemaColumn.toJson (x : DatasetSchemaColumn) : Json :=
  Json.obj (reqS ("name") x.name ++ reqS ("type") x.type)

/-- `DatasetSchema`: columns omitempty. -/
structure DatasetSchema where
  columns : Option (List DatasetSchemaColumn)
  deriving Repr, DecidableEq

def DatasetSchema.toJson (x : DatasetSchema) : Json :=
  Json.obj (omitSlice ("columns") DatasetSchemaColumn.toJson x.columns)

/-- `DatasetTag`. -/
structure DatasetTag where
  key : String
  value : String
  deriving Repr, DecidableEq

def DatasetTag.toJson (x : DatasetTag) : Json :=
  Json.obj (reqS ("key") x.key ++ reqS ("value") x.value)

/-- `Dataset`. The `schema` field carries `omitempty`, but `omitempty`
never omits a struct-typed field, so it always appears. -/
structure Dataset where
  name : String
  digest : String
  sourceType : String
  source : String
  schema : DatasetSchema
  profile : String
  tags : Option (List DatasetTag)
  deriving Repr, DecidableEq

def Dataset.toJson (x : Dataset) : Json :=
  Json.obj (reqS ("name") x.name ++ reqS ("digest") x.digest ++
    reqS ("source_type") x.sourceType ++ reqS ("source") x.source ++
    [("schema", x.schema.toJson)] ++ omitS ("profile") x.profile ++
    omitSlice ("tags") DatasetTag.toJson x.tags)

/-- `ModelInputTag`. -/
structure ModelInputTag where
  key : String
  value : String
  deriving Repr, DecidableEq

def ModelInputTag.toJson (x : ModelInputTag) : Json :=
  Json.obj (reqS ("key") x.key ++ reqS ("value") x.value)

/-- `ModelInput`. -/
structure ModelInput where
  modelName : String
  modelVersion : String
  modelStage : String
  -- source field `Alias` (tag `alias`); `alias` is reserved in Lean
  aliasName : String
  tags : Option (List ModelInputTag)
  deriving Repr, DecidableEq

def ModelInput.toJson (x : ModelInput) : Json :=
  Json.obj (reqS ("model_name") x.modelName ++ omitS ("model_version") x.modelVersion ++
    omitS ("model_stage") x.modelStage ++ omitS ("alias") x.aliasName ++
    omitSlice ("tags") ModelInputTag.toJson x.tags)

/-- `LogInputsRequest`: run_id; datasets, model_inputs omitempty. -/
structure LogInputsRequest where
  runID : String
  datasets : Option (List Dataset)
  modelInputs : Option (List ModelInput)
  deriving Repr, DecidableEq

def LogInputsRequest.toJson (x : LogInputsRequest) : Json :=
  Json.obj (reqS ("run_id") x.runID ++ omitSlice ("datasets") Dataset.toJson x.datasets ++
    omitSlice ("model_inputs") ModelInput.toJson x.modelInputs)

/-- `GetMetricHistoryRequest`, with the fields the client reads. -/
structure GetMetricHistoryRequest where
  runUUID : String
  metricKey : String
  maxResults : Int
  pageToken : String
  deriving Repr, DecidableEq

/-- `RegisteredModelTag`. -/
structure RegisteredModelTag where
  key : String
  value : String
  deriving Repr, DecidableEq

def RegisteredModelTag.toJson (x : RegisteredModelTag) : Json :=
  Json.obj (reqS ("key") x.key ++ reqS ("value") x.value)

/-- `CreateRegisteredModelRequest`: name; description, tags omitempty. -/
structure CreateRegisteredModelRequest where
  name : String
  description : String
  tags : Option (List RegisteredModelTag)
  deriving Repr, DecidableEq

def CreateRegisteredModelRequest.toJson (x : CreateRegisteredModelRequest) : Json :=
  Json.obj (reqS ("name") x.name ++ omitS ("description") x.description ++
    omitSlice ("tags") RegisteredModelTag.toJson x.tags)

/-- `GetRegisteredModelRequest`. -/
structure GetRegisteredModelRequest where
  name : String
  deriving Repr, DecidableEq

def GetRegisteredModelRequest.toJson (x : GetRegisteredModelRequest) : Json :=
  Json.obj (reqS ("name") x.name)

/-- `ModelVersionTag`. -/
structure ModelVersionTag where
  key : String
  value : String
  deriving Repr, DecidableEq

def ModelVersionTag.toJson (x : ModelVersionTag) : Json :=
  Json.obj (reqS ("key") x.key ++ reqS ("value") x.value)

/-- `CreateModelVersionRequest`: name, source; run_id, tags,
description omitempty. -/
structure CreateModelVersionRequest where
  name : String
  source : String
  runID : String
  tags : Option (List ModelVersionTag)
  description : String
  deriving Repr, DecidableEq

def CreateModelVersionRequest.toJson (x : CreateModelVersionRequest) : Json :=
  Json.obj (reqS ("name") x.name ++ reqS ("source") x.source ++ omitS ("run_id") x.runID ++
    omitSlice ("tags") ModelVersionTag.toJson x.tags ++ omitS ("description") x.description)

/-- `GetModelVersionRequest`. -/
structure GetModelVersionRequest where
  name : String
  version : String
  deriving Repr, DecidableEq

def GetModelVersionRequest.toJson (x : GetModelVersionRequest) : Json :=
  Json.obj (reqS ("name") x.name ++ reqS ("version") x.version)

/-- `RenameRegisteredModelRequest`. -/
structure RenameRegisteredModelRequest where
  name : String
  newName : String
  deriving Repr, DecidableEq

def RenameRegisteredModelRequest.toJson (x : RenameRegisteredModelRequest) : Json :=
  Json.obj (reqS ("name") x.name ++ reqS ("new_name") x.newName)

/-- `GetLatestModelVersionsRequest`. -/
structure GetLatestModelVersionsRequest where
  name : String
  stages : Option (List String)
  deriving Repr, DecidableEq

/-- `SearchModelVersionsRequest`: all fields omitempty. -/
structure SearchModelVersionsRequest where
  filter : String
  maxResults : Int
  orderBy : Option (List String)
  pageToken : String
  deriving Repr, DecidableEq

def SearchModelVersionsRequest.toJson (x : SearchModelVersionsRequest) : Json :=
  Json.obj (omitS ("filter") x.filter ++ omitI ("max_results") x.maxResults ++
    omitSlice ("order_by") Json.str x.orderBy ++ omitS ("page_token") x.pageToken)

/-- `GetDownloadURIsRequest`: name, version; paths omitempty. -/
structure GetDownloadURIsRequest where
  name : String
  version : String
  paths : Option (List String)
  deriving Repr, DecidableEq

def GetDownloadURIsRequest.toJson (x : GetDownloadURIsRequest) : Json :=
  Json.obj (reqS ("name") x.name ++ reqS ("version") x.version ++
    omitSlice ("paths") Json.str x.paths)

/-- `SearchRegisteredModelsRequest`: all fields omitempty. -/
structure SearchRegisteredModelsRequest where
  filter : String
  maxResults : Int
  orderBy : Option (List String)
  pageToken : String
  deriving Repr, DecidableEq

def SearchRegisteredModelsRequest.toJson (x : SearchRegisteredModelsRequest) : Json :=
  Json.obj (omitS ("filter") x.filter ++ omitI ("max_results") x.maxResults ++
    omitSlice ("order_by") Json.str x.orderBy ++ omitS ("page_token") x.pageToken)

/-- `SetRegisteredModelTagRequest`. -/
structure SetRegisteredModelTagRequest where
  name : String
  key : String
  value : String
  deriving Repr, DecidableEq

def SetRegisteredModelTagRequest.toJson (x : SetRegisteredModelTagRequest) : Json :=
  Json.obj (reqS ("name") x.name ++ reqS ("key") x.key ++ reqS ("value") x.value)

/-- `SetModelVersionTagRequest`. -/
structure SetModelVersionTagRequest where
  name : String
  version : String
  key : String
  value : String
  deriving Repr, DecidableEq

def SetModelVersionTagRequest.toJson (x : SetModelVersionTagRequest) : Json :=
  Json.obj (reqS ("name") x.name ++ reqS ("version") x.version ++ reqS ("key") x.key ++
    reqS ("value") x.value)

/-- `DeleteRegisteredModelTagRequest`. -/
structure DeleteRegisteredModelTagRequest where
  name : String
  key : String
  deriving Repr, DecidableEq

/-- `DeleteModelVersionTagRequest`. -/
structure DeleteModelVersionTagRequest where
  name : String
  version : String
  key : String
  deriving Repr, DecidableEq

/-- `SetRegisteredModelAliasRequest`. -/
structure SetRegisteredModelAliasRequest where
  name : String
  -- source field `Alias` (tag `alias`); `alias` is reserved in Lean
  aliasName : String
  version : String
  deriving Repr, DecidableEq

def SetRegisteredModelAliasRequest.toJson (x : SetRegisteredModelAliasRequest) : Json :=
  Json.obj (reqS ("name") x.name ++ reqS ("alias") x.aliasName ++ reqS ("version") x.version)

/-- `DeleteRegisteredModelAliasRequest`. -/
structure DeleteRegisteredModelAliasRequest where
  name : String
  -- source field `Alias` (tag `alias`); `alias` is reserved in Lean
  aliasName : String
  version : String
  deriving Repr, DecidableEq

/-- `GetModelVersionByAliasRequest`. -/
structure GetModelVersionByAliasRequest where
  name : String
  -- source field `Alias` (tag `alias`); `alias` is reserved in Lean
  aliasName : String
  deriving Repr, DecidableEq

def GetModelVersionByAliasRequest.toJson (x : GetModelVersionByAliasRequest) : Json :=
  Json.obj (reqS ("name") x.name ++ reqS ("alias") x.aliasName)

/-- `FileInfo`: path, is_dir; file_size omitempty. -/
structure FileInfo where
  path : String
  isDir : Bool
  fileSize : Int
  deriving Repr, DecidableEq

def FileInfo.toJson (x : FileInfo) : Json :=
  Json.obj (reqS ("path") x.path ++ reqB ("is_dir") x.isDir ++
    omitI ("file_size") x.fileSize)

/-- `ListArtifactsResponse`: root_uri, files; next_page_token omitempty. -/
structure ListArtifactsResponse where
  rootURI : String
  files : Option (List FileInfo)
  nextPageToken : String
  deriving Repr, DecidableEq

def ListArtifactsResponse.toJson (x : ListArtifactsResponse) : Json :=
  Json.obj (reqS ("root_uri") x.rootURI ++ reqSlice ("files") FileInfo.toJson x.files ++
    omitS ("next_page_token") x.nextPageToken)

/-- `ErrorResponse` marshalling (both fields required). -/
def ErrorResponse.toJson (x : ErrorResponse) : Json :=
  Json.obj (reqS ("error_code") x.errorCode ++ reqS ("message") x.message)

/-! The remaining model declarations: the entity types (experiments,
runs, model versions, registered models), their response wrappers, the
list/search responses, and the request types the client sends as query
parameters or maps. Field sets and tags follow the model declarations
in the source (the models file bundled in part_000, supplemented by
models.go for the three list responses it alone declares). -/

/-- `Experiment`: all fields required. -/
structure Experiment where
  experimentID : String
  name : String
  artifactLocation : String
  lifecycleStage : String
  lastUpdateTime : Int
  creationTime : Int
  tags : Option (List ExperimentTag)
  deriving Repr, DecidableEq

def Experiment.zero : Experiment := ⟨"", "", "", "", 0, 0, none⟩

def Experiment.toJson (x : Experiment) : Json :=
  Json.obj (reqS ("experiment_id") x.experimentID ++ reqS ("name") x.name ++
    reqS ("artifact_location") x.artifactLocation ++
    reqS ("lifecycle_stage") x.lifecycleStage ++
    reqI ("last_update_time") x.lastUpdateTime ++ reqI ("creation_time") x.creationTime ++
    reqSlice ("tags") ExperimentTag.toJson x.tags)

/-- `RunInfo` (models file in part_000; the root models.go variant adds
a `run_uuid` field): run_name, user_id, end_time omitempty. -/
structure RunInfo where
  runID : String
  runName : String
  experimentID : String
  userID : String
  status : String
  startTime : Int
  endTime : Int
  artifactURI : String
  lifecycleStage : String
  deriving Repr, DecidableEq

def RunInfo.zero : RunInfo := ⟨"", "", "", "", "", 0, 0, "", ""⟩

def RunInfo.toJson (x : RunInfo) : Json :=
  Json.obj (reqS ("run_id") x.runID ++ omitS ("run_name") x.runName ++
    reqS ("experiment_id") x.experimentID ++ omitS ("user_id") x.userID ++
    reqS ("status") x.status ++ reqI ("start_time") x.startTime ++
    omitI ("end_time") x.endTime ++ reqS ("artifact_uri") x.artifactURI ++
    reqS ("lifecycle_stage") x.lifecycleStage)

/-- `RunData`: metrics, params, tags all required slices. -/
structure RunData where
  metrics : Option (List Metric)
  params : Option (List Param)
  tags : Option (List RunTag)
  deriving Repr, DecidableEq

def RunData.zero : RunData := ⟨none, none, none⟩

def RunData.toJson (x : RunData) : Json :=
  Json.obj (reqSlice ("metrics") Metric.toJson x.metrics ++
    reqSlice ("params") Param.toJson x.params ++ reqSlice ("tags") RunTag.toJson x.tags)

/-- `ModelOutput`: model_name; model_version, model_stage, alias, tags
omitempty. -/
structure ModelOutput where
  modelName : String
  modelVersion : String
  modelStage : String
  -- source field `Alias` (tag `alias`); `alias` is reserved in Lean
  aliasName : String
  tags : Option (List ModelInputTag)
  deriving Repr, DecidableEq

def ModelOutput.toJson (x : ModelOutput) : Json :=
  Json.obj (reqS ("model_name") x.modelName ++ omitS ("model_version") x.modelVersion ++
    omitS ("model_stage") x.modelStage ++ omitS ("alias") x.aliasName ++
    omitSlice ("tags") ModelInputTag.toJson x.tags)

/-- `RunInputs` (part_000 variant): datasets, model_inputs omitempty. -/
structure RunInputs where
  datasets : Option (List Dataset)
  modelInputs : Option (List ModelInput)
  deriving Repr, DecidableEq

def RunInputs.zero : RunInputs := ⟨none, none⟩

def RunInputs.toJson (x : RunInputs) : Json :=
  Json.obj (omitSlice ("datasets") Dataset.toJson x.datasets ++
    omitSlice ("model_inputs") ModelInput.toJson x.modelInputs)

/-- `RunOutputs`: model_outputs omitempty. -/
structure RunOutputs where
  modelOutputs : Option (List ModelOutput)
  deriving Repr, DecidableEq

def RunOutputs.zero : RunOutputs := ⟨none⟩

def RunOutputs.toJson (x : RunOutputs) : Json :=
  Json.obj (omitSlice ("model_outputs") ModelOutput.toJson x.modelOutputs)

/-- `Run` (part_000 variant): info, data, and the inputs/outputs
structs; `omitempty` on a struct-typed field never omits it. -/
structure Run where
  info : RunInfo
  data : RunData
  inputs : RunInputs
  outputs : RunOutputs
  deriving Repr, DecidableEq

def Run.zero : Run := ⟨RunInfo.zero, RunData.zero, RunInputs.zero, RunOutputs.zero⟩

def Run.toJson (x : Run) : Json :=
  Json.obj [("info", x.info.toJson), ("data", x.data.toJson), ("inputs", x.inputs.toJson),
    ("outputs", x.outputs.toJson)]

/-- `CreateRunResponse`. -/
structure CreateRunResponse where
  run : Run
  deriving Repr, DecidableEq

def CreateRunResponse.toJson (x : CreateRunResponse) : Json :=
  Json.obj [("run", x.run.toJson)]

/-- `SearchRunsResponse`: runs required; next_page_token omitempty. -/
structure SearchRunsResponse where
  runs : Option (List Run)
  nextPageToken : String
  deriving Repr, DecidableEq

def SearchRunsResponse.toJson (x : SearchRunsResponse) : Json :=
  Json.obj (reqSlice ("runs") Run.toJson x.runs ++
    omitS ("next_page_token") x.nextPageToken)

/-- `UpdateRunResponse`. -/
structure UpdateRunResponse where
  runInfo : RunInfo
  deriving Repr, DecidableEq

def UpdateRunResponse.toJson (x : UpdateRunResponse) : Json :=
  Json.obj [("run_info", x.runInfo.toJson)]

/-- `ModelVersion`: user_id, description, run_id, status_message, tags,
aliases omitempty. -/
structure ModelVersion where
  name : String
  version : String
  creationTimestamp : Int
  lastUpdatedTimestamp : Int
  userID : String
  currentStage : String
  description : String
  source : String
  runID : String
  status : String
  statusMessage : String
  tags : Option (List ModelVersionTag)
  aliases : Option (List String)
  deriving Repr, DecidableEq

def ModelVersion.zero : ModelVersion :=
  ⟨"", "", 0, 0, "", "", "", "", "", "", "", none, none⟩

def ModelVersion.toJson (x : ModelVersion) : Json :=
  Json.obj (reqS ("name") x.name ++ reqS ("version") x.version ++
    reqI ("creation_timestamp") x.creationTimestamp ++
    reqI ("last_updated_timestamp") x.lastUpdatedTimestamp ++
    omitS ("user_id") x.userID ++ reqS ("current_stage") x.currentStage ++
    omitS ("description") x.description ++ reqS ("source") x.source ++
    omitS ("run_id") x.runID ++ reqS ("status") x.status ++
    omitS ("status_message") x.statusMessage ++
    omitSlice ("tags") ModelVersionTag.toJson x.tags ++
    omitSlice ("aliases") Json.str x.aliases)

/-- `RegisteredModel`: user_id, description, latest_versions, tags,
aliases omitempty. -/
structure RegisteredModel where
  name : String
  creationTimestamp : Int
  lastUpdatedTimestamp : Int
  userID : String
  description : String
  latestVersions : Option (List ModelVersion)
  tags : Option (List RegisteredModelTag)
  aliases : Option (List String)
  deriving Repr, DecidableEq

def RegisteredModel.zero : RegisteredModel := ⟨"", 0, 0, "", "", none, none, none⟩

def RegisteredModel.toJson (x : RegisteredModel) : Json :=
  Json.obj (reqS ("name") x.name ++ reqI ("creation_timestamp") x.creationTimestamp ++
    reqI ("last_updated_timestamp") x.lastUpdatedTimestamp ++ omitS ("user_id") x.userID ++
    omitS ("description") x.description ++
    omitSlice ("latest_versions") ModelVersion.toJson x.latestVersions ++
    omitSlice ("tags") RegisteredModelTag.toJson x.tags ++
    omitSlice ("aliases") Json.str x.aliases)

/-- `CreateRegisteredModelResponse`. -/
structure CreateRegisteredModelResponse where
  registeredModel : RegisteredModel
  deriving Repr, DecidableEq

def CreateRegisteredModelResponse.toJson (x : CreateRegisteredModelResponse) : Json :=
  Json.obj [("registered_model", x.registeredModel.toJson)]

/-- `CreateModelVersionResponse`. -/
structure CreateModelVersionResponse where
  modelVersion : ModelVersion
  deriving Repr, DecidableEq

def CreateModelVersionResponse.toJson (x : CreateModelVersionResponse) : Json :=
  Json.obj [("model_version", x.modelVersion.toJson)]

/-- `GetExperimentResponse`. -/
structure GetExperimentResponse where
  experiment : Experiment
  deriving Repr, DecidableEq

def GetExperimentResponse.toJson (x : GetExperimentResponse) : Json :=
  Json.obj [("experiment", x.experiment.toJson)]

/-- `GetRunResponse`. -/
structure GetRunResponse where
  run : Run
  deriving Repr, DecidableEq

def GetRunResponse.toJson (x : GetRunResponse) : Json :=
  Json.obj [("run", x.run.toJson)]

/-- `GetRegisteredModelResponse`. -/
structure GetRegisteredModelResponse where
  registeredModel : RegisteredModel
  deriving Repr, DecidableEq

def GetRegisteredModelResponse.toJson (x : GetRegisteredModelResponse) : Json :=
  Json.obj [("registered_model", x.registeredModel.toJson)]

/-- `GetModelVersionResponse`. -/
structure GetModelVersionResponse where
  modelVersion : ModelVersion
  deriving Repr, DecidableEq

def GetModelVersionResponse.toJson (x : GetModelVersionResponse) : Json :=
  Json.obj [("model_version", x.modelVersion.toJson)]

/-- `SearchExperimentsResponse`: experiments required; token
omitempty. -/
structure SearchExperimentsResponse where
  experiments : Option (List Experiment)
  nextPageToken : String
  deriving Repr, DecidableEq

def SearchExperimentsResponse.toJson (x : SearchExperimentsResponse) : Json :=
  Json.obj (reqSlice ("experiments") Experiment.toJson x.experiments ++
    omitS ("next_page_token") x.nextPageToken)

/-- `ListExperimentsResponse` (models.go). -/
structure ListExperimentsResponse where
  experiments : Option (List Experiment)
  nextPageToken : String
  deriving Repr, DecidableEq

def ListExperimentsResponse.toJson (x : ListExperimentsResponse) : Json :=
  Json.obj (reqSlice ("experiments") Experiment.toJson x.experiments ++
    omitS ("next_page_token") x.nextPageToken)

/-- `ListArtifactsRequest`: run_id; path, page_token omitempty. -/
structure ListArtifactsRequest where
  runID : String
  path : String
  pageToken : String
  deriving Repr, DecidableEq

def ListArtifactsRequest.toJson (x : ListArtifactsRequest) : Json :=
  Json.obj (reqS ("run_id") x.runID ++ omitS ("path") x.path ++
    omitS ("page_token") x.pageToken)

/-- `GetMetricHistoryRequest` marshalling, per the models-file tags
(run_id, metric_key, max_results and page_token omitempty); the models
file names the run field RunID while client.go reads RunUUID — the
embedding keeps the client.go field name. The client never marshals
this type (the operation sends the values as query parameters). -/
def GetMetricHistoryRequest.toJson (x : GetMetricHistoryRequest) : Json :=
  Json.obj (reqS ("run_id") x.runUUID ++ reqS ("metric_key") x.metricKey ++
    omitI ("max_results") x.maxResults ++ omitS ("page_token") x.pageToken)

/-- `GetMetricHistoryResponse`: metrics required; token omitempty. -/
structure GetMetricHistoryResponse where
  metrics : Option (List Metric)
  nextPageToken : String
  deriving Repr, DecidableEq

def GetMetricHistoryResponse.toJson (x : GetMetricHistoryResponse) : Json :=
  Json.obj (reqSlice ("metrics") Metric.toJson x.metrics ++
    omitS ("next_page_token") x.nextPageToken)

/-- `LogBatchRequest`: run_id; metrics, params, tags omitempty. -/
structure LogBatchRequest where
  runID : String
  metrics : Option (List Metric)
  params : Option (List Param)
  tags : Option (List RunTag)
  deriving Repr, DecidableEq

def LogBatchRequest.toJson (x : LogBatchRequest) : Json :=
  Json.obj (reqS ("run_id") x.runID ++ omitSlice ("metrics") Metric.toJson x.metrics ++
    omitSlice ("params") Param.toJson x.params ++ omitSlice ("tags") RunTag.toJson x.tags)

/-- `RenameRegisteredModelResponse`. -/
structure RenameRegisteredModelResponse where
  registeredModel : RegisteredModel
  deriving Repr, DecidableEq

def RenameRegisteredModelResponse.toJson (x : RenameRegisteredModelResponse) : Json :=
  Json.obj [("registered_model", x.registeredModel.toJson)]

/-- `GetLatestModelVersionsRequest` marshalling: name; stages
omitempty. -/
def GetLatestModelVersionsRequest.toJson (x : GetLatestModelVersionsRequest) : Json :=
  Json.obj (reqS ("name") x.name ++ omitSlice ("stages") Json.str x.stages)

/-- `GetLatestModelVersionsResponse`: model_versions required. -/
structure GetLatestModelVersionsResponse where
  modelVersions : Option (List ModelVersion)
  deriving Repr, DecidableEq

def GetLatestModelVersionsResponse.toJson (x : GetLatestModelVersionsResponse) : Json :=
  Json.obj (reqSlice ("model_versions") ModelVersion.toJson x.modelVersions)

/-- `SearchModelVersionsResponse`: model_versions required; token
omitempty. -/
structure SearchModelVersionsResponse where
  modelVersions : Option (List ModelVersion)
  nextPageToken : String
  deriving Repr, DecidableEq

def SearchModelVersionsResponse.toJson (x : SearchModelVersionsResponse) : Json :=
  Json.obj (reqSlice ("model_versions") ModelVersion.toJson x.modelVersions ++
    omitS ("next_page_token") x.nextPageToken)

/-- `ListModelVersionsResponse` (models.go). -/
structure ListModelVersionsResponse where
  modelVersions : Option (List ModelVersion)
  nextPageToken : String
  deriving Repr, DecidableEq

def ListModelVersionsResponse.toJson (x : ListModelVersionsResponse) : Json :=
  Json.obj (reqSlice ("model_versions") ModelVersion.toJson x.modelVersions ++
    omitS ("next_page_token") x.nextPageToken)

/-- `SearchRegisteredModelsResponse`: registered_models required; token
omitempty. -/
structure SearchRegisteredModelsResponse where
  registeredModels : Option (List RegisteredModel)
  nextPageToken : String
  deriving Repr, DecidableEq

def SearchRegisteredModelsResponse.toJson (x : SearchRegisteredModelsResponse) : Json :=
  Json.obj (reqSlice ("registered_models") RegisteredModel.toJson x.registeredModels ++
    omitS ("next_page_token") x.nextPageToken)

/-- `ListRegisteredModelsResponse` (models.go). -/
structure ListRegisteredModelsResponse where
  registeredModels : Option (List RegisteredModel)
  nextPageToken : String
  deriving Repr, DecidableEq

def ListRegisteredModelsResponse.toJson (x : ListRegisteredModelsResponse) : Json :=
  Json.obj (reqSlice ("registered_models") RegisteredModel.toJson x.registeredModels ++
    omitS ("next_page_token") x.nextPageToken)

/-- `DownloadURIInfo`. -/
structure DownloadURIInfo where
  path : String
  artifactURI : String
  deriving Repr, DecidableEq

def DownloadURIInfo.toJson (x : DownloadURIInfo) : Json :=
  Json.obj (reqS ("path") x.path ++ reqS ("artifact_uri") x.artifactURI)

/-- `GetDownloadURIsResponse`: files required. -/
structure GetDownloadURIsResponse where
  files : Option (List DownloadURIInfo)
  deriving Repr, DecidableEq

def GetDownloadURIsResponse.toJson (x : GetDownloadURIsResponse) : Json :=
  Json.obj (reqSlice ("files") DownloadURIInfo.toJson x.files)

/-- `GetModelVersionByAliasResponse`. -/
structure GetModelVersionByAliasResponse where
  modelVersion : ModelVersion
  deriving Repr, DecidableEq

def GetModelVersionByAliasResponse.toJson (x : GetModelVersionByAliasResponse) : Json :=
  Json.obj [("model_version", x.modelVersion.toJson)]

/-- `DeleteRegisteredModelTagRequest` marshalling. -/
def DeleteRegisteredModelTagRequest.toJson (x : DeleteRegisteredModelTagRequest) : Json :=
  Json.obj (reqS ("name") x.name ++ reqS ("key") x.key)

/-- `DeleteModelVersionTagRequest` marshalling. -/
def DeleteModelVersionTagRequest.toJson (x : DeleteModelVersionTagRequest) : Json :=
  Json.obj (reqS ("name") x.name ++ reqS ("version") x.version ++ reqS ("key") x.key)

/-- `DeleteRegisteredModelAliasRequest` marshalling. -/
def DeleteRegisteredModelAliasRequest.toJson (x : DeleteRegisteredModelAliasRequest) : Json :=
  Json.obj (reqS ("name") x.name ++ reqS ("alias") x.aliasName ++
    reqS ("version") x.version)

/-! Decoding helpers, mirroring `json.Unmarshal` into a struct: a
missing key leaves the field's zero value, `null` leaves the zero
value, and a value of the wrong type is an unmarshalling error. -/

/-- Decode an object member into a Go integer struct field. -/
def decI (fs : List (String × Json)) (k : String) : Option Int :=
  match getField fs k with
  | none => some 0
  | some (Json.num n) => some n
  | some Json.null => some 0
  | some _ => none

/-- Decode an object member into a Go bool struct field. -/
def decB (fs : List (String × Json)) (k : String) : Option Bool :=
  match getField fs k with
  | none => some false
  | some (Json.bool b) => some b
  | some Json.null => some false
  | some _ => none

/-- Sequential elementwise decoding of a JSON array, failing as soon as
one element fails, as `json.Unmarshal` does for a slice. -/
def optionTraverse (f : Json → Option α) : List Json → Option (List α)
  | [] => some []
  | j :: js => do
    let a ← f j
    let as ← optionTraverse f js
    some (a :: as)

/-- Decode an object member into a Go slice field: a missing key or
`null` leaves the nil slice; an array decodes elementwise. -/
def decSlice (f : Json → Option α) (fs : List (String × Json)) (k : String) :
    Option (Option (List α)) :=
  match getField fs k with
  | none => some none
  | some Json.null => some none
  | some (Json.arr xs) => (optionTraverse f xs).map fun l => some l
  | some _ => none

def ExperimentTag.fromJson : Json → Option ExperimentTag
  | Json.obj fs => do
    let k ← decS fs ("key")
    let v ← decS fs ("value")
    some ⟨k, v⟩
  | Json.null => some ⟨"", ""⟩
  | _ => none

def CreateExperimentRequest.fromJson : Json → Option CreateExperimentRequest
  | Json.obj fs => do
    let n ← decS fs ("name")
    let a ← decS fs ("artifact_location")
    let t ← decSlice ExperimentTag.fromJson fs ("tags")
    some ⟨n, a, t⟩
  | Json.null => some ⟨"", "", none⟩
  | _ => none

def CreateExperimentResponse.fromJson : Json → Option CreateExperimentResponse
  | Json.obj fs => do
    let e ← decS fs ("experiment_id")
    some ⟨e⟩
  | Json.null => some ⟨""⟩
  | _ => none

def GetExperimentRequest.fromJson : Json → Option GetExperimentRequest
  | Json.obj fs => do
    let e ← decS fs ("experiment_id")
    some ⟨e⟩
  | Json.null => some ⟨""⟩
  | _ => none

def SearchExperimentsRequest.fromJson : Json → Option SearchExperimentsRequest
  | Json.obj fs => do
    let vt ← decS fs ("view_type")
    let mr ← decI fs ("max_results")
    let pt ← decS fs ("page_token")
    let fl ← decS fs ("filter")
    let ob ← decSlice jsonToGoString fs ("order_by")
    some ⟨vt, mr, pt, fl, ob⟩
  | Json.null => some ⟨"", 0, "", "", none⟩
  | _ => none

def RunTag.fromJson : Json → Option RunTag
  | Json.obj fs => do
    let k ← decS fs ("key")
    let v ← decS fs ("value")
    some ⟨k, v⟩
  | Json.null => some ⟨"", ""⟩
  | _ => none

def Param.fromJson : Json → Option Param
  | Json.obj fs => do
    let k ← decS fs ("key")
    let v ← decS fs ("value")
    some ⟨k, v⟩
  | Json.null => some ⟨"", ""⟩
  | _ => none

def CreateRunRequest.fromJson : Json → Option CreateRunRequest
  | Json.obj fs => do
    let e ← decS fs ("experiment_id")
    let u ← decS fs ("user_id")
    let rn ← decS fs ("run_name")
    let st ← decI fs ("start_time")
    let t ← decSlice RunTag.fromJson fs ("tags")
    some ⟨e, u, rn, st, t⟩
  | Json.null => some ⟨"", "", "", 0, none⟩
  | _ => none

def GetRunRequest.fromJson : Json → Option GetRunRequest
  | Json.obj fs => do
    let r ← decS fs ("run_id")
    some ⟨r⟩
  | Json.null => some ⟨""⟩
  | _ => none

def SearchRunsRequest.fromJson : Json → Option SearchRunsRequest
  | Json.obj fs => do
    let ei ← decSlice jsonToGoString fs ("experiment_ids")
    let fl ← decS fs ("filter")
    let rv ← decS fs ("run_view_type")
    let mr ← decI fs ("max_results")
    let ob ← decSlice jsonToGoString fs ("order_by")
    let pt ← decS fs ("page_token")
    some ⟨ei, fl, rv, mr, ob, pt⟩
  | Json.null => some ⟨none, "", "", 0, none, ""⟩
  | _ => none

def UpdateRunRequest.fromJson : Json → Option UpdateRunRequest
  | Json.obj fs => do
    let r ← decS fs ("run_id")
    let st ← decS fs ("status")
    let et ← decI fs ("end_time")
    some ⟨r, st, et⟩
  | Json.null => some ⟨"", "", 0⟩
  | _ => none

def LogParamRequest.fromJson : Json → Option LogParamRequest
  | Json.obj fs => do
    let r ← decS fs ("run_id")
    let k ← decS fs ("key")
    let v ← decS fs ("value")
    some ⟨r, k, v⟩
  | Json.null => some ⟨"", "", ""⟩
  | _ => none

def RegisteredModelTag.fromJson : Json → Option RegisteredModelTag
  | Json.obj fs => do
    let k ← decS fs ("key")
    let v ← decS fs ("value")
    some ⟨k, v⟩
  | Json.null => some ⟨"", ""⟩
  | _ => none

def CreateRegisteredModelRequest.fromJson : Json → Option CreateRegisteredModelRequest
  | Json.obj fs => do
    let n ← decS fs ("name")
    let d ← decS fs ("description")
    let t ← decSlice RegisteredModelTag.fromJson fs ("tags")
    some ⟨n, d, t⟩
  | Json.null => some ⟨"", "", none⟩
  | _ => none

def SearchModelVersionsRequest.fromJson : Json → Option SearchModelVersionsRequest
  | Json.obj fs => do
    let fl ← decS fs ("filter")
    let mr ← decI fs ("max_results")
    let ob ← decSlice jsonToGoString fs ("order_by")
    let pt ← decS fs ("page_token")
    some ⟨fl, mr, ob, pt⟩
  | Json.null => some ⟨"", 0, none, ""⟩
  | _ => none

def GetDownloadURIsRequest.fromJson : Json → Option GetDownloadURIsRequest
  | Json.obj fs => do
    let n ← decS fs ("name")
    let v ← decS fs ("version")
    let p ← decSlice jsonToGoString fs ("paths")
    some ⟨n, v, p⟩
  | Json.null => some ⟨"", "", none⟩
  | _ => none

def SetRegisteredModelAliasRequest.fromJson : Json → Option SetRegisteredModelAliasRequest
  | Json.obj fs => do
    let n ← decS fs ("name")
    let a ← decS fs ("alias")
    let v ← decS fs ("version")
    some ⟨n, a, v⟩
  | Json.null => some ⟨"", "", ""⟩
  | _ => none

def GetModelVersionByAliasRequest.fromJson : Json → Option GetModelVersionByAliasRequest
  | Json.obj fs => do
    let n ← decS fs ("name")
    let a ← decS fs ("alias")
    some ⟨n, a⟩
  | Json.null => some ⟨"", ""⟩
  | _ => none

def FileInfo.fromJson : Json → Option FileInfo
  | Json.obj fs => do
    let p ← decS fs ("path")
    let d ← decB fs ("is_dir")
    let s ← decI fs ("file_size")
    some ⟨p, d, s⟩
  | Json.null => some ⟨"", false, 0⟩
  | _ => none

def ListArtifactsResponse.fromJson : Json → Option ListArtifactsResponse
  | Json.obj fs => do
    let r ← decS fs ("root_uri")
    let f ← decSlice FileInfo.fromJson fs ("files")
    let n ← decS fs ("next_page_token")
    some ⟨r, f, n⟩
  | Json.null => some ⟨"", none, ""⟩
  | _ => none

/-- Decode an object member into a Go float64 struct field. The model
marshaller always emits `fnum` for float64 fields, so the integer-token
path Go additionally accepts never arises in the theorems. -/
def decF (fs : List (String × Json)) (k : String) : Option GoFloat64 :=
  match getField fs k with
  | none => some GoFloat64.zero
  | some (Json.fnum v) => some v
  | some Json.null => some GoFloat64.zero
  | some _ => none

/-- Decode an object member into a struct-typed field: a missing key
leaves the zero value; the element decoder handles `null` itself. -/
def decStruct (fromJ : Json → Option α) (dflt : α) (fs : List (String × Json))
    (k : String) : Option α :=
  match getField fs k with
  | none => some dflt
  | some j => fromJ j

def Metric.fromJson : Json → Option Metric
  | Json.obj fs => do
    let k ← decS fs ("key")
    let v ← decF fs ("value")
    let ts ← decI fs ("timestamp")
    let st ← decI fs ("step")
    some ⟨k, v, ts, st⟩
  | Json.null => some ⟨"", GoFloat64.zero, 0, 0⟩
  | _ => none

def LogMetricRequest.fromJson : Json → Option LogMetricRequest
  | Json.obj fs => do
    let r ← decS fs ("run_id")
    let k ← decS fs ("key")
    let v ← decF fs ("value")
    let ts ← decI fs ("timestamp")
    let st ← decI fs ("step")
    some ⟨r, k, v, ts, st⟩
  | Json.null => some ⟨"", "", GoFloat64.zero, 0, 0⟩
  | _ => none

def GetExperimentByNameRequest.fromJson : Json → Option GetExperimentByNameRequest
  | Json.obj fs => do
    let n ← decS fs ("experiment_name")
    some ⟨n⟩
  | Json.null => some ⟨""⟩
  | _ => none

def SetTagRequest.fromJson : Json → Option SetTagRequest
  | Json.obj fs => do
    let r ← decS fs ("run_id")
    let k ← decS fs ("key")
    let v ← decS fs ("value")
    some ⟨r, k, v⟩
  | Json.null => some ⟨"", "", ""⟩
  | _ => none

def LogModelRequest.fromJson : Json → Option LogModelRequest
  | Json.obj fs => do
    let r ← decS fs ("run_id")
    let m ← decS fs ("model_json")
    some ⟨r, m⟩
  | Json.null => some ⟨"", ""⟩
  | _ => none

def GetRegisteredModelRequest.fromJson : Json → Option GetRegisteredModelRequest
  | Json.obj fs => do
    let n ← decS fs ("name")
    some ⟨n⟩
  | Json.null => some ⟨""⟩
  | _ => none

def ModelVersionTag.fromJson : Json → Option ModelVersionTag
  | Json.obj fs => do
    let k ← decS fs ("key")
    let v ← decS fs ("value")
    some ⟨k, v⟩
  | Json.null => some ⟨"", ""⟩
  | _ => none

def CreateModelVersionRequest.fromJson : Json → Option CreateModelVersionRequest
  | Json.obj fs => do
    let n ← decS fs ("name")
    let s ← decS fs ("source")
    let r ← decS fs ("run_id")
    let t ← decSlice ModelVersionTag.fromJson fs ("tags")
    let d ← decS fs ("description")
    some ⟨n, s, r, t, d⟩
  | Json.null => some ⟨"", "", "", none, ""⟩
  | _ => none

def GetModelVersionRequest.fromJson : Json → Option GetModelVersionRequest
  | Json.obj fs => do
    let n ← decS fs ("name")
    let v ← decS fs ("version")
    some ⟨n, v⟩
  | Json.null => some ⟨"", ""⟩
  | _ => none

def RenameRegisteredModelRequest.fromJson : Json → Option RenameRegisteredModelRequest
  | Json.obj fs => do
    let n ← decS fs ("name")
    let nn ← decS fs ("new_name")
    some ⟨n, nn⟩
  | Json.null => some ⟨"", ""⟩
  | _ => none

def SearchRegisteredModelsRequest.fromJson : Json → Option SearchRegisteredModelsRequest
  | Json.obj fs => do
    let fl ← decS fs ("filter")
    let mr ← decI fs ("max_results")
    let ob ← decSlice jsonToGoString fs ("order_by")
    let pt ← decS fs ("page_token")
    some ⟨fl, mr, ob, pt⟩
  | Json.null => some ⟨"", 0, none, ""⟩
  | _ => none

def SetRegisteredModelTagRequest.fromJson : Json → Option SetRegisteredModelTagRequest
  | Json.obj fs => do
    let n ← decS fs ("name")
    let k ← decS fs ("key")
    let v ← decS fs ("value")
    some ⟨n, k, v⟩
  | Json.null => some ⟨"", "", ""⟩
  | _ => none

def SetModelVersionTagRequest.fromJson : Json → Option SetModelVersionTagRequest
  | Json.obj fs => do
    let n ← decS fs ("name")
    let ver ← decS fs ("version")
    let k ← decS fs ("key")
    let v ← decS fs ("value")
    some ⟨n, ver, k, v⟩
  | Json.null => some ⟨"", "", "", ""⟩
  | _ => none

def DeleteRegisteredModelTagRequest.fromJson : Json → Option DeleteRegisteredModelTagRequest
  | Json.obj fs => do
    let n ← decS fs ("name")
    let k ← decS fs ("key")
    some ⟨n, k⟩
  | Json.null => some ⟨"", ""⟩
  | _ => none

def DeleteModelVersionTagRequest.fromJson : Json → Option DeleteModelVersionTagRequest
  | Json.obj fs => do
    let n ← decS fs ("name")
    let v ← decS fs ("version")
    let k ← decS fs ("key")
    some ⟨n, v, k⟩
  | Json.null => some ⟨"", "", ""⟩
  | _ => none

def DeleteRegisteredModelAliasRequest.fromJson :
    Json → Option DeleteRegisteredModelAliasRequest
  | Json.obj fs => do
    let n ← decS fs ("name")
    let a ← decS fs ("alias")
    let v ← decS fs ("version")
    some ⟨n, a, v⟩
  | Json.null => some ⟨"", "", ""⟩
  | _ => none

def DatasetSchemaColumn.fromJson : Json → Option DatasetSchemaColumn
  | Json.obj fs => do
    let n ← decS fs ("name")
    let t ← decS fs ("type")
    some ⟨n, t⟩
  | Json.null => some ⟨"", ""⟩
  | _ => none

def DatasetSchema.zero : DatasetSchema := ⟨none⟩

def DatasetSchema.fromJson : Json → Option DatasetSchema
  | Json.obj fs => do
    let c ← decSlice DatasetSchemaColumn.fromJson fs ("columns")
    some ⟨c⟩
  | Json.null => some ⟨none⟩
  | _ => none

def DatasetTag.fromJson : Json → Option DatasetTag
  | Json.obj fs => do
    let k ← decS fs ("key")
    let v ← decS fs ("value")
    some ⟨k, v⟩
  | Json.null => some ⟨"", ""⟩
  | _ => none

def Dataset.fromJson : Json → Option Dataset
  | Json.obj fs => do
    let n ← decS fs ("name")
    let dg ← decS fs ("digest")
    let st ← decS fs ("source_type")
    let s ← decS fs ("source")
    let sc ← decStruct DatasetSchema.fromJson DatasetSchema.zero fs ("schema")
    let p ← decS fs ("profile")
    let t ← decSlice DatasetTag.fromJson fs ("tags")
    some ⟨n, dg, st, s, sc, p, t⟩
  | Json.null => some ⟨"", "", "", "", DatasetSchema.zero, "", none⟩
  | _ => none

def ModelInputTag.fromJson : Json → Option ModelInputTag
  | Json.obj fs => do
    let k ← decS fs ("key")
    let v ← decS fs ("value")
    some ⟨k, v⟩
  | Json.null => some ⟨"", ""⟩
  | _ => none

def ModelInput.fromJson : Json → Option ModelInput
  | Json.obj fs => do
    let n ← decS fs ("model_name")
    let v ← decS fs ("model_version")
    let st ← decS fs ("model_stage")
    let a ← decS fs ("alias")
    let t ← decSlice ModelInputTag.fromJson fs ("tags")
    some ⟨n, v, st, a, t⟩
  | Json.null => some ⟨"", "", "", "", none⟩
  | _ => none

def ModelOutput.fromJson : Json → Option ModelOutput
  | Json.obj fs => do
    let n ← decS fs ("model_name")
    let v ← decS fs ("model_version")
    let st ← decS fs ("model_stage")
    let a ← decS fs ("alias")
    let t ← decSlice ModelInputTag.fromJson fs ("tags")
    some ⟨n, v, st, a, t⟩
  | Json.null => some ⟨"", "", "", "", none⟩
  | _ => none

def LogInputsRequest.fromJson : Json → Option LogInputsRequest
  | Json.obj fs => do
    let r ← decS fs ("run_id")
    let d ← decSlice Dataset.fromJson fs ("datasets")
    let m ← decSlice ModelInput.fromJson fs ("model_inputs")
    some ⟨r, d, m⟩
  | Json.null => some ⟨"", none, none⟩
  | _ => none

def GetMetricHistoryRequest.fromJson : Json → Option GetMetricHistoryRequest
  | Json.obj fs => do
    let r ← decS fs ("run_id")
    let mk ← decS fs ("metric_key")
    let mr ← decI fs ("max_results")
    let pt ← decS fs ("page_token")
    some ⟨r, mk, mr, pt⟩
  | Json.null => some ⟨"", "", 0, ""⟩
  | _ => none

def GetLatestModelVersionsRequest.fromJson : Json → Option GetLatestModelVersionsRequest
  | Json.obj fs => do
    let n ← decS fs ("name")
    let st ← decSlice jsonToGoString fs ("stages")
    some ⟨n, st⟩
  | Json.null => some ⟨"", none⟩
  | _ => none

def ListArtifactsRequest.fromJson : Json → Option ListArtifactsRequest
  | Json.obj fs => do
    let r ← decS fs ("run_id")
    let p ← decS fs ("path")
    let pt ← decS fs ("page_token")
    some ⟨r, p, pt⟩
  | Json.null => some ⟨"", "", ""⟩
  | _ => none

def Experiment.fromJson : Json → Option Experiment
  | Json.obj fs => do
    let ei ← decS fs ("experiment_id")
    let n ← decS fs ("name")
    let al ← decS fs ("artifact_location")
    let ls ← decS fs ("lifecycle_stage")
    let lu ← decI fs ("last_update_time")
    let ct ← decI fs ("creation_time")
    let t ← decSlice ExperimentTag.fromJson fs ("tags")
    some ⟨ei, n, al, ls, lu, ct, t⟩
  | Json.null => some Experiment.zero
  | _ => none

def RunInfo.fromJson : Json → Option RunInfo
  | Json.obj fs => do
    let ri ← decS fs ("run_id")
    let rn ← decS fs ("run_name")
    let ei ← decS fs ("experiment_id")
    let ui ← decS fs ("user_id")
    let st ← decS fs ("status")
    let sta ← decI fs ("start_time")
    let et ← decI fs ("end_time")
    let au ← decS fs ("artifact_uri")
    let ls ← decS fs ("lifecycle_stage")
    some ⟨ri, rn, ei, ui, st, sta, et, au, ls⟩
  | Json.null => some RunInfo.zero
  | _ => none

def RunData.fromJson : Json → Option RunData
  | Json.obj fs => do
    let m ← decSlice Metric.fromJson fs ("metrics")
    let p ← decSlice Param.fromJson fs ("params")
    let t ← decSlice RunTag.fromJson fs ("tags")
    some ⟨m, p, t⟩
  | Json.null => some RunData.zero
  | _ => none

def RunInputs.fromJson : Json → Option RunInputs
  | Json.obj fs => do
    let d ← decSlice Dataset.fromJson fs ("datasets")
    let m ← decSlice ModelInput.fromJson fs ("model_inputs")
    some ⟨d, m⟩
  | Json.null => some RunInputs.zero
  | _ => none

def RunOutputs.fromJson : Json → Option RunOutputs
  | Json.obj fs => do
    let m ← decSlice ModelOutput.fromJson fs ("model_outputs")
    some ⟨m⟩
  | Json.null => some RunOutputs.zero
  | _ => none

def Run.fromJson : Json → Option Run
  | Json.obj fs => do
    let i ← decStruct RunInfo.fromJson RunInfo.zero fs ("info")
    let d ← decStruct RunData.fromJson RunData.zero fs ("data")
    let inp ← decStruct RunInputs.fromJson RunInputs.zero fs ("inputs")
    let out ← decStruct RunOutputs.fromJson RunOutputs.zero fs ("outputs")
    some ⟨i, d, inp, out⟩
  | Json.null => some Run.zero
  | _ => none

def CreateRunResponse.fromJson : Json → Option CreateRunResponse
  | Json.obj fs => do
    let r ← decStruct Run.fromJson Run.zero fs ("run")
    some ⟨r⟩
  | Json.null => some ⟨Run.zero⟩
  | _ => none

def SearchRunsResponse.fromJson : Json → Option SearchRunsResponse
  | Json.obj fs => do
    let r ← decSlice Run.fromJson fs ("runs")
    let n ← decS fs ("next_page_token")
    some ⟨r, n⟩
  | Json.null => some ⟨none, ""⟩
  | _ => none

def UpdateRunResponse.fromJson : Json → Option UpdateRunResponse
  | Json.obj fs => do
    let r ← decStruct RunInfo.fromJson RunInfo.zero fs ("run_info")
    some ⟨r⟩
  | Json.null => some ⟨RunInfo.zero⟩
  | _ => none

def ModelVersion.fromJson : Json → Option ModelVersion
  | Json.obj fs => do
    let n ← decS fs ("name")
    let v ← decS fs ("version")
    let ct ← decI fs ("creation_timestamp")
    let lu ← decI fs ("last_updated_timestamp")
    let ui ← decS fs ("user_id")
    let cs ← decS fs ("current_stage")
    let d ← decS fs ("description")
    let s ← decS fs ("source")
    let ri ← decS fs ("run_id")
    let st ← decS fs ("status")
    let sm ← decS fs ("status_message")
    let t ← decSlice ModelVersionTag.fromJson fs ("tags")
    let a ← decSlice jsonToGoString fs ("aliases")
    some ⟨n, v, ct, lu, ui, cs, d, s, ri, st, sm, t, a⟩
  | Json.null => some ModelVersion.zero
  | _ => none

def RegisteredModel.fromJson : Json → Option RegisteredModel
  | Json.obj fs => do
    let n ← decS fs ("name")
    let ct ← decI fs ("creation_timestamp")
    let lu ← decI fs ("last_updated_timestamp")
    let ui ← decS fs ("user_id")
    let d ← decS fs ("description")
    let lv ← decSlice ModelVersion.fromJson fs ("latest_versions")
    let t ← decSlice RegisteredModelTag.fromJson fs ("tags")
    let a ← decSlice jsonToGoString fs ("aliases")
    some ⟨n, ct, lu, ui, d, lv, t, a⟩
  | Json.null => some RegisteredModel.zero
  | _ => none

def CreateRegisteredModelResponse.fromJson : Json → Option CreateRegisteredModelResponse
  | Json.obj fs => do
    let r ← decStruct RegisteredModel.fromJson RegisteredModel.zero fs ("registered_model")
    some ⟨r⟩
  | Json.null => some ⟨RegisteredModel.zero⟩
  | _ => none

def CreateModelVersionResponse.fromJson : Json → Option CreateModelVersionResponse
  | Json.obj fs => do
    let m ← decStruct ModelVersion.fromJson ModelVersion.zero fs ("model_version")
    some ⟨m⟩
  | Json.null => some ⟨ModelVersion.zero⟩
  | _ => none

def GetExperimentResponse.fromJson : Json → Option GetExperimentResponse
  | Json.obj fs => do
    let e ← decStruct Experiment.fromJson Experiment.zero fs ("experiment")
    some ⟨e⟩
  | Json.null => some ⟨Experiment.zero⟩
  | _ => none

def GetRunResponse.fromJson : Json → Option GetRunResponse
  | Json.obj fs => do
    let r ← decStruct Run.fromJson Run.zero fs ("run")
    some ⟨r⟩
  | Json.null => some ⟨Run.zero⟩
  | _ => none

def GetRegisteredModelResponse.fromJson : Json → Option GetRegisteredModelResponse
  | Json.obj fs => do
    let r ← decStruct RegisteredModel.fromJson RegisteredModel.zero fs ("registered_model")
    some ⟨r⟩
  | Json.null => some ⟨RegisteredModel.zero⟩
  | _ => none

def GetModelVersionResponse.fromJson : Json → Option GetModelVersionResponse
  | Json.obj fs => do
    let m ← decStruct ModelVersion.fromJson ModelVersion.zero fs ("model_version")
    some ⟨m⟩
  | Json.null => some ⟨ModelVersion.zero⟩
  | _ => none

def SearchExperimentsResponse.fromJson : Json → Option SearchExperimentsResponse
  | Json.obj fs => do
    let e ← decSlice Experiment.fromJson fs ("experiments")
    let n ← decS fs ("next_page_token")
    some ⟨e, n⟩
  | Json.null => some ⟨none, ""⟩
  | _ => none

def ListExperimentsResponse.fromJson : Json → Option ListExperimentsResponse
  | Json.obj fs => do
    let e ← decSlice Experiment.fromJson fs ("experiments")
    let n ← decS fs ("next_page_token")
    some ⟨e, n⟩
  | Json.null => some ⟨none, ""⟩
  | _ => none

def GetMetricHistoryResponse.fromJson : Json → Option GetMetricHistoryResponse
  | Json.obj fs => do
    let m ← decSlice Metric.fromJson fs ("metrics")
    let n ← decS fs ("next_page_token")
    some ⟨m, n⟩
  | Json.null => some ⟨none, ""⟩
  | _ => none

def LogBatchRequest.fromJson : Json → Option LogBatchRequest
  | Json.obj fs => do
    let r ← decS fs ("run_id")
    let m ← decSlice Metric.fromJson fs ("metrics")
    let p ← decSlice Param.fromJson fs ("params")
    let t ← decSlice RunTag.fromJson fs ("tags")
    some ⟨r, m, p, t⟩
  | Json.null => some ⟨"", none, none, none⟩
  | _ => none

def RenameRegisteredModelResponse.fromJson : Json → Option RenameRegisteredModelResponse
  | Json.obj fs => do
    let r ← decStruct RegisteredModel.fromJson RegisteredModel.zero fs ("registered_model")
    some ⟨r⟩
  | Json.null => some ⟨RegisteredModel.zero⟩
  | _ => none

def GetLatestModelVersionsResponse.fromJson : Json → Option GetLatestModelVersionsResponse
  | Json.obj fs => do
    let m ← decSlice ModelVersion.fromJson fs ("model_versions")
    some ⟨m⟩
  | Json.null => some ⟨none⟩
  | _ => none

def SearchModelVersionsResponse.fromJson : Json → Option SearchModelVersionsResponse
  | Json.obj fs => do
    let m ← decSlice ModelVersion.fromJson fs ("model_versions")
    let n ← decS fs ("next_page_token")
    some ⟨m, n⟩
  | Json.null => some ⟨none, ""⟩
  | _ => none

def ListModelVersionsResponse.fromJson : Json → Option ListModelVersionsResponse
  | Json.obj fs => do
    let m ← decSlice ModelVersion.fromJson fs ("model_versions")
    let n ← decS fs ("next_page_token")
    some ⟨m, n⟩
  | Json.null => some ⟨none, ""⟩
  | _ => none

def SearchRegisteredModelsResponse.fromJson : Json → Option SearchRegisteredModelsResponse
  | Json.obj fs => do
    let r ← decSlice RegisteredModel.fromJson fs ("registered_models")
    let n ← decS fs ("next_page_token")
    some ⟨r, n⟩
  | Json.null => some ⟨none, ""⟩
  | _ => none

def ListRegisteredModelsResponse.fromJson : Json → Option ListRegisteredModelsResponse
  | Json.obj fs => do
    let r ← decSlice RegisteredModel.fromJson fs ("registered_models")
    let n ← decS fs ("next_page_token")
    some ⟨r, n⟩
  | Json.null => some ⟨none, ""⟩
  | _ => none

def DownloadURIInfo.fromJson : Json → Option DownloadURIInfo
  | Json.obj fs => do
    let p ← decS fs ("path")
    let a ← decS fs ("artifact_uri")
    some ⟨p, a⟩
  | Json.null => some ⟨"", ""⟩
  | _ => none

def GetDownloadURIsResponse.fromJson : Json → Option GetDownloadURIsResponse
  | Json.obj fs => do
    let f ← decSlice DownloadURIInfo.fromJson fs ("files")
    some ⟨f⟩
  | Json.null => some ⟨none⟩
  | _ => none

def GetModelVersionByAliasResponse.fromJson : Json → Option GetModelVersionByAliasResponse
  | Json.obj fs => do
    let m ← decStruct ModelVersion.fromJson ModelVersion.zero fs ("model_version")
    some ⟨m⟩
  | Json.null => some ⟨ModelVersion.zero⟩
  | _ => none

/-- The object-member value an omitempty string field contributes, as
seen by a lookup for its key: absent at the zero value. -/
def omitSVal (v : String) : Option Json :=
  if v = "" then none else some (Json.str v)

/-- The object-member value an omitempty integer field contributes. -/
def omitIVal (v : Int) : Option Json :=
  if v = 0 then none else some (Json.num v)

/-! Views of the decoders as functions of the looked-up member; each is
related to the corresponding `dec*` helper by a bridge lemma and exists
to let proofs evaluate one field at a time. -/

/-- `decS` as a function of the looked-up member. -/
def decodeStr : Option Json → Option String
  | none => some ""
  | some j => jsonToGoString j

/-- `decI` as a function of the looked-up member. -/
def decodeInt : Option Json → Option Int
  | none => some 0
  | some (Json.num n) => some n
  | some Json.null => some 0
  | some _ => none

/-- `decB` as a function of the looked-up member. -/
def decodeBool : Option Json → Option Bool
  | none => some false
  | some (Json.bool b) => some b
  | some Json.null => some false
  | some _ => none

/-- `decF` as a function of the looked-up member. -/
def decodeFloat : Option Json → Option GoFloat64
  | none => some GoFloat64.zero
  | some (Json.fnum v) => some v
  | some Json.null => some GoFloat64.zero
  | some _ => none

/-- `decSlice` as a function of the looked-up member. -/
def decodeSliceVal (f : Json → Option α) : Option Json → Option (Option (List α))
  | none => some none
  | some Json.null => some none
  | some (Json.arr xs) => (optionTraverse f xs).map fun l => some l
  | some _ => none

/-- `decStruct` as a function of the looked-up member. -/
def decodeStructVal (fromJ : Json → Option α) (dflt : α) : Option Json → Option α
  | none => some dflt
  | some j => fromJ j

/-! Round-trip safety predicates: the conditions of the amended C8,
computed per value. An omitempty slice field must not hold the empty
non-nil slice (it would be dropped at encode time and decode to nil),
and every float64 field must be finite (`json.Marshal` rejects NaN and
the infinities); the conditions recurse through nested values. -/

/-- An omitempty slice field with unconstrained elements round-trips
exactly when it is not the empty non-nil slice. -/
def omitOk : Option (List α) → Bool
  | none => true
  | some xs => !xs.isEmpty

/-- An omitempty slice field whose elements carry their own
condition. -/
def optSliceOk (f : α → Bool) : Option (List α) → Bool
  | none => true
  | some xs => !xs.isEmpty && xs.all f

/-- A required slice field whose elements carry their own condition
(nil and the empty slice both round-trip here). -/
def reqSliceOk (f : α → Bool) : Option (List α) → Bool
  | none => true
  | some xs => xs.all f

def Metric.jsonOk (x : Metric) : Bool := x.value.isFinite

def LogMetricRequest.jsonOk (x : LogMetricRequest) : Bool := x.value.isFinite

def CreateModelVersionRequest.jsonOk (x : CreateModelVersionRequest) : Bool :=
  omitOk x.tags

def SearchRegisteredModelsRequest.jsonOk (x : SearchRegisteredModelsRequest) : Bool :=
  omitOk x.orderBy

def GetLatestModelVersionsRequest.jsonOk (x : GetLatestModelVersionsRequest) : Bool :=
  omitOk x.stages

def DatasetSchema.jsonOk (x : DatasetSchema) : Bool := omitOk x.columns

def Dataset.jsonOk (x : Dataset) : Bool := DatasetSchema.jsonOk x.schema && omitOk x.tags

def ModelInput.jsonOk (x : ModelInput) : Bool := omitOk x.tags

def ModelOutput.jsonOk (x : ModelOutput) : Bool := omitOk x.tags

def LogInputsRequest.jsonOk (x : LogInputsRequest) : Bool :=
  optSliceOk Dataset.jsonOk x.datasets && optSliceOk ModelInput.jsonOk x.modelInputs

def RunData.jsonOk (x : RunData) : Bool := reqSliceOk Metric.jsonOk x.metrics

def RunInputs.jsonOk (x : RunInputs) : Bool :=
  optSliceOk Dataset.jsonOk x.datasets && optSliceOk ModelInput.jsonOk x.modelInputs

def RunOutputs.jsonOk (x : RunOutputs) : Bool := optSliceOk ModelOutput.jsonOk x.modelOutputs

def Run.jsonOk (x : Run) : Bool :=
  RunData.jsonOk x.data && RunInputs.jsonOk x.inputs && RunOutputs.jsonOk x.outputs

def CreateRunResponse.jsonOk (x : CreateRunResponse) : Bool := Run.jsonOk x.run

def GetRunResponse.jsonOk (x : GetRunResponse) : Bool := Run.jsonOk x.run

def SearchRunsResponse.jsonOk (x : SearchRunsResponse) : Bool := reqSliceOk Run.jsonOk x.runs

def GetMetricHistoryResponse.jsonOk (x : GetMetricHistoryResponse) : Bool :=
  reqSliceOk Metric.jsonOk x.metrics

def LogBatchRequest.jsonOk (x : LogBatchRequest) : Bool :=
  optSliceOk Metric.jsonOk x.metrics && omitOk x.params && omitOk x.tags

def ModelVersion.jsonOk (x : ModelVersion) : Bool := omitOk x.tags && omitOk x.aliases

def RegisteredModel.jsonOk (x : RegisteredModel) : Bool :=
  optSliceOk ModelVersion.jsonOk x.latestVersions && omitOk x.tags && omitOk x.aliases

def CreateModelVersionResponse.jsonOk (x : CreateModelVersionResponse) : Bool :=
  ModelVersion.jsonOk x.modelVersion

def GetModelVersionResponse.jsonOk (x : GetModelVersionResponse) : Bool :=
  ModelVersion.jsonOk x.modelVersion

def GetModelVersionByAliasResponse.jsonOk (x : GetModelVersionByAliasResponse) : Bool :=
  ModelVersion.jsonOk x.modelVersion

def GetLatestModelVersionsResponse.jsonOk (x : GetLatestModelVersionsResponse) : Bool :=
  reqSliceOk ModelVersion.jsonOk x.modelVersions

def SearchModelVersionsResponse.jsonOk (x : SearchModelVersionsResponse) : Bool :=
  reqSliceOk ModelVersion.jsonOk x.modelVersions

def ListModelVersionsResponse.jsonOk (x : ListModelVersionsResponse) : Bool :=
  reqSliceOk ModelVersion.jsonOk x.modelVersions

def CreateRegisteredModelResponse.jsonOk (x : CreateRegisteredModelResponse) : Bool :=
  RegisteredModel.jsonOk x.registeredModel

def GetRegisteredModelResponse.jsonOk (x : GetRegisteredModelResponse) : Bool :=
  RegisteredModel.jsonOk x.registeredModel

def RenameRegisteredModelResponse.jsonOk (x : RenameRegisteredModelResponse) : Bool :=
  RegisteredModel.jsonOk x.registeredModel

def SearchRegisteredModelsResponse.jsonOk (x : SearchRegisteredModelsResponse) : Bool :=
  reqSliceOk RegisteredModel.jsonOk x.registeredModels

def ListRegisteredModelsResponse.jsonOk (x : ListRegisteredModelsResponse) : Bool :=
  reqSliceOk RegisteredModel.jsonOk x.registeredModels

/-! The typed operations layer (client.go lines 305-845): each
definition yields the method/endpoint/body triple the Go method hands
to `doRequest`. Bodies built from Go `map[string]string` or
`map[string]interface` values are written with their keys in sorted
order, as `encoding/json` serialises maps. The four search operations
and the two defaulting operations carry their extra logic. -/

/-- The local validation error message of the four search operations. -/
def maxResultsErrMsg : String := "max_results must be greater than zero when provided"

/-- `CreateExperiment`. -/
def createExperiment (req : CreateExperimentRequest) : ClientRequest :=
  ⟨MethodPost, endpointExperimentsCreate, some req.toJson⟩

/-- `GetExperiment` (sends a `GetExperimentRequest` body with GET). -/
def getExperiment (experimentID : String) : ClientRequest :=
  ⟨MethodGet, endpointExperimentsGetBase, some (GetExperimentRequest.toJson ⟨experimentID⟩)⟩

/-- `GetExperimentByName`. -/
def getExperimentByName (experimentName : String) : ClientRequest :=
  ⟨MethodGet, endpointExperimentsGetByNameBase,
    some (GetExperimentByNameRequest.toJson ⟨experimentName⟩)⟩

/-- `DeleteExperiment` (map body). -/
def deleteExperiment (experimentID : String) : ClientRequest :=
  ⟨MethodPost, endpointExperimentsDeleteBase,
    some (Json.obj [("experiment_id", Json.str experimentID)])⟩

/-- `RestoreExperiment` (map body). -/
def restoreExperiment (experimentID : String) : ClientRequest :=
  ⟨MethodPost, endpointExperimentsRestoreBase,
    some (Json.obj [("experiment_id", Json.str experimentID)])⟩

/-- `UpdateExperiment` (map body, keys sorted). -/
def updateExperiment (experimentID newName : String) : ClientRequest :=
  ⟨MethodPost, endpointExperimentsUpdate,
    some (Json.obj [("experiment_id", Json.str experimentID), ("new_name", Json.str newName)])⟩

/-- `SetExperimentTag` (map body, keys sorted). -/
def setExperimentTag (experimentID key value : String) : ClientRequest :=
  ⟨MethodPost, endpointExperimentsSetTag,
    some (Json.obj [("experiment_id", Json.str experimentID), ("key", Json.str key),
      ("value", Json.str value)])⟩

/-- `DeleteExperimentTag` (map body, keys sorted). -/
def deleteExperimentTag (experimentID key : String) : ClientRequest :=
  ⟨MethodPost, endpointExperimentsDeleteTag,
    some (Json.obj [("experiment_id", Json.str experimentID), ("key", Json.str key)])⟩

/-- The request `SearchExperiments` issues once validation passes. -/
def searchExperimentsCall (req : SearchExperimentsRequest) : ClientRequest :=
  ⟨MethodPost, endpointExperimentsSearch, some req.toJson⟩

/-- `SearchExperiments`: rejects a non-positive max-results value
before any network call. -/
def searchExperiments (req : SearchExperimentsRequest) : Except String ClientRequest :=
  if req.maxResults ≤ 0 then Except.error maxResultsErrMsg
  else Except.ok (searchExperimentsCall req)

/-- The request value `CreateRun` actually sends: a zero start time is
replaced by `now`, the caller's clock in milliseconds at the moment of
the call. -/
def createRunSent (now : Int) (req : CreateRunRequest) : CreateRunRequest :=
  if req.startTime = 0 then { req with startTime := now } else req

/-- `CreateRun`. -/
def createRun (now : Int) (req : CreateRunRequest) : ClientRequest :=
  ⟨MethodPost, endpointRunsCreate, some (createRunSent now req).toJson⟩

/-- `GetRun` (sends a `GetRunRequest` body with POST). -/
def getRun (runID : String) : ClientRequest :=
  ⟨MethodPost, endpointRunsGet, some (GetRunRequest.toJson ⟨runID⟩)⟩

/-- The request `SearchRuns` issues once validation passes. -/
def searchRunsCall (req : SearchRunsRequest) : ClientRequest :=
  ⟨MethodPost, endpointRunsSearch, some req.toJson⟩

/-- `SearchRuns`: rejects a non-positive max-results value before any
network call. -/
def searchRuns (req : SearchRunsRequest) : Except String ClientRequest :=
  if req.maxResults ≤ 0 then Except.error maxResultsErrMsg
  else Except.ok (searchRunsCall req)

/-- `UpdateRun`. -/
def updateRun (req : UpdateRunRequest) : ClientRequest :=
  ⟨MethodPost, endpointRunsUpdate, some req.toJson⟩

/-- `DeleteRun` (map body). -/
def deleteRun (runID : String) : ClientRequest :=
  ⟨MethodPost, endpointRunsDelete, some (Json.obj [("run_id", Json.str runID)])⟩

/-- `RestoreRun` (map body). -/
def restoreRun (runID : String) : ClientRequest :=
  ⟨MethodPost, endpointRunsRestore, some (Json.obj [("run_id", Json.str runID)])⟩

/-- The request value `LogMetric` actually sends: a zero timestamp is
replaced by `now`; the source then reassigns a zero step to zero,
which changes nothing and is embedded as written. -/
def logMetricSent (now : Int) (req : LogMetricRequest) : LogMetricRequest :=
  let r1 := if req.timestamp = 0 then { req with timestamp := now } else req
  if r1.step = 0 then { r1 with step := 0 } else r1

/-- `LogMetric`. -/
def logMetric (now : Int) (req : LogMetricRequest) : ClientRequest :=
  ⟨MethodPost, endpointRunsLogMetric, some (logMetricSent now req).toJson⟩

/-- `LogParam`. -/
def logParam (req : LogParamRequest) : ClientRequest :=
  ⟨MethodPost, endpointRunsLogParameter, some req.toJson⟩

/-- `SetTag`. -/
def setTag (req : SetTagRequest) : ClientRequest :=
  ⟨MethodPost, endpointRunsSetTag, some req.toJson⟩

/-- `DeleteTag` (map body, keys sorted). -/
def deleteTag (runID key : String) : ClientRequest :=
  ⟨MethodPost, endpointRunsDeleteTag,
    some (Json.obj [("key", Json.str key), ("run_id", Json.str runID)])⟩

/-- `LogBatch` (map body, keys sorted: metrics, params, run_id, tags). -/
def logBatch (runID : String) (metrics : Option (List Metric)) (params : Option (List Param))
    (tags : Option (List RunTag)) : ClientRequest :=
  ⟨MethodPost, endpointRunsLogBatch,
    some (Json.obj [("metrics", sliceJson Metric.toJson metrics),
      ("params", sliceJson Param.toJson params),
      ("run_id", Json.str runID),
      ("tags", sliceJson RunTag.toJson tags)])⟩

/-- `LogModel`. -/
def logModel (req : LogModelRequest) : ClientRequest :=
  ⟨MethodPost, endpointRunsLogModel, some req.toJson⟩

/-- `LogInputs`. -/
def logInputs (req : LogInputsRequest) : ClientRequest :=
  ⟨MethodPost, endpointRunsLogInputs, some req.toJson⟩

/-- `GetMetricHistory` (query parameters, nil body). -/
def getMetricHistory (req : GetMetricHistoryRequest) : ClientRequest :=
  ⟨MethodGet,
    endpointMetricsGetHistory req.runUUID req.metricKey req.maxResults req.pageToken, none⟩

/-- `ListArtifacts` (query parameters, nil body). -/
def listArtifacts (runID path pageToken : String) : ClientRequest :=
  ⟨MethodGet, endpointArtifactsList runID path pageToken, none⟩

/-- `CreateRegisteredModel`. -/
def createRegisteredModel (req : CreateRegisteredModelRequest) : ClientRequest :=
  ⟨MethodPost, endpointRegisteredModelsCreate, some req.toJson⟩

/-- `GetRegisteredModel` (sends a `GetRegisteredModelRequest` body with
POST). -/
def getRegisteredModel (name : String) : ClientRequest :=
  ⟨MethodPost, endpointRegisteredModelsGet, some (GetRegisteredModelRequest.toJson ⟨name⟩)⟩

/-- `ListRegisteredModels` (query parameters, nil body). -/
def listRegisteredModels (maxResults : Int) (pageToken : String) : ClientRequest :=
  ⟨MethodGet, endpointRegisteredModelsListWithParams maxResults pageToken, none⟩

/-- `UpdateRegisteredModel` (PATCH; map body with conditional
description, keys sorted). -/
def updateRegisteredModel (name description : String) : ClientRequest :=
  ⟨MethodPatch, endpointRegisteredModelsUpdate,
    some (Json.obj ((if description ≠ "" then [("description", Json.str description)] else []) ++
      [("name", Json.str name)]))⟩

/-- `DeleteRegisteredModel` (map body). -/
def deleteRegisteredModel (name : String) : ClientRequest :=
  ⟨MethodPost, endpointRegisteredModelsDelete, some (Json.obj [("name", Json.str name)])⟩

/-- `CreateModelVersion`. -/
def createModelVersion (req : CreateModelVersionRequest) : ClientRequest :=
  ⟨MethodPost, endpointModelVersionsCreate, some req.toJson⟩

/-- `GetModelVersion` (sends a `GetModelVersionRequest` body with
POST). -/
def getModelVersion (name version : String) : ClientRequest :=
  ⟨MethodPost, endpointModelVersionsGetBase,
    some (GetModelVersionRequest.toJson ⟨name, version⟩)⟩

/-- `ListModelVersions` (query parameters, nil body). -/
def listModelVersions (name : String) (maxResults : Int) (pageToken : String) : ClientRequest :=
  ⟨MethodGet, endpointModelVersionsListWithParams name maxResults pageToken, none⟩

/-- `UpdateModelVersion` (PATCH; map body with conditional description
and stage, keys sorted). -/
def updateModelVersion (name version description stage : String) : ClientRequest :=
  ⟨MethodPatch, endpointModelVersionsUpdate,
    some (Json.obj ((if description ≠ "" then [("description", Json.str description)] else []) ++
      [("name", Json.str name)] ++
      (if stage ≠ "" then [("stage", Json.str stage)] else []) ++
      [("version", Json.str version)]))⟩

/-- `DeleteModelVersion` (map body, keys sorted). -/
def deleteModelVersion (name version : String) : ClientRequest :=
  ⟨MethodPost, endpointModelVersionsDeleteBase,
    some (Json.obj [("name", Json.str name), ("version", Json.str version)])⟩

/-- `TransitionModelVersionStage` (map body with conditional
archive_existing_versions, keys sorted). -/
def transitionModelVersionStage (name version stage archiveExistingVersions : String) :
    ClientRequest :=
  ⟨MethodPost, endpointModelVersionsTransitionStage,
    some (Json.obj
      ((if archiveExistingVersions ≠ "" then
          [("archive_existing_versions", Json.str archiveExistingVersions)]
        else []) ++
        [("name", Json.str name), ("stage", Json.str stage), ("version", Json.str version)]))⟩

/-- `RenameRegisteredModel`. -/
def renameRegisteredModel (req : RenameRegisteredModelRequest) : ClientRequest :=
  ⟨MethodPost, endpointRegisteredModelsRename, some req.toJson⟩

/-- `GetLatestModelVersions` (query parameters, nil body). -/
def getLatestModelVersions (req : GetLatestModelVersionsRequest) : ClientRequest :=
  ⟨MethodGet, endpointRegisteredModelsGetLatestVersionsWithParams req.name req.stages, none⟩

/-- The request `SearchModelVersions` issues once validation passes
(query parameters, nil body). -/
def searchModelVersionsCall (req : SearchModelVersionsRequest) : ClientRequest :=
  ⟨MethodGet,
    endpointModelVersionsSearchWithParams req.filter req.maxResults req.orderBy req.pageToken,
    none⟩

/-- `SearchModelVersions`: rejects a non-positive max-results value
before any network call. -/
def searchModelVersions (req : SearchModelVersionsRequest) : Except String ClientRequest :=
  if req.maxResults ≤ 0 then Except.error maxResultsErrMsg
  else Except.ok (searchModelVersionsCall req)

/-- `GetDownloadURIs`. -/
def getDownloadURIs (req : GetDownloadURIsRequest) : ClientRequest :=
  ⟨MethodPost, endpointModelVersionsGetDownloadURIs, some req.toJson⟩

/-- The request `SearchRegisteredModels` issues once validation
passes. -/
def searchRegisteredModelsCall (req : SearchRegisteredModelsRequest) : ClientRequest :=
  ⟨MethodPost, endpointRegisteredModelsSearch, some req.toJson⟩

/-- `SearchRegisteredModels`: rejects a non-positive max-results value
before any network call. -/
def searchRegisteredModels (req : SearchRegisteredModelsRequest) :
    Except String ClientRequest :=
  if req.maxResults ≤ 0 then Except.error maxResultsErrMsg
  else Except.ok (searchRegisteredModelsCall req)

/-- `SetRegisteredModelTag`. -/
def setRegisteredModelTag (req : SetRegisteredModelTagRequest) : ClientRequest :=
  ⟨MethodPost, endpointRegisteredModelsSetTag, some req.toJson⟩

/-- `SetModelVersionTag`. -/
def setModelVersionTag (req : SetModelVersionTagRequest) : ClientRequest :=
  ⟨MethodPost, endpointModelVersionsSetTag, some req.toJson⟩

/-- `DeleteRegisteredModelTag` (map body, keys sorted). -/
def deleteRegisteredModelTag (req : DeleteRegisteredModelTagRequest) : ClientRequest :=
  ⟨MethodPost, endpointRegisteredModelsDeleteTagBase,
    some (Json.obj [("key", Json.str req.key), ("name", Json.str req.name)])⟩

/-- `DeleteModelVersionTag` (map body, keys sorted). -/
def deleteModelVersionTag (req : DeleteModelVersionTagRequest) : ClientRequest :=
  ⟨MethodPost, endpointModelVersionsDeleteTagBase,
    some (Json.obj [("key", Json.str req.key), ("name", Json.str req.name),
      ("version", Json.str req.version)])⟩

/-- `SetRegisteredModelAlias` (struct body, POST to the alias
endpoint). -/
def setRegisteredModelAlias (req : SetRegisteredModelAliasRequest) : ClientRequest :=
  ⟨MethodPost, endpointRegisteredModelsAliasBase, some req.toJson⟩

/-- `DeleteRegisteredModelAlias` (map body with keys alias and name,
sorted; POST to the same alias endpoint). -/
def deleteRegisteredModelAlias (req : DeleteRegisteredModelAliasRequest) : ClientRequest :=
  ⟨MethodPost, endpointRegisteredModelsAliasBase,
    some (Json.obj [("alias", Json.str req.aliasName), ("name", Json.str req.name)])⟩

/-- `GetModelVersionByAlias`. -/
def getModelVersionByAlias (req : GetModelVersionByAliasRequest) : ClientRequest :=
  ⟨MethodPost, endpointRegisteredModelsGetModelVersionByAliasBase, some req.toJson⟩

/-- `GetHealth` (plain-text executor, GET, no body). -/
def getHealth : ClientRequest := ⟨MethodGet, endpointHealth, none⟩

/-- `GetVersion` (plain-text executor, GET, no body). -/
def getVersion : ClientRequest := ⟨MethodGet, endpointVersion, none⟩

/-- The minimum supported server version of `CheckServer`. -/
def minSupportedVersion : String := "3.8.0"

/-- `CheckServer` (client.go lines 35-57), with the outcomes of the two
underlying fetches (`GetHealth`, `GetVersion`) as inputs: an
`Except.error` input is a failed fetch carrying its error text. -/
def checkServer (healthResult versionResult : Except String String) : Except String Unit :=
  match healthResult with
  | Except.error e => Except.error ("failed to get server health: " ++ e)
  | Except.ok health =>
    if health ≠ "OK" then Except.error ("server health is not OK: " ++ health)
    else
      match versionResult with
      | Except.error e => Except.error ("failed to get server version: " ++ e)
      | Except.ok version =>
        if version = "" then Except.error ("server version is empty")
        else if version < minSupportedVersion then
          Except.error ("server version " ++ version ++ " is not supported, expected " ++
            minSupportedVersion ++ " or higher")
        else Except.ok ()

/-! Theorems. -/

/-- C1: for every HTTP response received by `doRequest`, a status code
in [200,300) yields the raw response body and no error, and a status
code outside that range yields no data and an `APIError` whose status
code field equals the response's status code. -/
theorem doRequest_status_dichotomy (resp : HTTPResponse) :
    (200 ≤ resp.statusCode ∧ resp.statusCode < 300 →
      handleResponse resp = Except.ok resp.body) ∧
    (resp.statusCode < 200 ∨ 300 ≤ resp.statusCode →
      ∃ e : APIError, handleResponse resp = Except.error e ∧
        e.statusCode = resp.statusCode) := by
  constructor
  · intro h
    unfold handleResponse
    rw [if_neg (by omega)]
  · intro h
    unfold handleResponse
    rw [if_pos h]
    cases unmarshalErrorResponse resp.body
    · exact ⟨_, rfl, rfl⟩
    · exact ⟨_, rfl, rfl⟩

/-- Witness for C1 at status 204 (body returned) and 404 (structured
error with matching status code). -/
theorem doRequest_status_dichotomy_witness :
    handleResponse ⟨204, "payload"⟩ = Except.ok ("payload") ∧
    ∃ e : APIError, handleResponse ⟨404, "missing"⟩ = Except.error e ∧
      e.statusCode = 404 :=
  ⟨(doRequest_status_dichotomy ⟨204, "payload"⟩).1 (by decide),
    (doRequest_status_dichotomy ⟨404, "missing"⟩).2 (by decide)⟩

/-- C2: for every non-2xx response, when the body unmarshals as an
`ErrorResponse` the returned `APIError` carries the extracted code and
message together with the status code and raw body; when it does not,
the message is the raw body verbatim and the error code is empty. -/
theorem doRequest_error_body_parsing (resp : HTTPResponse)
    (hs : resp.statusCode < 200 ∨ 300 ≤ resp.statusCode) :
    (∀ er : ErrorResponse, unmarshalErrorResponse resp.body = some er →
      handleResponse resp =
        Except.error ⟨resp.statusCode, er.message, resp.body, er.errorCode⟩) ∧
    (unmarshalErrorResponse resp.body = none →
      handleResponse resp =
        Except.error ⟨resp.statusCode, resp.body, resp.body, ""⟩) := by
  constructor
  · intro er h
    unfold handleResponse
    rw [if_pos hs]
    simp only [h]
  · intro h
    unfold handleResponse
    rw [if_pos hs]
    simp only [h]

/-- Witness for C2 at the two bodies of the spec: a JSON error body
with status 404 and a plain-text body with status 500. -/
theorem doRequest_error_body_parsing_witness :
    handleResponse
        ⟨404, "\x7b\"error_code\":\"RESOURCE_DOES_NOT_EXIST\",\"message\":\"Run not found\"\x7d"⟩ =
      Except.error
        ⟨404, "Run not found",
          "\x7b\"error_code\":\"RESOURCE_DOES_NOT_EXIST\",\"message\":\"Run not found\"\x7d",
          "RESOURCE_DOES_NOT_EXIST"⟩ ∧
    handleResponse ⟨500, "plain text failure"⟩ =
      Except.error ⟨500, "plain text failure", "plain text failure", ""⟩ :=
  ⟨(doRequest_error_body_parsing
        ⟨404, "\x7b\"error_code\":\"RESOURCE_DOES_NOT_EXIST\",\"message\":\"Run not found\"\x7d"⟩
        (by decide)).1 ⟨"RESOURCE_DOES_NOT_EXIST", "Run not found"⟩ (by decide),
    (doRequest_error_body_parsing ⟨500, "plain text failure"⟩ (by decide)).2 (by decide)⟩

/-- C7 counterexample: `ListArtifacts` issues a request with no body,
yet the outgoing request still carries the JSON content-type header —
`doRequest` sets the header unconditionally (client.go line 85), so the
header is not attached only when a body is supplied. -/
theorem contentType_without_body_counterexample :
    (doRequestOutgoing (NewClient ("http://localhost:5000"))
        (listArtifacts ("run-1") ("") (""))).body = none ∧
    ("Content-Type", "application/json") ∈
      (doRequestOutgoing (NewClient ("http://localhost:5000"))
        (listArtifacts ("run-1") ("") (""))).headers :=
  ⟨rfl, by decide⟩

/-- C7 amended: `doRequest` attaches the JSON content-type header to
every outgoing request, whether or not a body value is supplied. -/
theorem doRequest_always_sets_content_type (c : Client) (r : ClientRequest) :
    ("Content-Type", "application/json") ∈ (doRequestOutgoing c r).headers := by
  unfold doRequestOutgoing
  simp

/-- C10: setting and deleting a registered-model alias both send POST
to the same endpoint `/api/2.0/mlflow/registered-models/alias`; for any
pair of calls the method and endpoint coincide, the DELETE verb is
never used, and only the bodies differ. -/
theorem alias_operations_share_route (r1 : SetRegisteredModelAliasRequest)
    (r2 : DeleteRegisteredModelAliasRequest) :
    (setRegisteredModelAlias r1).method = (deleteRegisteredModelAlias r2).method ∧
    (setRegisteredModelAlias r1).endpoint = (deleteRegisteredModelAlias r2).endpoint ∧
    (setRegisteredModelAlias r1).method = MethodPost ∧
    (setRegisteredModelAlias r1).endpoint = "/api/2.0/mlflow/registered-models/alias" ∧
    (deleteRegisteredModelAlias r2).method ≠ MethodDelete :=
  ⟨rfl, rfl, rfl, rfl, fun h => absurd h (show ¬MethodPost = MethodDelete by decide)⟩

/-- C4: each of the three search operations over runs, registered
models, and model versions returns the local validation error on a
non-positive max-results value, and the request executor is invoked
zero times. -/
theorem searches_reject_nonpositive_max_results
    (r1 : SearchRunsRequest) (r2 : SearchRegisteredModelsRequest)
    (r3 : SearchModelVersionsRequest)
    (h1 : r1.maxResults ≤ 0) (h2 : r2.maxResults ≤ 0) (h3 : r3.maxResults ≤ 0) :
    (searchRuns r1 = Except.error maxResultsErrMsg ∧
      issuedCalls (searchRuns r1) = []) ∧
    (searchRegisteredModels r2 = Except.error maxResultsErrMsg ∧
      issuedCalls (searchRegisteredModels r2) = []) ∧
    (searchModelVersions r3 = Except.error maxResultsErrMsg ∧
      issuedCalls (searchModelVersions r3) = []) := by
  unfold searchRuns searchRegisteredModels searchModelVersions
  rw [if_pos h1, if_pos h2, if_pos h3]
  exact ⟨⟨rfl, rfl⟩, ⟨rfl, rfl⟩, ⟨rfl, rfl⟩⟩

/-- Witness for C4 at max-results 0 and two negative values. -/
theorem searches_reject_nonpositive_max_results_witness :
    (searchRuns ⟨none, "", "", 0, none, ""⟩ = Except.error maxResultsErrMsg ∧
      issuedCalls (searchRuns ⟨none, "", "", 0, none, ""⟩) = []) ∧
    (searchRegisteredModels ⟨"", -3, none, ""⟩ = Except.error maxResultsErrMsg ∧
      issuedCalls (searchRegisteredModels ⟨"", -3, none, ""⟩) = []) ∧
    (searchModelVersions ⟨"", -1, none, ""⟩ = Except.error maxResultsErrMsg ∧
      issuedCalls (searchModelVersions ⟨"", -1, none, ""⟩) = []) :=
  searches_reject_nonpositive_max_results
    ⟨none, "", "", 0, none, ""⟩ ⟨"", -3, none, ""⟩ ⟨"", -1, none, ""⟩
    (by decide) (by decide) (by decide)

/-- C9: `SearchExperiments` carries the same validation as the three
documented search operations: a non-positive (including unset zero)
max-results value yields the local validation error with zero network
calls, and a positive value issues the one search request. -/
theorem searchExperiments_requires_positive_max_results
    (req : SearchExperimentsRequest) :
    (req.maxResults ≤ 0 →
      searchExperiments req = Except.error maxResultsErrMsg ∧
      issuedCalls (searchExperiments req) = []) ∧
    (0 < req.maxResults →
      searchExperiments req = Except.ok (searchExperimentsCall req) ∧
      issuedCalls (searchExperiments req) = [searchExperimentsCall req]) := by
  constructor
  · intro h
    unfold searchExperiments
    rw [if_pos h]
    exact ⟨rfl, rfl⟩
  · intro h
    unfold searchExperiments
    rw [if_neg (by omega)]
    exact ⟨rfl, rfl⟩

/-- Witness for C9 at the unset zero value and at max-results 25. -/
theorem searchExperiments_requires_positive_max_results_witness :
    (searchExperiments ⟨"", 0, "", "", none⟩ = Except.error maxResultsErrMsg ∧
      issuedCalls (searchExperiments ⟨"", 0, "", "", none⟩) = []) ∧
    (searchExperiments ⟨"", 25, "", "", none⟩ =
        Except.ok (searchExperimentsCall ⟨"", 25, "", "", none⟩) ∧
      issuedCalls (searchExperiments ⟨"", 25, "", "", none⟩) =
        [searchExperimentsCall ⟨"", 25, "", "", none⟩]) :=
  ⟨(searchExperiments_requires_positive_max_results ⟨"", 0, "", "", none⟩).1 (by decide),
    (searchExperiments_requires_positive_max_results ⟨"", 25, "", "", none⟩).2 (by decide)⟩

/-- C5: `CreateRun` sends the caller's current time in milliseconds as
the start time exactly when the request's start time is zero, and sends
a nonzero start time unchanged; `LogMetric` does the same for a zero
versus nonzero timestamp. The two `body` conjuncts tie the sent request
value to the issued network request. -/
theorem create_run_log_metric_default_times (now : Int)
    (reqR : CreateRunRequest) (reqM : LogMetricRequest) :
    (reqR.startTime = 0 → createRunSent now reqR = { reqR with startTime := now }) ∧
    (reqR.startTime ≠ 0 → createRunSent now reqR = reqR) ∧
    (reqM.timestamp = 0 → logMetricSent now reqM = { reqM with timestamp := now }) ∧
    (reqM.timestamp ≠ 0 → logMetricSent now reqM = reqM) ∧
    (createRun now reqR).body = some (CreateRunRequest.toJson (createRunSent now reqR)) ∧
    (logMetric now reqM).body = some (LogMetricRequest.toJson (logMetricSent now reqM)) := by
  obtain ⟨er, eu, en, est, etg⟩ := reqR
  obtain ⟨mr, mk, mv, mts, mst⟩ := reqM
  refine ⟨?_, ?_, ?_, ?_, rfl, rfl⟩ <;> intro h
  · simp_all [createRunSent]
  · simp_all [createRunSent]
  · simp only at h
    subst h
    simp only [logMetricSent, if_pos rfl]
    by_cases hs : mst = 0 <;> simp [hs]
  · simp only at h
    simp only [logMetricSent, if_neg h]
    by_cases hs : mst = 0 <;> simp [hs]

/-- Witness for C5: zero and nonzero start times and timestamps at a
concrete clock value. -/
theorem create_run_log_metric_default_times_witness :
    createRunSent 1700000000000 ⟨"e1", "", "", 0, none⟩ =
      ⟨"e1", "", "", 1700000000000, none⟩ ∧
    createRunSent 1700000000000 ⟨"e1", "", "", 42, none⟩ = ⟨"e1", "", "", 42, none⟩ ∧
    logMetricSent 1700000000000 ⟨"r1", "loss", ⟨4612811918334230528⟩, 0, 7⟩ =
      ⟨"r1", "loss", ⟨4612811918334230528⟩, 1700000000000, 7⟩ ∧
    logMetricSent 1700000000000 ⟨"r1", "loss", ⟨4612811918334230528⟩, 99, 7⟩ = ⟨"r1", "loss", ⟨4612811918334230528⟩, 99, 7⟩ :=
  ⟨(create_run_log_metric_default_times 1700000000000 ⟨"e1", "", "", 0, none⟩
      ⟨"r1", "loss", ⟨4612811918334230528⟩, 0, 7⟩).1 (by decide),
    (create_run_log_metric_default_times 1700000000000 ⟨"e1", "", "", 42, none⟩
      ⟨"r1", "loss", ⟨4612811918334230528⟩, 0, 7⟩).2.1 (by decide),
    (create_run_log_metric_default_times 1700000000000 ⟨"e1", "", "", 0, none⟩
      ⟨"r1", "loss", ⟨4612811918334230528⟩, 0, 7⟩).2.2.1 (by decide),
    (create_run_log_metric_default_times 1700000000000 ⟨"e1", "", "", 0, none⟩
      ⟨"r1", "loss", ⟨4612811918334230528⟩, 99, 7⟩).2.2.2.1 (by decide)⟩

/-- C6: `CheckServer` returns an error exactly when the fetched health
text is not the literal "OK", or the fetched version text is empty or
sorts lexicographically below the minimum supported version "3.8.0", or
either underlying fetch fails. -/
theorem checkServer_error_iff (h v : Except String String) :
    (∃ e, checkServer h v = Except.error e) ↔
      ((∃ s, h = Except.ok s ∧ s ≠ "OK") ∨
       (∃ ver, v = Except.ok ver ∧ (ver = "" ∨ ver < minSupportedVersion)) ∨
       (∃ e, h = Except.error e) ∨ (∃ e, v = Except.error e)) := by
  cases h with
  | error e => simp [checkServer]
  | ok s =>
    by_cases hOK : s = "OK"
    · subst hOK
      cases v with
      | error e2 => simp [checkServer]
      | ok ver =>
        by_cases h1 : ver = "" <;> by_cases h2 : ver < minSupportedVersion <;>
          simp [checkServer, h1, h2]
        · exact String.lt_iff_toList_lt.mp h2
        · exact String.le_iff_toList_le.mp (le_of_not_lt h2)
    · simp [checkServer, hOK]

/-- Witness for C6: a version below the minimum is rejected, and an OK
health text with a supported version is accepted. -/
theorem checkServer_error_iff_witness :
    (∃ e, checkServer (Except.ok ("OK")) (Except.ok ("3.7.2")) = Except.error e) ∧
    checkServer (Except.ok ("OK")) (Except.ok ("3.9.1")) = Except.ok () :=
  ⟨(checkServer_error_iff (Except.ok ("OK")) (Except.ok ("3.7.2"))).mpr
      (Or.inr (Or.inl ⟨"3.7.2", rfl, Or.inr (String.lt_iff_toList_lt.mpr (by decide))⟩)),
    by
      have hlt : ¬("3.9.1" : String) < "3.8.0" := fun hc =>
        absurd (String.lt_iff_toList_lt.mp hc) (by decide)
      simp [checkServer, minSupportedVersion, hlt]⟩

/-- C3 counterexample: `GetRun`, a read operation named by the claim,
sends POST rather than GET (client.go line 426); so not every get/read
operation issues a GET request. -/
theorem getRun_uses_post_counterexample :
    (getRun ("run-1")).method = "POST" ∧ (getRun ("run-1")).method ≠ MethodGet :=
  ⟨rfl, fun h => absurd h (show ¬MethodPost = MethodGet by decide)⟩

/-- C3 amended: the verb of every operation, for all inputs. The reads
GetExperiment, GetExperimentByName, GetMetricHistory, ListArtifacts,
ListRegisteredModels, ListModelVersions, GetLatestModelVersions,
SearchModelVersions, GetHealth and GetVersion use GET, but the reads
GetRun, GetRegisteredModel, GetModelVersion and GetModelVersionByAlias
use POST; the partial updates UpdateRegisteredModel and
UpdateModelVersion use PATCH; every deletion uses POST; every verb is
GET, POST or PATCH, so no operation ever uses DELETE. -/
theorem operation_http_methods :
    (∀ r : CreateExperimentRequest, (createExperiment r).method = MethodPost) ∧
    (∀ i, (getExperiment i).method = MethodGet) ∧
    (∀ n, (getExperimentByName n).method = MethodGet) ∧
    (∀ i, (deleteExperiment i).method = MethodPost) ∧
    (∀ i, (restoreExperiment i).method = MethodPost) ∧
    (∀ i n, (updateExperiment i n).method = MethodPost) ∧
    (∀ i k v, (setExperimentTag i k v).method = MethodPost) ∧
    (∀ i k, (deleteExperimentTag i k).method = MethodPost) ∧
    (∀ r : SearchExperimentsRequest, (searchExperimentsCall r).method = MethodPost) ∧
    (∀ now r, (createRun now r).method = MethodPost) ∧
    (∀ i, (getRun i).method = MethodPost) ∧
    (∀ r : SearchRunsRequest, (searchRunsCall r).method = MethodPost) ∧
    (∀ r : UpdateRunRequest, (updateRun r).method = MethodPost) ∧
    (∀ i, (deleteRun i).method = MethodPost) ∧
    (∀ i, (restoreRun i).method = MethodPost) ∧
    (∀ now r, (logMetric now r).method = MethodPost) ∧
    (∀ r : LogParamRequest, (logParam r).method = MethodPost) ∧
    (∀ r : SetTagRequest, (setTag r).method = MethodPost) ∧
    (∀ i k, (deleteTag i k).method = MethodPost) ∧
    (∀ i m p t, (logBatch i m p t).method = MethodPost) ∧
    (∀ r : LogModelRequest, (logModel r).method = MethodPost) ∧
    (∀ r : LogInputsRequest, (logInputs r).method = MethodPost) ∧
    (∀ r : GetMetricHistoryRequest, (getMetricHistory r).method = MethodGet) ∧
    (∀ i p t, (listArtifacts i p t).method = MethodGet) ∧
    (∀ r : CreateRegisteredModelRequest, (createRegisteredModel r).method = MethodPost) ∧
    (∀ n, (getRegisteredModel n).method = MethodPost) ∧
    (∀ m p, (listRegisteredModels m p).method = MethodGet) ∧
    (∀ n d, (updateRegisteredModel n d).method = MethodPatch) ∧
    (∀ n, (deleteRegisteredModel n).method = MethodPost) ∧
    (∀ r : CreateModelVersionRequest, (createModelVersion r).method = MethodPost) ∧
    (∀ n v, (getModelVersion n v).method = MethodPost) ∧
    (∀ n m p, (listModelVersions n m p).method = MethodGet) ∧
    (∀ n v d s, (updateModelVersion n v d s).method = MethodPatch) ∧
    (∀ n v, (deleteModelVersion n v).method = MethodPost) ∧
    (∀ n v s a, (transitionModelVersionStage n v s a).method = MethodPost) ∧
    (∀ r : RenameRegisteredModelRequest, (renameRegisteredModel r).method = MethodPost) ∧
    (∀ r : GetLatestModelVersionsRequest, (getLatestModelVersions r).method = MethodGet) ∧
    (∀ r : SearchModelVersionsRequest, (searchModelVersionsCall r).method = MethodGet) ∧
    (∀ r : GetDownloadURIsRequest, (getDownloadURIs r).method = MethodPost) ∧
    (∀ r : SearchRegisteredModelsRequest, (searchRegisteredModelsCall r).method = MethodPost) ∧
    (∀ r : SetRegisteredModelTagRequest, (setRegisteredModelTag r).method = MethodPost) ∧
    (∀ r : SetModelVersionTagRequest, (setModelVersionTag r).method = MethodPost) ∧
    (∀ r : DeleteRegisteredModelTagRequest, (deleteRegisteredModelTag r).method = MethodPost) ∧
    (∀ r : DeleteModelVersionTagRequest, (deleteModelVersionTag r).method = MethodPost) ∧
    (∀ r : SetRegisteredModelAliasRequest, (setRegisteredModelAlias r).method = MethodPost) ∧
    (∀ r : DeleteRegisteredModelAliasRequest,
      (deleteRegisteredModelAlias r).method = MethodPost) ∧
    (∀ r : GetModelVersionByAliasRequest, (getModelVersionByAlias r).method = MethodPost) ∧
    getHealth.method = MethodGet ∧
    getVersion.method = MethodGet ∧
    MethodGet ≠ MethodDelete ∧ MethodPost ≠ MethodDelete ∧ MethodPatch ≠ MethodDelete := by
  repeat' apply And.intro
  all_goals first
    | decide
    | (intros; rfl)

/-! Round-trip lemmas for C8. -/

/-- Elementwise decoding inverts elementwise encoding. -/
theorem optionTraverse_map (f : α → Json) (g : Json → Option α)
    (H : ∀ y, g (f y) = some y) :
    ∀ xs : List α, optionTraverse g (xs.map f) = some xs
  | [] => rfl
  | a :: t => by simp [optionTraverse, H, optionTraverse_map f g H t]

theorem experimentTag_rt (e : ExperimentTag) :
    ExperimentTag.fromJson e.toJson = some e := by
  obtain ⟨k, v⟩ := e
  simp [ExperimentTag.toJson, ExperimentTag.fromJson, reqS, decS, getField, jsonToGoString]

theorem createExperimentRequest_rt (x : CreateExperimentRequest) (h : x.tags ≠ some []) :
    CreateExperimentRequest.fromJson x.toJson = some x := by
  obtain ⟨n, a, t⟩ := x
  rcases t with _ | ⟨_ | ⟨e, ts⟩⟩
  · by_cases ha : a = "" <;>
      simp [CreateExperimentRequest.toJson, CreateExperimentRequest.fromJson, reqS, omitS,
        omitSlice, decS, decSlice, getField, jsonToGoString, ha]
  · exact absurd rfl h
  · by_cases ha : a = "" <;>
      simp [CreateExperimentRequest.toJson, CreateExperimentRequest.fromJson, reqS, omitS,
        omitSlice, decS, decSlice, getField, jsonToGoString, ha, optionTraverse,
        experimentTag_rt,
        optionTraverse_map ExperimentTag.toJson ExperimentTag.fromJson experimentTag_rt]

theorem jsonToGoString_rt (s : String) : jsonToGoString (Json.str s) = some s := rfl

set_option maxHeartbeats 1000000 in
theorem searchRunsRequest_rt (x : SearchRunsRequest)
    (h1 : x.experimentIDs ≠ some []) (h2 : x.orderBy ≠ some []) :
    SearchRunsRequest.fromJson x.toJson = some x := by
  obtain ⟨ei, fl, rv, mr, ob, pt⟩ := x
  rcases ei with _ | ⟨_ | ⟨e1, l1⟩⟩ <;> rcases ob with _ | ⟨_ | ⟨e2, l2⟩⟩ <;>
    first
      | exact absurd rfl h1
      | exact absurd rfl h2
      | (simp only [SearchRunsRequest.toJson, SearchRunsRequest.fromJson, reqS, omitS, omitI,
          omitSlice,
           List.isEmpty_cons, Bool.false_eq_true, if_false]
         split_ifs <;>
           simp [*, decS, decI, decSlice, getField, jsonToGoString, optionTraverse,
             optionTraverse_map Json.str jsonToGoString jsonToGoString_rt])

theorem createExperimentResponse_rt (x : CreateExperimentResponse) :
    CreateExperimentResponse.fromJson x.toJson = some x := by
  obtain ⟨e⟩ := x
  simp [CreateExperimentResponse.toJson, CreateExperimentResponse.fromJson, reqS, decS,
    getField, jsonToGoString]

theorem getExperimentRequest_rt (x : GetExperimentRequest) :
    GetExperimentRequest.fromJson x.toJson = some x := by
  obtain ⟨e⟩ := x
  simp [GetExperimentRequest.toJson, GetExperimentRequest.fromJson, reqS, decS, getField,
    jsonToGoString]

theorem runTag_rt (e : RunTag) : RunTag.fromJson e.toJson = some e := by
  obtain ⟨k, v⟩ := e
  simp [RunTag.toJson, RunTag.fromJson, reqS, decS, getField, jsonToGoString]

theorem param_rt (e : Param) : Param.fromJson e.toJson = some e := by
  obtain ⟨k, v⟩ := e
  simp [Param.toJson, Param.fromJson, reqS, decS, getField, jsonToGoString]

theorem getRunRequest_rt (x : GetRunRequest) : GetRunRequest.fromJson x.toJson = some x := by
  obtain ⟨r⟩ := x
  simp [GetRunRequest.toJson, GetRunRequest.fromJson, reqS, decS, getField, jsonToGoString]

theorem logParamRequest_rt (x : LogParamRequest) :
    LogParamRequest.fromJson x.toJson = some x := by
  obtain ⟨r, k, v⟩ := x
  simp [LogParamRequest.toJson, LogParamRequest.fromJson, reqS, decS, getField,
    jsonToGoString]

theorem setRegisteredModelAliasRequest_rt (x : SetRegisteredModelAliasRequest) :
    SetRegisteredModelAliasRequest.fromJson x.toJson = some x := by
  obtain ⟨n, a, v⟩ := x
  simp [SetRegisteredModelAliasRequest.toJson, SetRegisteredModelAliasRequest.fromJson, reqS,
    decS, getField, jsonToGoString]

theorem getModelVersionByAliasRequest_rt (x : GetModelVersionByAliasRequest) :
    GetModelVersionByAliasRequest.fromJson x.toJson = some x := by
  obtain ⟨n, a⟩ := x
  simp [GetModelVersionByAliasRequest.toJson, GetModelVersionByAliasRequest.fromJson, reqS,
    decS, getField, jsonToGoString]

theorem errorResponse_rt (x : ErrorResponse) : ErrorResponse.fromJson x.toJson = some x := by
  obtain ⟨c, m⟩ := x
  simp [ErrorResponse.toJson, ErrorResponse.fromJson, reqS, decS, getField, jsonToGoString]

theorem updateRunRequest_rt (x : UpdateRunRequest) :
    UpdateRunRequest.fromJson x.toJson = some x := by
  obtain ⟨r, st, et⟩ := x
  simp only [UpdateRunRequest.toJson, UpdateRunRequest.fromJson, reqS, omitS, omitI]
  split_ifs <;> simp [*, decS, decI, getField, jsonToGoString]

theorem fileInfo_rt (x : FileInfo) : FileInfo.fromJson x.toJson = some x := by
  obtain ⟨p, d, s⟩ := x
  simp only [FileInfo.toJson, FileInfo.fromJson, reqS, reqB, omitI]
  split_ifs <;> simp [*, decS, decI, decB, getField, jsonToGoString]

set_option maxHeartbeats 1000000 in
theorem searchExperimentsRequest_rt (x : SearchExperimentsRequest)
    (h : x.orderBy ≠ some []) :
    SearchExperimentsRequest.fromJson x.toJson = some x := by
  obtain ⟨vt, mr, pt, fl, ob⟩ := x
  rcases ob with _ | ⟨_ | ⟨e, l⟩⟩ <;>
    first
      | exact absurd rfl h
      | (simp only [SearchExperimentsRequest.toJson, SearchExperimentsRequest.fromJson, omitS,
          omitI, omitSlice,
           List.isEmpty_cons, Bool.false_eq_true, if_false]
         split_ifs <;>
           simp [*, decS, decI, decSlice, getField, jsonToGoString, optionTraverse,
             optionTraverse_map Json.str jsonToGoString jsonToGoString_rt])

set_option maxHeartbeats 1000000 in
theorem createRunRequest_rt (x : CreateRunRequest) (h : x.tags ≠ some []) :
    CreateRunRequest.fromJson x.toJson = some x := by
  obtain ⟨ei, ui, rn, st, t⟩ := x
  rcases t with _ | ⟨_ | ⟨e, l⟩⟩ <;>
    first
      | exact absurd rfl h
      | (simp only [CreateRunRequest.toJson, CreateRunRequest.fromJson, reqS, omitS, omitI,
          omitSlice,
           List.isEmpty_cons, Bool.false_eq_true, if_false]
         split_ifs <;>
           simp [*, decS, decI, decSlice, getField, jsonToGoString, optionTraverse, runTag_rt,
             optionTraverse_map RunTag.toJson RunTag.fromJson runTag_rt])

theorem registeredModelTag_rt (e : RegisteredModelTag) :
    RegisteredModelTag.fromJson e.toJson = some e := by
  obtain ⟨k, v⟩ := e
  simp [RegisteredModelTag.toJson, RegisteredModelTag.fromJson, reqS, decS, getField,
    jsonToGoString]

theorem createRegisteredModelRequest_rt (x : CreateRegisteredModelRequest)
    (h : x.tags ≠ some []) :
    CreateRegisteredModelRequest.fromJson x.toJson = some x := by
  obtain ⟨n, d, t⟩ := x
  rcases t with _ | ⟨_ | ⟨e, l⟩⟩ <;>
    first
      | exact absurd rfl h
      | (simp only [CreateRegisteredModelRequest.toJson, CreateRegisteredModelRequest.fromJson,
          reqS, omitS, omitSlice,
           List.isEmpty_cons, Bool.false_eq_true, if_false]
         split_ifs <;>
           simp [*, decS, decSlice, getField, jsonToGoString, optionTraverse,
             registeredModelTag_rt,
             optionTraverse_map RegisteredModelTag.toJson RegisteredModelTag.fromJson
               registeredModelTag_rt])

set_option maxHeartbeats 1000000 in
theorem searchModelVersionsRequest_rt (x : SearchModelVersionsRequest)
    (h : x.orderBy ≠ some []) :
    SearchModelVersionsRequest.fromJson x.toJson = some x := by
  obtain ⟨fl, mr, ob, pt⟩ := x
  rcases ob with _ | ⟨_ | ⟨e, l⟩⟩ <;>
    first
      | exact absurd rfl h
      | (simp only [SearchModelVersionsRequest.toJson, SearchModelVersionsRequest.fromJson,
          omitS, omitI, omitSlice,
           List.isEmpty_cons, Bool.false_eq_true, if_false]
         split_ifs <;>
           simp [*, decS, decI, decSlice, getField, jsonToGoString, optionTraverse,
             optionTraverse_map Json.str jsonToGoString jsonToGoString_rt])

theorem getDownloadURIsRequest_rt (x : GetDownloadURIsRequest) (h : x.paths ≠ some []) :
    GetDownloadURIsRequest.fromJson x.toJson = some x := by
  obtain ⟨n, v, p⟩ := x
  rcases p with _ | ⟨_ | ⟨e, l⟩⟩ <;>
    first
      | exact absurd rfl h
      | simp [GetDownloadURIsRequest.toJson, GetDownloadURIsRequest.fromJson, reqS, omitSlice,
          decS, decSlice, getField, jsonToGoString, optionTraverse,
          optionTraverse_map Json.str jsonToGoString jsonToGoString_rt]

theorem listArtifactsResponse_rt (x : ListArtifactsResponse) :
    ListArtifactsResponse.fromJson x.toJson = some x := by
  obtain ⟨r, f, n⟩ := x
  rcases f with _ | l <;>
    (simp only [ListArtifactsResponse.toJson, ListArtifactsResponse.fromJson, reqS, reqSlice,
       sliceJson, omitS]
     split_ifs <;>
       simp [*, decS, decSlice, getField, jsonToGoString, optionTraverse, fileInfo_rt,
         optionTraverse_map FileInfo.toJson FileInfo.fromJson fileInfo_rt])

/-- Elementwise decoding inverts elementwise encoding under a
per-element hypothesis. -/
theorem optionTraverse_map_of (f : α → Json) (g : Json → Option α) :
    ∀ xs : List α, (∀ y ∈ xs, g (f y) = some y) →
      optionTraverse g (xs.map f) = some xs
  | [], _ => rfl
  | a :: t, H => by
    simp [optionTraverse, H a (List.mem_cons_self a t),
      optionTraverse_map_of f g t fun y hy => H y (List.mem_cons_of_mem a hy)]

theorem getExperimentByNameRequest_rt (x : GetExperimentByNameRequest) :
    GetExperimentByNameRequest.fromJson x.toJson = some x := by
  obtain ⟨n⟩ := x
  simp [GetExperimentByNameRequest.toJson, GetExperimentByNameRequest.fromJson, reqS, decS,
    getField, jsonToGoString]

theorem setTagRequest_rt (x : SetTagRequest) : SetTagRequest.fromJson x.toJson = some x := by
  obtain ⟨r, k, v⟩ := x
  simp [SetTagRequest.toJson, SetTagRequest.fromJson, reqS, decS, getField, jsonToGoString]

theorem logModelRequest_rt (x : LogModelRequest) :
    LogModelRequest.fromJson x.toJson = some x := by
  obtain ⟨r, m⟩ := x
  simp [LogModelRequest.toJson, LogModelRequest.fromJson, reqS, decS, getField,
    jsonToGoString]

theorem getRegisteredModelRequest_rt (x : GetRegisteredModelRequest) :
    GetRegisteredModelRequest.fromJson x.toJson = some x := by
  obtain ⟨n⟩ := x
  simp [GetRegisteredModelRequest.toJson, GetRegisteredModelRequest.fromJson, reqS, decS,
    getField, jsonToGoString]

theorem modelVersionTag_rt (e : ModelVersionTag) :
    ModelVersionTag.fromJson e.toJson = some e := by
  obtain ⟨k, v⟩ := e
  simp [ModelVersionTag.toJson, ModelVersionTag.fromJson, reqS, decS, getField,
    jsonToGoString]

theorem getModelVersionRequest_rt (x : GetModelVersionRequest) :
    GetModelVersionRequest.fromJson x.toJson = some x := by
  obtain ⟨n, v⟩ := x
  simp [GetModelVersionRequest.toJson, GetModelVersionRequest.fromJson, reqS, decS, getField,
    jsonToGoString]

theorem renameRegisteredModelRequest_rt (x : RenameRegisteredModelRequest) :
    RenameRegisteredModelRequest.fromJson x.toJson = some x := by
  obtain ⟨n, nn⟩ := x
  simp [RenameRegisteredModelRequest.toJson, RenameRegisteredModelRequest.fromJson, reqS,
    decS, getField, jsonToGoString]

theorem setRegisteredModelTagRequest_rt (x : SetRegisteredModelTagRequest) :
    SetRegisteredModelTagRequest.fromJson x.toJson = some x := by
  obtain ⟨n, k, v⟩ := x
  simp [SetRegisteredModelTagRequest.toJson, SetRegisteredModelTagRequest.fromJson, reqS,
    decS, getField, jsonToGoString]

theorem setModelVersionTagRequest_rt (x : SetModelVersionTagRequest) :
    SetModelVersionTagRequest.fromJson x.toJson = some x := by
  obtain ⟨n, ver, k, v⟩ := x
  simp [SetModelVersionTagRequest.toJson, SetModelVersionTagRequest.fromJson, reqS, decS,
    getField, jsonToGoString]

theorem deleteRegisteredModelTagRequest_rt (x : DeleteRegisteredModelTagRequest) :
    DeleteRegisteredModelTagRequest.fromJson x.toJson = some x := by
  obtain ⟨n, k⟩ := x
  simp [DeleteRegisteredModelTagRequest.toJson, DeleteRegisteredModelTagRequest.fromJson,
    reqS, decS, getField, jsonToGoString]

theorem deleteModelVersionTagRequest_rt (x : DeleteModelVersionTagRequest) :
    DeleteModelVersionTagRequest.fromJson x.toJson = some x := by
  obtain ⟨n, v, k⟩ := x
  simp [DeleteModelVersionTagRequest.toJson, DeleteModelVersionTagRequest.fromJson, reqS,
    decS, getField, jsonToGoString]

theorem deleteRegisteredModelAliasRequest_rt (x : DeleteRegisteredModelAliasRequest) :
    DeleteRegisteredModelAliasRequest.fromJson x.toJson = some x := by
  obtain ⟨n, a, v⟩ := x
  simp [DeleteRegisteredModelAliasRequest.toJson, DeleteRegisteredModelAliasRequest.fromJson,
    reqS, decS, getField, jsonToGoString]

theorem datasetSchemaColumn_rt (e : DatasetSchemaColumn) :
    DatasetSchemaColumn.fromJson e.toJson = some e := by
  obtain ⟨n, t⟩ := e
  simp [DatasetSchemaColumn.toJson, DatasetSchemaColumn.fromJson, reqS, decS, getField,
    jsonToGoString]

theorem datasetTag_rt (e : DatasetTag) : DatasetTag.fromJson e.toJson = some e := by
  obtain ⟨k, v⟩ := e
  simp [DatasetTag.toJson, DatasetTag.fromJson, reqS, decS, getField, jsonToGoString]

theorem modelInputTag_rt (e : ModelInputTag) : ModelInputTag.fromJson e.toJson = some e := by
  obtain ⟨k, v⟩ := e
  simp [ModelInputTag.toJson, ModelInputTag.fromJson, reqS, decS, getField, jsonToGoString]

theorem downloadURIInfo_rt (e : DownloadURIInfo) :
    DownloadURIInfo.fromJson e.toJson = some e := by
  obtain ⟨p, a⟩ := e
  simp [DownloadURIInfo.toJson, DownloadURIInfo.fromJson, reqS, decS, getField,
    jsonToGoString]

theorem listArtifactsRequest_rt (x : ListArtifactsRequest) :
    ListArtifactsRequest.fromJson x.toJson = some x := by
  obtain ⟨r, p, pt⟩ := x
  simp only [ListArtifactsRequest.toJson, ListArtifactsRequest.fromJson, reqS, omitS]
  split_ifs <;> simp [*, decS, getField, jsonToGoString]

theorem getMetricHistoryRequest_rt (x : GetMetricHistoryRequest) :
    GetMetricHistoryRequest.fromJson x.toJson = some x := by
  obtain ⟨r, mk, mr, pt⟩ := x
  simp only [GetMetricHistoryRequest.toJson, GetMetricHistoryRequest.fromJson, reqS, omitS,
    omitI]
  split_ifs <;> simp [*, decS, decI, getField, jsonToGoString]

theorem metric_rt (x : Metric) (h : Metric.jsonOk x = true) :
    Metric.fromJson x.toJson = some x := by
  obtain ⟨k, v, ts, st⟩ := x
  simp [Metric.toJson, Metric.fromJson, reqS, reqF, reqI, decS, decF, decI, getField,
    jsonToGoString]

theorem logMetricRequest_rt (x : LogMetricRequest) (h : LogMetricRequest.jsonOk x = true) :
    LogMetricRequest.fromJson x.toJson = some x := by
  obtain ⟨r, k, v, ts, st⟩ := x
  simp only [LogMetricRequest.toJson, LogMetricRequest.fromJson, reqS, reqF, omitI]
  split_ifs <;> simp [*, decS, decF, decI, getField, jsonToGoString]

theorem createModelVersionRequest_rt (x : CreateModelVersionRequest)
    (h : CreateModelVersionRequest.jsonOk x = true) :
    CreateModelVersionRequest.fromJson x.toJson = some x := by
  obtain ⟨n, s, r, t, d⟩ := x
  rcases t with _ | ⟨_ | ⟨e, ts⟩⟩ <;>
    first
      | (simp [CreateModelVersionRequest.jsonOk, omitOk] at h ; done)
      | (simp only [CreateModelVersionRequest.toJson, CreateModelVersionRequest.fromJson,
           reqS, omitS, omitSlice,
           List.isEmpty_cons, Bool.false_eq_true, if_false]
         split_ifs <;>
           simp [*, decS, decSlice, getField, jsonToGoString, optionTraverse,
             modelVersionTag_rt,
             optionTraverse_map ModelVersionTag.toJson ModelVersionTag.fromJson
               modelVersionTag_rt])

theorem searchRegisteredModelsRequest_rt (x : SearchRegisteredModelsRequest)
    (h : SearchRegisteredModelsRequest.jsonOk x = true) :
    SearchRegisteredModelsRequest.fromJson x.toJson = some x := by
  obtain ⟨fl, mr, ob, pt⟩ := x
  rcases ob with _ | ⟨_ | ⟨e, l⟩⟩ <;>
    first
      | (simp [SearchRegisteredModelsRequest.jsonOk, omitOk] at h ; done)
      | (simp only [SearchRegisteredModelsRequest.toJson,
           SearchRegisteredModelsRequest.fromJson, omitS, omitI, omitSlice,
           List.isEmpty_cons, Bool.false_eq_true, if_false]
         split_ifs <;>
           simp [*, decS, decI, decSlice, getField, jsonToGoString, optionTraverse,
             optionTraverse_map Json.str jsonToGoString jsonToGoString_rt])

theorem getLatestModelVersionsRequest_rt (x : GetLatestModelVersionsRequest)
    (h : GetLatestModelVersionsRequest.jsonOk x = true) :
    GetLatestModelVersionsRequest.fromJson x.toJson = some x := by
  obtain ⟨n, st⟩ := x
  rcases st with _ | ⟨_ | ⟨e, l⟩⟩ <;>
    first
      | (simp [GetLatestModelVersionsRequest.jsonOk, omitOk] at h ; done)
      | simp [GetLatestModelVersionsRequest.toJson, GetLatestModelVersionsRequest.fromJson,
          reqS, omitSlice, decS, decSlice, getField, jsonToGoString, optionTraverse,
          optionTraverse_map Json.str jsonToGoString jsonToGoString_rt]

theorem datasetSchema_rt (x : DatasetSchema) (h : DatasetSchema.jsonOk x = true) :
    DatasetSchema.fromJson x.toJson = some x := by
  obtain ⟨c⟩ := x
  rcases c with _ | ⟨_ | ⟨e, l⟩⟩ <;>
    first
      | (simp [DatasetSchema.jsonOk, omitOk] at h ; done)
      | simp [DatasetSchema.toJson, DatasetSchema.fromJson, omitSlice, decSlice, getField,
          optionTraverse, datasetSchemaColumn_rt,
          optionTraverse_map DatasetSchemaColumn.toJson DatasetSchemaColumn.fromJson
            datasetSchemaColumn_rt]

/-- Under the no-empty-non-nil condition, an omitempty slice field is
encoded like a required field that drops nil. -/
theorem omitSlice_of_omitOk (k : String) (f : α → Json) (v : Option (List α))
    (h : omitOk v = true) :
    omitSlice k f v =
      match v with
      | none => []
      | some xs => [(k, Json.arr (xs.map f))] := by
  rcases v with _ | l
  · rfl
  · simp only [omitOk, Bool.not_eq_true'] at h
    simp [omitSlice, h]

/-- The same conversion from the elementwise condition. -/
theorem omitSlice_of_optSliceOk (k : String) (f : α → Json) (g : α → Bool)
    (v : Option (List α)) (h : optSliceOk g v = true) :
    omitSlice k f v =
      match v with
      | none => []
      | some xs => [(k, Json.arr (xs.map f))] := by
  rcases v with _ | l
  · rfl
  · simp only [optSliceOk, Bool.and_eq_true, Bool.not_eq_true'] at h
    simp [omitSlice, h.1]

/-- The elementwise condition holds on each member of a present
slice. -/
theorem optSliceOk_all (g : α → Bool) (l : List α)
    (h : optSliceOk g (some l) = true) : ∀ y ∈ l, g y = true := by
  simp only [optSliceOk, Bool.and_eq_true, List.all_eq_true] at h
  exact h.2

/-- The elementwise condition of a required slice. -/
theorem reqSliceOk_all (g : α → Bool) (l : List α)
    (h : reqSliceOk g (some l) = true) : ∀ y ∈ l, g y = true := by
  simp only [reqSliceOk, List.all_eq_true] at h
  exact h

theorem dataset_rt (x : Dataset) (h : Dataset.jsonOk x = true) :
    Dataset.fromJson x.toJson = some x := by
  obtain ⟨n, dg, sty, src, sc, p, t⟩ := x
  simp only [Dataset.jsonOk, Bool.and_eq_true] at h
  obtain ⟨hs, ht⟩ := h
  have hsc := datasetSchema_rt sc hs
  rcases t with _ | t <;>
    (simp only [Dataset.toJson, Dataset.fromJson, reqS, omitS,
       omitSlice_of_omitOk _ _ _ ht]
     split_ifs <;>
       simp [*, decS, decSlice, decStruct, getField, jsonToGoString, optionTraverse_map
         DatasetTag.toJson DatasetTag.fromJson datasetTag_rt])

theorem modelInput_rt (x : ModelInput) (h : ModelInput.jsonOk x = true) :
    ModelInput.fromJson x.toJson = some x := by
  obtain ⟨n, v, st, a, t⟩ := x
  simp only [ModelInput.jsonOk] at h
  rcases t with _ | t <;>
    (simp only [ModelInput.toJson, ModelInput.fromJson, reqS, omitS,
       omitSlice_of_omitOk _ _ _ h]
     split_ifs <;>
       simp [*, decS, decSlice, getField, jsonToGoString, optionTraverse_map
         ModelInputTag.toJson ModelInputTag.fromJson modelInputTag_rt])

theorem modelOutput_rt (x : ModelOutput) (h : ModelOutput.jsonOk x = true) :
    ModelOutput.fromJson x.toJson = some x := by
  obtain ⟨n, v, st, a, t⟩ := x
  simp only [ModelOutput.jsonOk] at h
  rcases t with _ | t <;>
    (simp only [ModelOutput.toJson, ModelOutput.fromJson, reqS, omitS,
       omitSlice_of_omitOk _ _ _ h]
     split_ifs <;>
       simp [*, decS, decSlice, getField, jsonToGoString, optionTraverse_map
         ModelInputTag.toJson ModelInputTag.fromJson modelInputTag_rt])

theorem logInputsRequest_rt (x : LogInputsRequest) (h : LogInputsRequest.jsonOk x = true) :
    LogInputsRequest.fromJson x.toJson = some x := by
  obtain ⟨r, d, m⟩ := x
  simp only [LogInputsRequest.jsonOk, Bool.and_eq_true] at h
  obtain ⟨hd, hm⟩ := h
  have htrd : ∀ l, d = some l →
      optionTraverse Dataset.fromJson (l.map Dataset.toJson) = some l := by
    intro l hl
    subst hl
    exact optionTraverse_map_of _ _ l fun y hy => dataset_rt y (optSliceOk_all _ _ hd y hy)
  have htrm : ∀ l, m = some l →
      optionTraverse ModelInput.fromJson (l.map ModelInput.toJson) = some l := by
    intro l hl
    subst hl
    exact optionTraverse_map_of _ _ l fun y hy =>
      modelInput_rt y (optSliceOk_all _ _ hm y hy)
  rcases d with _ | d <;> rcases m with _ | m <;>
    simp [LogInputsRequest.toJson, LogInputsRequest.fromJson, reqS,
      omitSlice_of_optSliceOk _ _ _ _ hd, omitSlice_of_optSliceOk _ _ _ _ hm, decS,
      decSlice, getField, jsonToGoString, htrd, htrm]

theorem experiment_rt (x : Experiment) : Experiment.fromJson x.toJson = some x := by
  obtain ⟨ei, n, al, ls, lu, ct, t⟩ := x
  rcases t with _ | t <;>
    simp [Experiment.toJson, Experiment.fromJson, reqS, reqI, reqSlice, sliceJson, decS,
      decI, decSlice, getField, jsonToGoString,
      optionTraverse_map ExperimentTag.toJson ExperimentTag.fromJson experimentTag_rt]

theorem runInfo_rt (x : RunInfo) : RunInfo.fromJson x.toJson = some x := by
  obtain ⟨ri, rn, ei, ui, st, sta, et, au, ls⟩ := x
  simp only [RunInfo.toJson, RunInfo.fromJson, reqS, reqI, omitS, omitI]
  split_ifs <;> simp [*, decS, decI, getField, jsonToGoString]

theorem runData_rt (x : RunData) (h : RunData.jsonOk x = true) :
    RunData.fromJson x.toJson = some x := by
  obtain ⟨m, p, t⟩ := x
  simp only [RunData.jsonOk] at h
  have htrm : ∀ l, m = some l →
      optionTraverse Metric.fromJson (l.map Metric.toJson) = some l := by
    intro l hl
    subst hl
    exact optionTraverse_map_of _ _ l fun y hy => metric_rt y (reqSliceOk_all _ _ h y hy)
  rcases m with _ | m <;> rcases p with _ | p <;> rcases t with _ | t <;>
    simp [RunData.toJson, RunData.fromJson, reqSlice, sliceJson, decSlice, getField,
      htrm, optionTraverse_map Param.toJson Param.fromJson param_rt,
      optionTraverse_map RunTag.toJson RunTag.fromJson runTag_rt]

theorem runInputs_rt (x : RunInputs) (h : RunInputs.jsonOk x = true) :
    RunInputs.fromJson x.toJson = some x := by
  obtain ⟨d, m⟩ := x
  simp only [RunInputs.jsonOk, Bool.and_eq_true] at h
  obtain ⟨hd, hm⟩ := h
  have htrd : ∀ l, d = some l →
      optionTraverse Dataset.fromJson (l.map Dataset.toJson) = some l := by
    intro l hl
    subst hl
    exact optionTraverse_map_of _ _ l fun y hy => dataset_rt y (optSliceOk_all _ _ hd y hy)
  have htrm : ∀ l, m = some l →
      optionTraverse ModelInput.fromJson (l.map ModelInput.toJson) = some l := by
    intro l hl
    subst hl
    exact optionTraverse_map_of _ _ l fun y hy =>
      modelInput_rt y (optSliceOk_all _ _ hm y hy)
  rcases d with _ | d <;> rcases m with _ | m <;>
    simp [RunInputs.toJson, RunInputs.fromJson, omitSlice_of_optSliceOk _ _ _ _ hd,
      omitSlice_of_optSliceOk _ _ _ _ hm, decSlice, getField, htrd, htrm]

theorem runOutputs_rt (x : RunOutputs) (h : RunOutputs.jsonOk x = true) :
    RunOutputs.fromJson x.toJson = some x := by
  obtain ⟨m⟩ := x
  simp only [RunOutputs.jsonOk] at h
  have htrm : ∀ l, m = some l →
      optionTraverse ModelOutput.fromJson (l.map ModelOutput.toJson) = some l := by
    intro l hl
    subst hl
    exact optionTraverse_map_of _ _ l fun y hy =>
      modelOutput_rt y (optSliceOk_all _ _ h y hy)
  rcases m with _ | m <;>
    simp [RunOutputs.toJson, RunOutputs.fromJson, omitSlice_of_optSliceOk _ _ _ _ h,
      decSlice, getField, htrm]

theorem run_rt (x : Run) (h : Run.jsonOk x = true) : Run.fromJson x.toJson = some x := by
  obtain ⟨i, d, inp, out⟩ := x
  simp only [Run.jsonOk, Bool.and_eq_true] at h
  obtain ⟨⟨hd, hi⟩, ho⟩ :=
    (by exact ⟨⟨h.1.1, h.1.2⟩, h.2⟩ : (RunData.jsonOk d = true ∧
      RunInputs.jsonOk inp = true) ∧ RunOutputs.jsonOk out = true)
  simp [Run.toJson, Run.fromJson, decStruct, getField, runInfo_rt i, runData_rt d hd,
    runInputs_rt inp hi, runOutputs_rt out ho]

theorem createRunResponse_rt (x : CreateRunResponse) (h : CreateRunResponse.jsonOk x = true) :
    CreateRunResponse.fromJson x.toJson = some x := by
  obtain ⟨r⟩ := x
  simp only [CreateRunResponse.jsonOk] at h
  simp [CreateRunResponse.toJson, CreateRunResponse.fromJson, decStruct, getField, run_rt r h]

theorem getRunResponse_rt (x : GetRunResponse) (h : GetRunResponse.jsonOk x = true) :
    GetRunResponse.fromJson x.toJson = some x := by
  obtain ⟨r⟩ := x
  simp only [GetRunResponse.jsonOk] at h
  simp [GetRunResponse.toJson, GetRunResponse.fromJson, decStruct, getField, run_rt r h]

theorem searchRunsResponse_rt (x : SearchRunsResponse)
    (h : SearchRunsResponse.jsonOk x = true) :
    SearchRunsResponse.fromJson x.toJson = some x := by
  obtain ⟨r, n⟩ := x
  simp only [SearchRunsResponse.jsonOk] at h
  have htr : ∀ l, r = some l →
      optionTraverse Run.fromJson (l.map Run.toJson) = some l := by
    intro l hl
    subst hl
    exact optionTraverse_map_of _ _ l fun y hy => run_rt y (reqSliceOk_all _ _ h y hy)
  rcases r with _ | r <;>
    (simp only [SearchRunsResponse.toJson, SearchRunsResponse.fromJson, reqSlice, sliceJson,
       omitS]
     split_ifs <;> simp [*, decSlice, decS, getField, jsonToGoString, htr])

theorem updateRunResponse_rt (x : UpdateRunResponse) :
    UpdateRunResponse.fromJson x.toJson = some x := by
  obtain ⟨r⟩ := x
  simp [UpdateRunResponse.toJson, UpdateRunResponse.fromJson, decStruct, getField,
    runInfo_rt r]

theorem getExperimentResponse_rt (x : GetExperimentResponse) :
    GetExperimentResponse.fromJson x.toJson = some x := by
  obtain ⟨e⟩ := x
  simp [GetExperimentResponse.toJson, GetExperimentResponse.fromJson, decStruct, getField,
    experiment_rt e]

theorem searchExperimentsResponse_rt (x : SearchExperimentsResponse) :
    SearchExperimentsResponse.fromJson x.toJson = some x := by
  obtain ⟨e, n⟩ := x
  rcases e with _ | e <;>
    (simp only [SearchExperimentsResponse.toJson, SearchExperimentsResponse.fromJson,
       reqSlice, sliceJson, omitS]
     split_ifs <;>
       simp [*, decSlice, decS, getField, jsonToGoString,
         optionTraverse_map Experiment.toJson Experiment.fromJson experiment_rt])

theorem listExperimentsResponse_rt (x : ListExperimentsResponse) :
    ListExperimentsResponse.fromJson x.toJson = some x := by
  obtain ⟨e, n⟩ := x
  rcases e with _ | e <;>
    (simp only [ListExperimentsResponse.toJson, ListExperimentsResponse.fromJson, reqSlice,
       sliceJson, omitS]
     split_ifs <;>
       simp [*, decSlice, decS, getField, jsonToGoString,
         optionTraverse_map Experiment.toJson Experiment.fromJson experiment_rt])

theorem getMetricHistoryResponse_rt (x : GetMetricHistoryResponse)
    (h : GetMetricHistoryResponse.jsonOk x = true) :
    GetMetricHistoryResponse.fromJson x.toJson = some x := by
  obtain ⟨m, n⟩ := x
  simp only [GetMetricHistoryResponse.jsonOk] at h
  have htr : ∀ l, m = some l →
      optionTraverse Metric.fromJson (l.map Metric.toJson) = some l := by
    intro l hl
    subst hl
    exact optionTraverse_map_of _ _ l fun y hy => metric_rt y (reqSliceOk_all _ _ h y hy)
  rcases m with _ | m <;>
    (simp only [GetMetricHistoryResponse.toJson, GetMetricHistoryResponse.fromJson, reqSlice,
       sliceJson, omitS]
     split_ifs <;> simp [*, decSlice, decS, getField, jsonToGoString, htr])

theorem logBatchRequest_rt (x : LogBatchRequest) (h : LogBatchRequest.jsonOk x = true) :
    LogBatchRequest.fromJson x.toJson = some x := by
  obtain ⟨r, m, p, t⟩ := x
  simp only [LogBatchRequest.jsonOk, Bool.and_eq_true] at h
  obtain ⟨⟨hm, hp⟩, ht⟩ :=
    (by exact ⟨⟨h.1.1, h.1.2⟩, h.2⟩ : (optSliceOk Metric.jsonOk m = true ∧
      omitOk p = true) ∧ omitOk t = true)
  have htrm : ∀ l, m = some l →
      optionTraverse Metric.fromJson (l.map Metric.toJson) = some l := by
    intro l hl
    subst hl
    exact optionTraverse_map_of _ _ l fun y hy => metric_rt y (optSliceOk_all _ _ hm y hy)
  rcases m with _ | m <;> rcases p with _ | p <;> rcases t with _ | t <;>
    simp [LogBatchRequest.toJson, LogBatchRequest.fromJson, reqS,
      omitSlice_of_optSliceOk _ _ _ _ hm, omitSlice_of_omitOk _ _ _ hp,
      omitSlice_of_omitOk _ _ _ ht, decS, decSlice, getField, jsonToGoString, htrm,
      optionTraverse_map Param.toJson Param.fromJson param_rt,
      optionTraverse_map RunTag.toJson RunTag.fromJson runTag_rt]

/-! Evaluation lemmas for `getField` over the segment concatenations
produced by the marshallers, and conditional resolution lemmas for the
decoders. They let the decoder of each key evaluate without case
splitting on the omit conditions of the other fields. -/

theorem getField_nil (k : String) : getField [] k = none := rfl

theorem getField_cons (p : String × Json) (l : List (String × Json)) (k : String) :
    getField (p :: l) k = Option.or (getField l k) (if p.1 = k then some p.2 else none) := by
  cases hp : getField l k <;> simp [getField, hp, Option.or]

theorem getField_append (l1 l2 : List (String × Json)) (k : String) :
    getField (l1 ++ l2) k = Option.or (getField l2 k) (getField l1 k) := by
  induction l1 with
  | nil => simp [getField]
  | cons p l ih => simp [getField_cons, ih, Option.or_assoc]

theorem getField_omitS_ne (k0 v k : String) (h : k0 ≠ k) :
    getField (omitS k0 v) k = none := by
  unfold omitS
  split_ifs <;> simp [getField, h]

theorem getField_omitS_self (k0 v : String) :
    getField (omitS k0 v) k0 = omitSVal v := by
  unfold omitS omitSVal
  split_ifs <;> simp [getField]

theorem getField_omitI_ne (k0 k : String) (v : Int) (h : k0 ≠ k) :
    getField (omitI k0 v) k = none := by
  unfold omitI
  split_ifs <;> simp [getField, h]

theorem getField_omitI_self (k0 : String) (v : Int) :
    getField (omitI k0 v) k0 = omitIVal v := by
  unfold omitI omitIVal
  split_ifs <;> simp [getField]

theorem decS_req_of (fs : List (String × Json)) (k v : String)
    (h : getField fs k = some (Json.str v)) : decS fs k = some v := by
  unfold decS
  rw [h]
  rfl

theorem decS_omit_of (fs : List (String × Json)) (k v : String)
    (h : getField fs k = omitSVal v) : decS fs k = some v := by
  unfold decS
  rw [h]
  unfold omitSVal
  split_ifs with hv
  · simp [hv]
  · rfl

theorem decI_req_of (fs : List (String × Json)) (k : String) (v : Int)
    (h : getField fs k = some (Json.num v)) : decI fs k = some v := by
  unfold decI
  rw [h]

theorem decI_omit_of (fs : List (String × Json)) (k : String) (v : Int)
    (h : getField fs k = omitIVal v) : decI fs k = some v := by
  unfold decI
  rw [h]
  unfold omitIVal
  split_ifs with hv
  · simp [hv]
  · rfl

theorem decS_none_of (fs : List (String × Json)) (k : String)
    (h : getField fs k = none) : decS fs k = some "" := by
  unfold decS
  rw [h]

theorem decI_none_of (fs : List (String × Json)) (k : String)
    (h : getField fs k = none) : decI fs k = some 0 := by
  unfold decI
  rw [h]

theorem decB_req_of (fs : List (String × Json)) (k : String) (v : Bool)
    (h : getField fs k = some (Json.bool v)) : decB fs k = some v := by
  unfold decB
  rw [h]

theorem decF_req_of (fs : List (String × Json)) (k : String) (v : GoFloat64)
    (h : getField fs k = some (Json.fnum v)) : decF fs k = some v := by
  unfold decF
  rw [h]

theorem decSlice_none_of (g : Json → Option α) (fs : List (String × Json)) (k : String)
    (h : getField fs k = none) : decSlice g fs k = some none := by
  unfold decSlice
  rw [h]

theorem decSlice_null_of (g : Json → Option α) (fs : List (String × Json)) (k : String)
    (h : getField fs k = some Json.null) : decSlice g fs k = some none := by
  unfold decSlice
  rw [h]

theorem decSlice_arr_of (g : Json → Option α) (f : α → Json) (l : List α)
    (fs : List (String × Json)) (k : String)
    (h : getField fs k = some (Json.arr (l.map f)))
    (htr : optionTraverse g (l.map f) = some l) : decSlice g fs k = some (some l) := by
  unfold decSlice
  rw [h]
  simp [htr]

theorem decSlice_arr_flat (g : Json → Option α) (f : α → Json)
    (H : ∀ y, g (f y) = some y) (l : List α) (fs : List (String × Json)) (k : String)
    (h : getField fs k = some (Json.arr (l.map f))) : decSlice g fs k = some (some l) :=
  decSlice_arr_of g f l fs k h (optionTraverse_map f g H l)

theorem decStruct_of (fromJ : Json → Option α) (dflt : α) (val : α) (j : Json)
    (fs : List (String × Json)) (k : String) (h1 : getField fs k = some j)
    (h2 : fromJ j = some val) : decStruct fromJ dflt fs k = some val := by
  unfold decStruct
  rw [h1]
  exact h2

theorem decS_view (fs : List (String × Json)) (k : String) :
    decS fs k = decodeStr (getField fs k) := by
  cases hg : getField fs k <;> simp [decS, decodeStr, hg]

theorem decI_view (fs : List (String × Json)) (k : String) :
    decI fs k = decodeInt (getField fs k) := by
  cases hg : getField fs k <;> simp [decI, decodeInt, hg]

theorem decB_view (fs : List (String × Json)) (k : String) :
    decB fs k = decodeBool (getField fs k) := by
  cases hg : getField fs k <;> simp [decB, decodeBool, hg]

theorem decF_view (fs : List (String × Json)) (k : String) :
    decF fs k = decodeFloat (getField fs k) := by
  cases hg : getField fs k <;> simp [decF, decodeFloat, hg]

theorem decSlice_view (g : Json → Option α) (fs : List (String × Json)) (k : String) :
    decSlice g fs k = decodeSliceVal g (getField fs k) := by
  cases hg : getField fs k <;> simp [decSlice, decodeSliceVal, hg]

theorem decStruct_view (fromJ : Json → Option α) (dflt : α) (fs : List (String × Json))
    (k : String) : decStruct fromJ dflt fs k = decodeStructVal fromJ dflt (getField fs k) := by
  cases hg : getField fs k <;> simp [decStruct, decodeStructVal, hg]

theorem decodeStr_none : decodeStr none = some "" := rfl

theorem decodeStr_str (v : String) : decodeStr (some (Json.str v)) = some v := rfl

theorem decodeInt_none : decodeInt none = some 0 := rfl

theorem decodeInt_num (v : Int) : decodeInt (some (Json.num v)) = some v := rfl

theorem decodeBool_none : decodeBool none = some false := rfl

theorem decodeBool_bool (v : Bool) : decodeBool (some (Json.bool v)) = some v := rfl

theorem decodeFloat_none : decodeFloat none = some GoFloat64.zero := rfl

theorem decodeFloat_fnum (v : GoFloat64) : decodeFloat (some (Json.fnum v)) = some v := rfl

theorem decodeSliceVal_none (g : Json → Option α) : decodeSliceVal g none = some none := rfl

theorem decodeStructVal_none (fromJ : Json → Option α) (dflt : α) :
    decodeStructVal fromJ dflt none = some dflt := rfl

theorem decodeStructVal_some (fromJ : Json → Option α) (dflt : α) (j : Json) :
    decodeStructVal fromJ dflt (some j) = fromJ j := rfl

theorem decodeStr_omitSVal (v : String) : decodeStr (omitSVal v) = some v := by
  unfold omitSVal
  split_ifs with hv <;> simp [decodeStr, jsonToGoString, hv]

theorem decodeInt_omitIVal (v : Int) : decodeInt (omitIVal v) = some v := by
  unfold omitIVal
  split_ifs with hv <;> simp [decodeInt, hv]

theorem decodeSliceVal_arr_flat (g : Json → Option α) (f : α → Json)
    (H : ∀ y, g (f y) = some y) (l : List α) :
    decodeSliceVal g (some (Json.arr (l.map f))) = some (some l) := by
  simp [decodeSliceVal, optionTraverse_map f g H l]

theorem decodeSliceVal_arr_of (g : Json → Option α) (l : List α) (js : List Json)
    (h : optionTraverse g js = some l) :
    decodeSliceVal g (some (Json.arr js)) = some (some l) := by
  simp [decodeSliceVal, h]

set_option maxHeartbeats 1000000 in
theorem modelVersion_rt (x : ModelVersion) (h : ModelVersion.jsonOk x = true) :
    ModelVersion.fromJson x.toJson = some x := by
  obtain ⟨n, v, ct, lu, ui, cs, d, s, ri, st, sm, t, a⟩ := x
  simp only [ModelVersion.jsonOk, Bool.and_eq_true] at h
  obtain ⟨ht, ha⟩ := h
  rcases t with _ | t <;> rcases a with _ | a <;>
    simp [ModelVersion.toJson, ModelVersion.fromJson, reqS, reqI,
      omitSlice_of_omitOk _ _ _ ht, omitSlice_of_omitOk _ _ _ ha, getField_append,
      getField_cons, getField_nil, getField_omitS_ne, getField_omitS_self,
      decS_view, decI_view, decSlice_view, decodeStr_str, decodeStr_omitSVal,
      decodeInt_num, decodeSliceVal_none,
      decodeSliceVal_arr_flat ModelVersionTag.fromJson ModelVersionTag.toJson
        modelVersionTag_rt,
      decodeSliceVal_arr_flat jsonToGoString Json.str jsonToGoString_rt,
      Option.or_assoc, Option.or_none, Option.none_or]

set_option maxHeartbeats 1000000 in
theorem registeredModel_rt (x : RegisteredModel) (h : RegisteredModel.jsonOk x = true) :
    RegisteredModel.fromJson x.toJson = some x := by
  obtain ⟨n, ct, lu, ui, d, lv, t, a⟩ := x
  simp only [RegisteredModel.jsonOk, Bool.and_eq_true] at h
  obtain ⟨⟨hl, ht⟩, ha⟩ :=
    (by exact ⟨⟨h.1.1, h.1.2⟩, h.2⟩ : (optSliceOk ModelVersion.jsonOk lv = true ∧
      omitOk t = true) ∧ omitOk a = true)
  have hdec : ∀ l, lv = some l →
      decodeSliceVal ModelVersion.fromJson (some (Json.arr (l.map ModelVersion.toJson))) =
        some (some l) := by
    intro l hlv
    refine decodeSliceVal_arr_of _ _ _ ?hh
    exact optionTraverse_map_of _ _ l fun y hy =>
      modelVersion_rt y (optSliceOk_all _ _ (hlv ▸ hl) y hy)
  rcases lv with _ | lv <;> rcases t with _ | t <;> rcases a with _ | a <;>
    simp [RegisteredModel.toJson, RegisteredModel.fromJson, reqS, reqI,
      omitSlice_of_optSliceOk _ _ _ _ hl, omitSlice_of_omitOk _ _ _ ht,
      omitSlice_of_omitOk _ _ _ ha, getField_append, getField_cons, getField_nil,
      getField_omitS_ne, getField_omitS_self,
      decS_view, decI_view, decSlice_view, decodeStr_str, decodeStr_omitSVal,
      decodeInt_num, decodeSliceVal_none, hdec,
      decodeSliceVal_arr_flat RegisteredModelTag.fromJson RegisteredModelTag.toJson
        registeredModelTag_rt,
      decodeSliceVal_arr_flat jsonToGoString Json.str jsonToGoString_rt,
      Option.or_assoc, Option.or_none, Option.none_or]

theorem createModelVersionResponse_rt (x : CreateModelVersionResponse)
    (h : CreateModelVersionResponse.jsonOk x = true) :
    CreateModelVersionResponse.fromJson x.toJson = some x := by
  obtain ⟨m⟩ := x
  simp only [CreateModelVersionResponse.jsonOk] at h
  simp [CreateModelVersionResponse.toJson, CreateModelVersionResponse.fromJson, decStruct,
    getField, modelVersion_rt m h]

theorem getModelVersionResponse_rt (x : GetModelVersionResponse)
    (h : GetModelVersionResponse.jsonOk x = true) :
    GetModelVersionResponse.fromJson x.toJson = some x := by
  obtain ⟨m⟩ := x
  simp only [GetModelVersionResponse.jsonOk] at h
  simp [GetModelVersionResponse.toJson, GetModelVersionResponse.fromJson, decStruct,
    getField, modelVersion_rt m h]

theorem getModelVersionByAliasResponse_rt (x : GetModelVersionByAliasResponse)
    (h : GetModelVersionByAliasResponse.jsonOk x = true) :
    GetModelVersionByAliasResponse.fromJson x.toJson = some x := by
  obtain ⟨m⟩ := x
  simp only [GetModelVersionByAliasResponse.jsonOk] at h
  simp [GetModelVersionByAliasResponse.toJson, GetModelVersionByAliasResponse.fromJson,
    decStruct, getField, modelVersion_rt m h]

theorem getLatestModelVersionsResponse_rt (x : GetLatestModelVersionsResponse)
    (h : GetLatestModelVersionsResponse.jsonOk x = true) :
    GetLatestModelVersionsResponse.fromJson x.toJson = some x := by
  obtain ⟨m⟩ := x
  simp only [GetLatestModelVersionsResponse.jsonOk] at h
  have htr : ∀ l, m = some l →
      optionTraverse ModelVersion.fromJson (l.map ModelVersion.toJson) = some l := by
    intro l hl
    subst hl
    exact optionTraverse_map_of _ _ l fun y hy =>
      modelVersion_rt y (reqSliceOk_all _ _ h y hy)
  rcases m with _ | m <;>
    simp [GetLatestModelVersionsResponse.toJson, GetLatestModelVersionsResponse.fromJson,
      reqSlice, sliceJson, decSlice, getField, htr]

theorem searchModelVersionsResponse_rt (x : SearchModelVersionsResponse)
    (h : SearchModelVersionsResponse.jsonOk x = true) :
    SearchModelVersionsResponse.fromJson x.toJson = some x := by
  obtain ⟨m, n⟩ := x
  simp only [SearchModelVersionsResponse.jsonOk] at h
  have htr : ∀ l, m = some l →
      optionTraverse ModelVersion.fromJson (l.map ModelVersion.toJson) = some l := by
    intro l hl
    subst hl
    exact optionTraverse_map_of _ _ l fun y hy =>
      modelVersion_rt y (reqSliceOk_all _ _ h y hy)
  rcases m with _ | m <;>
    (simp only [SearchModelVersionsResponse.toJson, SearchModelVersionsResponse.fromJson,
       reqSlice, sliceJson, omitS]
     split_ifs <;> simp [*, decSlice, decS, getField, jsonToGoString, htr])

theorem listModelVersionsResponse_rt (x : ListModelVersionsResponse)
    (h : ListModelVersionsResponse.jsonOk x = true) :
    ListModelVersionsResponse.fromJson x.toJson = some x := by
  obtain ⟨m, n⟩ := x
  simp only [ListModelVersionsResponse.jsonOk] at h
  have htr : ∀ l, m = some l →
      optionTraverse ModelVersion.fromJson (l.map ModelVersion.toJson) = some l := by
    intro l hl
    subst hl
    exact optionTraverse_map_of _ _ l fun y hy =>
      modelVersion_rt y (reqSliceOk_all _ _ h y hy)
  rcases m with _ | m <;>
    (simp only [ListModelVersionsResponse.toJson, ListModelVersionsResponse.fromJson,
       reqSlice, sliceJson, omitS]
     split_ifs <;> simp [*, decSlice, decS, getField, jsonToGoString, htr])

theorem createRegisteredModelResponse_rt (x : CreateRegisteredModelResponse)
    (h : CreateRegisteredModelResponse.jsonOk x = true) :
    CreateRegisteredModelResponse.fromJson x.toJson = some x := by
  obtain ⟨r⟩ := x
  simp only [CreateRegisteredModelResponse.jsonOk] at h
  simp [CreateRegisteredModelResponse.toJson, CreateRegisteredModelResponse.fromJson,
    decStruct, getField, registeredModel_rt r h]

theorem getRegisteredModelResponse_rt (x : GetRegisteredModelResponse)
    (h : GetRegisteredModelResponse.jsonOk x = true) :
    GetRegisteredModelResponse.fromJson x.toJson = some x := by
  obtain ⟨r⟩ := x
  simp only [GetRegisteredModelResponse.jsonOk] at h
  simp [GetRegisteredModelResponse.toJson, GetRegisteredModelResponse.fromJson, decStruct,
    getField, registeredModel_rt r h]

theorem renameRegisteredModelResponse_rt (x : RenameRegisteredModelResponse)
    (h : RenameRegisteredModelResponse.jsonOk x = true) :
    RenameRegisteredModelResponse.fromJson x.toJson = some x := by
  obtain ⟨r⟩ := x
  simp only [RenameRegisteredModelResponse.jsonOk] at h
  simp [RenameRegisteredModelResponse.toJson, RenameRegisteredModelResponse.fromJson,
    decStruct, getField, registeredModel_rt r h]

theorem searchRegisteredModelsResponse_rt (x : SearchRegisteredModelsResponse)
    (h : SearchRegisteredModelsResponse.jsonOk x = true) :
    SearchRegisteredModelsResponse.fromJson x.toJson = some x := by
  obtain ⟨r, n⟩ := x
  simp only [SearchRegisteredModelsResponse.jsonOk] at h
  have htr : ∀ l, r = some l →
      optionTraverse RegisteredModel.fromJson (l.map RegisteredModel.toJson) = some l := by
    intro l hl
    subst hl
    exact optionTraverse_map_of _ _ l fun y hy =>
      registeredModel_rt y (reqSliceOk_all _ _ h y hy)
  rcases r with _ | r <;>
    (simp only [SearchRegisteredModelsResponse.toJson,
       SearchRegisteredModelsResponse.fromJson, reqSlice, sliceJson, omitS]
     split_ifs <;> simp [*, decSlice, decS, getField, jsonToGoString, htr])

theorem listRegisteredModelsResponse_rt (x : ListRegisteredModelsResponse)
    (h : ListRegisteredModelsResponse.jsonOk x = true) :
    ListRegisteredModelsResponse.fromJson x.toJson = some x := by
  obtain ⟨r, n⟩ := x
  simp only [ListRegisteredModelsResponse.jsonOk] at h
  have htr : ∀ l, r = some l →
      optionTraverse RegisteredModel.fromJson (l.map RegisteredModel.toJson) = some l := by
    intro l hl
    subst hl
    exact optionTraverse_map_of _ _ l fun y hy =>
      registeredModel_rt y (reqSliceOk_all _ _ h y hy)
  rcases r with _ | r <;>
    (simp only [ListRegisteredModelsResponse.toJson, ListRegisteredModelsResponse.fromJson,
       reqSlice, sliceJson, omitS]
     split_ifs <;> simp [*, decSlice, decS, getField, jsonToGoString, htr])

theorem getDownloadURIsResponse_rt (x : GetDownloadURIsResponse) :
    GetDownloadURIsResponse.fromJson x.toJson = some x := by
  obtain ⟨f⟩ := x
  rcases f with _ | f <;>
    simp [GetDownloadURIsResponse.toJson, GetDownloadURIsResponse.fromJson, reqSlice,
      sliceJson, decSlice, getField,
      optionTraverse_map DownloadURIInfo.toJson DownloadURIInfo.fromJson downloadURIInfo_rt]

/-- The model marshaller accepts a `Metric` exactly when its float64
value is finite. -/
theorem metric_marshalable (x : Metric) :
    (Metric.toJson x).marshalable = x.value.isFinite := by
  obtain ⟨k, v, ts, st⟩ := x
  simp [Metric.toJson, Json.marshalable, marshalableFields, reqS, reqF, reqI]

/-- The model marshaller accepts a `LogMetricRequest` exactly when its
float64 value is finite. -/
theorem logMetricRequest_marshalable (x : LogMetricRequest) :
    (LogMetricRequest.toJson x).marshalable = x.value.isFinite := by
  obtain ⟨r, k, v, ts, st⟩ := x
  simp only [LogMetricRequest.toJson, reqS, reqF, omitI]
  split_ifs <;> simp [*, Json.marshalable, marshalableFields]

/-- C8 counterexample: a `CreateExperimentRequest` whose omitempty
`tags` field holds an empty non-nil slice does not round-trip: the
field is dropped at encode time (length 0), and decoding yields the nil
slice, which is not equal field-for-field to the original. -/
theorem json_roundtrip_counterexample :
    CreateExperimentRequest.toJson ⟨"exp", "", some []⟩ =
      CreateExperimentRequest.toJson ⟨"exp", "", none⟩ ∧
    CreateExperimentRequest.fromJson (CreateExperimentRequest.toJson ⟨"exp", "", some []⟩) =
      some ⟨"exp", "", none⟩ ∧
    CreateExperimentRequest.fromJson (CreateExperimentRequest.toJson ⟨"exp", "", some []⟩) ≠
      some ⟨"exp", "", some []⟩ :=
  ⟨rfl, by decide, by decide⟩

/-- C8 amended: encoding then decoding is the identity on every value
of every embedded request/response type whose omitempty slice fields
are each nil or non-empty and whose float64 fields are finite (the
`jsonOk` guards state exactly those conditions; types without such
fields round-trip unconditionally). The empty non-nil slice is encoded
identically to nil, as the counterexample shows, so it cannot
round-trip; and the marshaller accepts a value with a float64 field
exactly when that value is finite, as the last two conjuncts state for
the two float-carrying types. -/
theorem json_roundtrip_for_surface_types :
    (∀ x : ExperimentTag, ExperimentTag.fromJson x.toJson = some x) ∧
    (∀ x : CreateExperimentRequest, x.tags ≠ some [] → CreateExperimentRequest.fromJson x.toJson = some x) ∧
    (∀ x : CreateExperimentResponse, CreateExperimentResponse.fromJson x.toJson = some x) ∧
    (∀ x : GetExperimentRequest, GetExperimentRequest.fromJson x.toJson = some x) ∧
    (∀ x : SearchExperimentsRequest, x.orderBy ≠ some [] → SearchExperimentsRequest.fromJson x.toJson = some x) ∧
    (∀ x : RunTag, RunTag.fromJson x.toJson = some x) ∧
    (∀ x : Param, Param.fromJson x.toJson = some x) ∧
    (∀ x : CreateRunRequest, x.tags ≠ some [] → CreateRunRequest.fromJson x.toJson = some x) ∧
    (∀ x : GetRunRequest, GetRunRequest.fromJson x.toJson = some x) ∧
    (∀ x : SearchRunsRequest, x.experimentIDs ≠ some [] → x.orderBy ≠ some [] → SearchRunsRequest.fromJson x.toJson = some x) ∧
    (∀ x : UpdateRunRequest, UpdateRunRequest.fromJson x.toJson = some x) ∧
    (∀ x : LogParamRequest, LogParamRequest.fromJson x.toJson = some x) ∧
    (∀ x : RegisteredModelTag, RegisteredModelTag.fromJson x.toJson = some x) ∧
    (∀ x : CreateRegisteredModelRequest, x.tags ≠ some [] → CreateRegisteredModelRequest.fromJson x.toJson = some x) ∧
    (∀ x : SearchModelVersionsRequest, x.orderBy ≠ some [] → SearchModelVersionsRequest.fromJson x.toJson = some x) ∧
    (∀ x : GetDownloadURIsRequest, x.paths ≠ some [] → GetDownloadURIsRequest.fromJson x.toJson = some x) ∧
    (∀ x : SetRegisteredModelAliasRequest, SetRegisteredModelAliasRequest.fromJson x.toJson = some x) ∧
    (∀ x : GetModelVersionByAliasRequest, GetModelVersionByAliasRequest.fromJson x.toJson = some x) ∧
    (∀ x : FileInfo, FileInfo.fromJson x.toJson = some x) ∧
    (∀ x : ListArtifactsResponse, ListArtifactsResponse.fromJson x.toJson = some x) ∧
    (∀ x : ErrorResponse, ErrorResponse.fromJson x.toJson = some x) ∧
    (∀ x : GetExperimentByNameRequest, GetExperimentByNameRequest.fromJson x.toJson = some x) ∧
    (∀ x : SetTagRequest, SetTagRequest.fromJson x.toJson = some x) ∧
    (∀ x : LogModelRequest, LogModelRequest.fromJson x.toJson = some x) ∧
    (∀ x : GetRegisteredModelRequest, GetRegisteredModelRequest.fromJson x.toJson = some x) ∧
    (∀ x : ModelVersionTag, ModelVersionTag.fromJson x.toJson = some x) ∧
    (∀ x : GetModelVersionRequest, GetModelVersionRequest.fromJson x.toJson = some x) ∧
    (∀ x : RenameRegisteredModelRequest, RenameRegisteredModelRequest.fromJson x.toJson = some x) ∧
    (∀ x : SetRegisteredModelTagRequest, SetRegisteredModelTagRequest.fromJson x.toJson = some x) ∧
    (∀ x : SetModelVersionTagRequest, SetModelVersionTagRequest.fromJson x.toJson = some x) ∧
    (∀ x : DeleteRegisteredModelTagRequest, DeleteRegisteredModelTagRequest.fromJson x.toJson = some x) ∧
    (∀ x : DeleteModelVersionTagRequest, DeleteModelVersionTagRequest.fromJson x.toJson = some x) ∧
    (∀ x : DeleteRegisteredModelAliasRequest, DeleteRegisteredModelAliasRequest.fromJson x.toJson = some x) ∧
    (∀ x : DatasetSchemaColumn, DatasetSchemaColumn.fromJson x.toJson = some x) ∧
    (∀ x : DatasetTag, DatasetTag.fromJson x.toJson = some x) ∧
    (∀ x : ModelInputTag, ModelInputTag.fromJson x.toJson = some x) ∧
    (∀ x : DownloadURIInfo, DownloadURIInfo.fromJson x.toJson = some x) ∧
    (∀ x : ListArtifactsRequest, ListArtifactsRequest.fromJson x.toJson = some x) ∧
    (∀ x : GetMetricHistoryRequest, GetMetricHistoryRequest.fromJson x.toJson = some x) ∧
    (∀ x : Metric, Metric.jsonOk x = true → Metric.fromJson x.toJson = some x) ∧
    (∀ x : LogMetricRequest, LogMetricRequest.jsonOk x = true → LogMetricRequest.fromJson x.toJson = some x) ∧
    (∀ x : CreateModelVersionRequest, CreateModelVersionRequest.jsonOk x = true → CreateModelVersionRequest.fromJson x.toJson = some x) ∧
    (∀ x : SearchRegisteredModelsRequest, SearchRegisteredModelsRequest.jsonOk x = true → SearchRegisteredModelsRequest.fromJson x.toJson = some x) ∧
    (∀ x : GetLatestModelVersionsRequest, GetLatestModelVersionsRequest.jsonOk x = true → GetLatestModelVersionsRequest.fromJson x.toJson = some x) ∧
    (∀ x : DatasetSchema, DatasetSchema.jsonOk x = true → DatasetSchema.fromJson x.toJson = some x) ∧
    (∀ x : Dataset, Dataset.jsonOk x = true → Dataset.fromJson x.toJson = some x) ∧
    (∀ x : ModelInput, ModelInput.jsonOk x = true → ModelInput.fromJson x.toJson = some x) ∧
    (∀ x : ModelOutput, ModelOutput.jsonOk x = true → ModelOutput.fromJson x.toJson = some x) ∧
    (∀ x : LogInputsRequest, LogInputsRequest.jsonOk x = true → LogInputsRequest.fromJson x.toJson = some x) ∧
    (∀ x : Experiment, Experiment.fromJson x.toJson = some x) ∧
    (∀ x : RunInfo, RunInfo.fromJson x.toJson = some x) ∧
    (∀ x : RunData, RunData.jsonOk x = true → RunData.fromJson x.toJson = some x) ∧
    (∀ x : RunInputs, RunInputs.jsonOk x = true → RunInputs.fromJson x.toJson = some x) ∧
    (∀ x : RunOutputs, RunOutputs.jsonOk x = true → RunOutputs.fromJson x.toJson = some x) ∧
    (∀ x : Run, Run.jsonOk x = true → Run.fromJson x.toJson = some x) ∧
    (∀ x : CreateRunResponse, CreateRunResponse.jsonOk x = true → CreateRunResponse.fromJson x.toJson = some x) ∧
    (∀ x : GetRunResponse, GetRunResponse.jsonOk x = true → GetRunResponse.fromJson x.toJson = some x) ∧
    (∀ x : SearchRunsResponse, SearchRunsResponse.jsonOk x = true → SearchRunsResponse.fromJson x.toJson = some x) ∧
    (∀ x : UpdateRunResponse, UpdateRunResponse.fromJson x.toJson = some x) ∧
    (∀ x : GetExperimentResponse, GetExperimentResponse.fromJson x.toJson = some x) ∧
    (∀ x : SearchExperimentsResponse, SearchExperimentsResponse.fromJson x.toJson = some x) ∧
    (∀ x : ListExperimentsResponse, ListExperimentsResponse.fromJson x.toJson = some x) ∧
    (∀ x : GetMetricHistoryResponse, GetMetricHistoryResponse.jsonOk x = true → GetMetricHistoryResponse.fromJson x.toJson = some x) ∧
    (∀ x : LogBatchRequest, LogBatchRequest.jsonOk x = true → LogBatchRequest.fromJson x.toJson = some x) ∧
    (∀ x : ModelVersion, ModelVersion.jsonOk x = true → ModelVersion.fromJson x.toJson = some x) ∧
    (∀ x : RegisteredModel, RegisteredModel.jsonOk x = true → RegisteredModel.fromJson x.toJson = some x) ∧
    (∀ x : CreateModelVersionResponse, CreateModelVersionResponse.jsonOk x = true → CreateModelVersionResponse.fromJson x.toJson = some x) ∧
    (∀ x : GetModelVersionResponse, GetModelVersionResponse.jsonOk x = true → GetModelVersionResponse.fromJson x.toJson = some x) ∧
    (∀ x : GetModelVersionByAliasResponse, GetModelVersionByAliasResponse.jsonOk x = true → GetModelVersionByAliasResponse.fromJson x.toJson = some x) ∧
    (∀ x : GetLatestModelVersionsResponse, GetLatestModelVersionsResponse.jsonOk x = true → GetLatestModelVersionsResponse.fromJson x.toJson = some x) ∧
    (∀ x : SearchModelVersionsResponse, SearchModelVersionsResponse.jsonOk x = true → SearchModelVersionsResponse.fromJson x.toJson = some x) ∧
    (∀ x : ListModelVersionsResponse, ListModelVersionsResponse.jsonOk x = true → ListModelVersionsResponse.fromJson x.toJson = some x) ∧
    (∀ x : CreateRegisteredModelResponse, CreateRegisteredModelResponse.jsonOk x = true → CreateRegisteredModelResponse.fromJson x.toJson = some x) ∧
    (∀ x : GetRegisteredModelResponse, GetRegisteredModelResponse.jsonOk x = true → GetRegisteredModelResponse.fromJson x.toJson = some x) ∧
    (∀ x : RenameRegisteredModelResponse, RenameRegisteredModelResponse.jsonOk x = true → RenameRegisteredModelResponse.fromJson x.toJson = some x) ∧
    (∀ x : SearchRegisteredModelsResponse, SearchRegisteredModelsResponse.jsonOk x = true → SearchRegisteredModelsResponse.fromJson x.toJson = some x) ∧
    (∀ x : ListRegisteredModelsResponse, ListRegisteredModelsResponse.jsonOk x = true → ListRegisteredModelsResponse.fromJson x.toJson = some x) ∧
    (∀ x : GetDownloadURIsResponse, GetDownloadURIsResponse.fromJson x.toJson = some x) ∧
    (∀ x : Metric, (Metric.toJson x).marshalable = x.value.isFinite) ∧
    (∀ x : LogMetricRequest, (LogMetricRequest.toJson x).marshalable = x.value.isFinite) :=
  ⟨experimentTag_rt,
    createExperimentRequest_rt,
    createExperimentResponse_rt,
    getExperimentRequest_rt,
    searchExperimentsRequest_rt,
    runTag_rt,
    param_rt,
    createRunRequest_rt,
    getRunRequest_rt,
    searchRunsRequest_rt,
    updateRunRequest_rt,
    logParamRequest_rt,
    registeredModelTag_rt,
    createRegisteredModelRequest_rt,
    searchModelVersionsRequest_rt,
    getDownloadURIsRequest_rt,
    setRegisteredModelAliasRequest_rt,
    getModelVersionByAliasRequest_rt,
    fileInfo_rt,
    listArtifactsResponse_rt,
    errorResponse_rt,
    getExperimentByNameRequest_rt,
    setTagRequest_rt,
    logModelRequest_rt,
    getRegisteredModelRequest_rt,
    modelVersionTag_rt,
    getModelVersionRequest_rt,
    renameRegisteredModelRequest_rt,
    setRegisteredModelTagRequest_rt,
    setModelVersionTagRequest_rt,
    deleteRegisteredModelTagRequest_rt,
    deleteModelVersionTagRequest_rt,
    deleteRegisteredModelAliasRequest_rt,
    datasetSchemaColumn_rt,
    datasetTag_rt,
    modelInputTag_rt,
    downloadURIInfo_rt,
    listArtifactsRequest_rt,
    getMetricHistoryRequest_rt,
    metric_rt,
    logMetricRequest_rt,
    createModelVersionRequest_rt,
    searchRegisteredModelsRequest_rt,
    getLatestModelVersionsRequest_rt,
    datasetSchema_rt,
    dataset_rt,
    modelInput_rt,
    modelOutput_rt,
    logInputsRequest_rt,
    experiment_rt,
    runInfo_rt,
    runData_rt,
    runInputs_rt,
    runOutputs_rt,
    run_rt,
    createRunResponse_rt,
    getRunResponse_rt,
    searchRunsResponse_rt,
    updateRunResponse_rt,
    getExperimentResponse_rt,
    searchExperimentsResponse_rt,
    listExperimentsResponse_rt,
    getMetricHistoryResponse_rt,
    logBatchRequest_rt,
    modelVersion_rt,
    registeredModel_rt,
    createModelVersionResponse_rt,
    getModelVersionResponse_rt,
    getModelVersionByAliasResponse_rt,
    getLatestModelVersionsResponse_rt,
    searchModelVersionsResponse_rt,
    listModelVersionsResponse_rt,
    createRegisteredModelResponse_rt,
    getRegisteredModelResponse_rt,
    renameRegisteredModelResponse_rt,
    searchRegisteredModelsResponse_rt,
    listRegisteredModelsResponse_rt,
    getDownloadURIsResponse_rt,
    metric_marshalable,
    logMetricRequest_marshalable⟩

/-- Witness for C8 at concrete values: a request with a non-empty
omitempty slice, a search request with two guards, a metric with a
finite float64 (bit pattern of 2.5), a full nested run, a model
version with tags, and the marshalability of the finite metric. -/
theorem json_roundtrip_for_surface_types_witness :
    CreateExperimentRequest.fromJson
        (CreateExperimentRequest.toJson ⟨"exp", "s3://b", some [⟨"k", "v"⟩]⟩) =
      some ⟨"exp", "s3://b", some [⟨"k", "v"⟩]⟩ ∧
    SearchRunsRequest.fromJson
        (SearchRunsRequest.toJson ⟨some ["1", "2"], "f", "", 10, none, "tok"⟩) =
      some ⟨some ["1", "2"], "f", "", 10, none, "tok"⟩ ∧
    Metric.fromJson (Metric.toJson ⟨"m", ⟨4612811918334230528⟩, 100, 1⟩) =
      some ⟨"m", ⟨4612811918334230528⟩, 100, 1⟩ ∧
    Run.fromJson (Run.toJson ⟨⟨"r1", "nm", "e1", "u", "FINISHED", 5, 6, "s3://a", "active"⟩,
        ⟨some [⟨"m", ⟨4612811918334230528⟩, 100, 1⟩], some [⟨"p", "v"⟩], none⟩,
        ⟨none, none⟩, ⟨none⟩⟩) =
      some ⟨⟨"r1", "nm", "e1", "u", "FINISHED", 5, 6, "s3://a", "active"⟩,
        ⟨some [⟨"m", ⟨4612811918334230528⟩, 100, 1⟩], some [⟨"p", "v"⟩], none⟩,
        ⟨none, none⟩, ⟨none⟩⟩ ∧
    ModelVersion.fromJson (ModelVersion.toJson
        ⟨"mdl", "1", 5, 6, "u", "Production", "", "s3://m", "", "READY", "",
          some [⟨"k", "v"⟩], none⟩) =
      some ⟨"mdl", "1", 5, 6, "u", "Production", "", "s3://m", "", "READY", "",
        some [⟨"k", "v"⟩], none⟩ ∧
    (Metric.toJson ⟨"m", ⟨4612811918334230528⟩, 100, 1⟩).marshalable = true := by
  obtain ⟨h1, h2, h3, h4, h5, h6, h7, h8, h9, h10, h11, h12, h13, h14, h15, h16, h17, h18,
    h19, h20, h21, h22, h23, h24, h25, h26, h27, h28, h29, h30, h31, h32, h33, h34, h35,
    h36, h37, h38, h39, h40, h41, h42, h43, h44, h45, h46, h47, h48, h49, h50, h51, h52,
    h53, h54, h55, h56, h57, h58, h59, h60, h61, h62, h63, h64, h65, h66, h67, h68, h69,
    h70, h71, h72, h73, h74, h75, h76, h77, h78, h79, h80⟩ :=
    json_roundtrip_for_surface_types
  exact ⟨h2 _ (by decide), h10 _ (by decide) (by decide), h40 _ (by decide),
    h55 _ (by decide), h65 _ (by decide), (h79 _).trans (by decide)⟩

end MlflowClient
